import Mathlib

/-!
# Sony IMX678 image-sensor driver (`imx678.c`)

A shallow embedding of the control coordinator (`imx678_set_ctrl`), the register
transport helpers (`imx678_write_reg`, `imx678_write_array`, `imx678_read_reg`), the
identity check (`imx678_check_sensor_id`), format negotiation (`imx678_set_fmt`), the
power sequencer (`__imx678_power_on`) and the streaming state machine
(`imx678_s_stream`) of the driver, followed by theorems about them.

Conventions of the embedding:

* `u32` values are natural numbers; every place where the C code can wrap around is
  written with an explicit reduction modulo `2 ^ 32` (`u32_of`).
* `int` results are integers: `0` is success, `-5` is `-EIO`, `-22` is `-EINVAL`, `-19` is
  `-ENODEV`; `ret |= x` is `Int.lor ret x`.
* The hardware and the kernel collaborators are a `World` (an event log, the number of
  bus sends issued so far and the runtime-PM usage count) driven by an `Env`
  (the outcomes the collaborators choose: which bus send fails, what a read transfer
  delivers, what `pm_runtime_get_sync` returns, ...).  Every driver function threads the
  `World`.
* The mutex of the driver serialises all operations; the embedding is sequential.
-/

namespace Imx678

set_option maxRecDepth 100000

/-! ## Constants -/

def IMX678_LINK_FREQ_445 : Nat := 445500000
def IMX678_LANES : Nat := 4
def PIXEL_RATE_WITH_445M_10BIT : Nat := IMX678_LINK_FREQ_445 * 2 / 10 * 4
def IMX678_XVCLK_FREQ_37 : Nat := 74250000

def IMX678_CHIP_ID : Nat := 0x4c04
def IMX678_REG_CHIP_ID : Nat := 0x302c

def IMX678_REG_CTRL_MODE : Nat := 0x3000
def IMX678_MODE_SW_STANDBY : Nat := 0x1
def IMX678_MODE_STREAMING : Nat := 0x0

def imx678_REG_MARSTER_MODE : Nat := 0x3002
def imx678_MODE_START : Nat := 0x0

def IMX678_SHR_EXPO_REG_H : Nat := 0x3052
def IMX678_SHR_EXPO_REG_M : Nat := 0x3051
def IMX678_SHR_EXPO_REG_L : Nat := 0x3050

def IMX678_EXPOSURE_MIN : Int := 5
def IMX678_EXPOSURE_STEP : Nat := 1
def IMX678_VTS_MAX : Nat := 0xfffff
def IMX678_REG_GAIN : Nat := 0x3070
def IMX678_GAIN_MIN : Int := 0x00
def IMX678_GAIN_MAX : Int := 0xf0
def IMX678_GAIN_STEP : Nat := 1
def IMX678_GAIN_DEFAULT : Int := 0x30

def IMX678_REG_TEST_PATTERN : Nat := 0x5e00
def IMX678_TEST_PATTERN_ENABLE : Nat := 0x80
def IMX678_TEST_PATTERN_DISABLE : Nat := 0x0

def IMX678_REG_VTS_H : Nat := 0x302a
def IMX678_REG_VTS_M : Nat := 0x3029
def IMX678_REG_VTS_L : Nat := 0x3028

def IMX678_FETCH_EXP_H (VAL : Nat) : Nat := (VAL >>> 16) &&& 0x0F
def IMX678_FETCH_EXP_M (VAL : Nat) : Nat := (VAL >>> 8) &&& 0xFF
def IMX678_FETCH_EXP_L (VAL : Nat) : Nat := VAL &&& 0xFF

def IMX678_FETCH_VTS_H (VAL : Nat) : Nat := (VAL >>> 16) &&& 0x0F
def IMX678_FETCH_VTS_M (VAL : Nat) : Nat := (VAL >>> 8) &&& 0xFF
def IMX678_FETCH_VTS_L (VAL : Nat) : Nat := VAL &&& 0xFF

def IMX678_REG_DELAY : Nat := 0xFFFE
def IMX678_REG_NULL : Nat := 0xFFFF

def IMX678_REG_VALUE_08BIT : Nat := 1
def IMX678_REG_VALUE_16BIT : Nat := 2
def IMX678_REG_VALUE_24BIT : Nat := 3

/-- Kernel errno `EIO` (the driver returns `-EIO`). -/
def EIO_ERRNO : Int := 5
/-- Kernel errno `EINVAL` (the driver returns `-EINVAL`). -/
def EINVAL : Int := 22
/-- Kernel errno `ENODEV` (the driver returns `-ENODEV`). -/
def ENODEV : Int := 19

/-- Kernel media-bus code `MEDIA_BUS_FMT_SRGGB10_1X10` (from `media-bus-format.h`). -/
def MEDIA_BUS_FMT_SRGGB10_1X10 : Nat := 0x300f

/-- Conversion of a C integer expression to `u32` (reduction modulo `2 ^ 32`). -/
def u32_of (x : Int) : Nat := (x % 4294967296).toNat

/-! ## Data model -/

/-- One row of a register table: `struct regval`. -/
structure regval where
  addr : Nat
  val : Nat
  deriving DecidableEq, Repr

/-- HDR kind of a mode (`enum rkmodule_hdr_mode` of `rk-camera-module.h`). -/
inductive rkmodule_hdr_mode where
  | NO_HDR
  | HDR_X2
  | HDR_X3
  deriving DecidableEq, Repr

/-- Sync role (`enum rkmodule_sync_mode` of `rk-camera-module.h`). -/
inductive rkmodule_sync_mode where
  | NO_SYNC_MODE
  | EXTERNAL_MASTER_MODE
  | INTERNAL_MASTER_MODE
  | SLAVE_MODE
  deriving DecidableEq, Repr

open rkmodule_hdr_mode rkmodule_sync_mode

/-- A capture mode: `struct imx678_mode`. -/
structure imx678_mode where
  bus_fmt : Nat
  width : Nat
  height : Nat
  max_fps_numerator : Nat
  max_fps_denominator : Nat
  hts_def : Nat
  vts_def : Nat
  exp_def : Nat
  global_reg_list : List regval
  hdr_mode : rkmodule_hdr_mode
  vclk_freq : Nat
  bpp : Nat
  mipi_freq_idx : Nat
  deriving DecidableEq, Repr

/-- A control of the host framework (`struct v4l2_ctrl`): its published range and its
current value. -/
structure v4l2_ctrl where
  minimum : Int
  maximum : Int
  step : Nat
  default_value : Int
  val : Int
  deriving DecidableEq, Repr

/-- Device state: `struct imx678` (the fields the core uses). -/
structure imx678 where
  exposure : v4l2_ctrl
  anal_gain : v4l2_ctrl
  hblank : v4l2_ctrl
  vblank : v4l2_ctrl
  test_pattern : v4l2_ctrl
  hflip : v4l2_ctrl
  vflip : v4l2_ctrl
  pixel_rate : v4l2_ctrl
  link_freq : v4l2_ctrl
  streaming : Bool
  power_on : Bool
  cur_mode : imx678_mode
  sync_mode : rkmodule_sync_mode
  cur_vts : Nat
  has_init_exp : Bool
  cur_vclk_freq : Nat
  cur_mipi_freq_idx : Nat
  deriving DecidableEq, Repr

/-- Control identifiers handled by `imx678_set_ctrl`; `other` is any id that reaches the
`default:` label of its `switch`. -/
inductive ctrl_id where
  | V4L2_CID_EXPOSURE
  | V4L2_CID_ANALOGUE_GAIN
  | V4L2_CID_VBLANK
  | V4L2_CID_TEST_PATTERN
  | V4L2_CID_HFLIP
  | V4L2_CID_VFLIP
  | other (id : Nat)
  deriving DecidableEq, Repr

open ctrl_id

/-! ## The world outside the driver -/

/-- Observable operations on the collaborators of the driver. -/
inductive Event where
  | i2c_master_send (buf : List Nat)
  | usleep_range (lo hi : Nat)
  | pm_runtime_get_sync
  | pm_runtime_put_noidle
  | pm_runtime_put
  | pm_runtime_get_if_in_use
  | clk_disable_unprepare
  | clk_set_rate (rate : Nat)
  | clk_prepare_enable
  | i2c_transfer (reg_addr_be : List Nat) (len : Nat)
  | pinctrl_select_state
  | gpiod_set_value_reset (value : Nat)
  | gpiod_set_value_pwdn (value : Nat)
  | regulator_bulk_enable
  | regulator_bulk_disable
  deriving DecidableEq, Repr

/-- Outcomes chosen by the collaborators during one driver call. -/
structure Env where
  /-- whether the bus transfer with the given sequence number sends all its bytes -/
  i2c_send_ok : Nat → Bool
  /-- return value of `pm_runtime_get_sync` -/
  pm_get_sync_ret : Int
  /-- return value of `clk_set_rate` -/
  clk_set_rate_ret : Int
  /-- return value of `clk_prepare_enable` -/
  clk_prepare_enable_ret : Int
  /-- outcome of the two-message `i2c_transfer` with the given sequence number: `none` when
  it does not complete both messages, else the bytes delivered by the device -/
  i2c_transfer_data : Nat → Option (List Nat) := fun _ => some []
  /-- return value of `pinctrl_select_state` -/
  pinctrl_select_state_ret : Int := 0
  /-- return value of `regulator_bulk_enable` -/
  regulator_bulk_enable_ret : Int := 0
  /-- whether `pins_default` is a usable pin state (`!IS_ERR_OR_NULL`) -/
  pins_default_valid : Bool := true
  /-- whether the reset line was obtained (`!IS_ERR(reset_gpio)`) -/
  reset_gpio_valid : Bool := true
  /-- whether the power-down line was obtained (`!IS_ERR(pwdn_gpio)`) -/
  pwdn_gpio_valid : Bool := true

/-- State of the collaborators. -/
structure World where
  /-- every operation issued so far, oldest first -/
  log : List Event
  /-- number of `i2c_master_send` calls issued so far -/
  n_send : Nat
  /-- runtime-PM usage count of the device (references acquired minus released) -/
  pm_usage : Int
  deriving DecidableEq, Repr

/-- Append one event to the log. -/
def World.emit (w : World) (e : Event) : World :=
  { w with log := w.log ++ [e] }

/-- The wait `usleep_range(lo, hi)`. -/
def usleep_range (w : World) (lo hi : Nat) : World :=
  w.emit (Event.usleep_range lo hi)

/-- Modelled from the spec: `pm_runtime_get_sync` of the external reference-counted
power-management collaborator ("acquire (may suspend; may fail)").  The usage count is
incremented whatever the outcome, as in the kernel. -/
def pm_runtime_get_sync (env : Env) (w : World) : World × Int :=
  ({ w.emit Event.pm_runtime_get_sync with pm_usage := w.pm_usage + 1 }, env.pm_get_sync_ret)

/-- Modelled from the spec: `pm_runtime_put_noidle`, dropping the reference taken by a
failed acquire. -/
def pm_runtime_put_noidle (w : World) : World :=
  { w.emit Event.pm_runtime_put_noidle with pm_usage := w.pm_usage - 1 }

/-- Modelled from the spec: `pm_runtime_put` ("release (never fails, best-effort)"). -/
def pm_runtime_put (w : World) : World :=
  { w.emit Event.pm_runtime_put with pm_usage := w.pm_usage - 1 }

/-- Modelled from the spec: `pm_runtime_get_if_in_use`: a reference is taken, and `true`
returned, exactly when the device is powered, that is when a reference is already held. -/
def pm_runtime_get_if_in_use (w : World) : World × Bool :=
  if 0 < w.pm_usage then
    ({ w.emit Event.pm_runtime_get_if_in_use with pm_usage := w.pm_usage + 1 }, true)
  else (w, false)

/-- Modelled from the spec: `__v4l2_ctrl_modify_range` republishes the range of a control;
the current value is left to the clamping of the host framework. -/
def __v4l2_ctrl_modify_range (c : v4l2_ctrl) (min max : Int) (step : Nat) (d : Int) :
    v4l2_ctrl :=
  { c with minimum := min, maximum := max, step := step, default_value := d }

/-- Modelled from the spec: `v4l2_ctrl_new_std` creates a control with the given range,
its value being the default. -/
def v4l2_ctrl_new_std (min max : Int) (step : Nat) (d : Int) : v4l2_ctrl :=
  { minimum := min, maximum := max, step := step, default_value := d, val := d }

/-! ## Register tables -/

def imx678_10_3840x2160_global_regs : List regval := [
  regval.mk 0x3000 0x01, regval.mk 0x3001 0x00, regval.mk 0x3002 0x01, regval.mk 0x3014 0x00, regval.mk 0x3015 0x05, regval.mk 0x3022 0x00,
  regval.mk 0x3023 0x00, regval.mk 0x302C 0x4c, regval.mk 0x302D 0x04, regval.mk 0x3050 0x03, regval.mk 0x30A6 0x00, regval.mk 0x3460 0x22,
  regval.mk 0x355A 0x64, regval.mk 0x3A02 0x7A, regval.mk 0x3A10 0xEC, regval.mk 0x3A12 0x71, regval.mk 0x3A14 0xDE, regval.mk 0x3A20 0x2B,
  regval.mk 0x3A24 0x22, regval.mk 0x3A25 0x25, regval.mk 0x3A26 0x2A, regval.mk 0x3A27 0x2C, regval.mk 0x3A28 0x39, regval.mk 0x3A29 0x38,
  regval.mk 0x3A30 0x04, regval.mk 0x3A31 0x04, regval.mk 0x3A32 0x03, regval.mk 0x3A33 0x03, regval.mk 0x3A34 0x09, regval.mk 0x3A35 0x06,
  regval.mk 0x3A38 0xCD, regval.mk 0x3A3A 0x4C, regval.mk 0x3A3C 0xB9, regval.mk 0x3A3E 0x30, regval.mk 0x3A40 0x2C, regval.mk 0x3A42 0x39,
  regval.mk 0x3A4E 0x00, regval.mk 0x3A52 0x00, regval.mk 0x3A56 0x00, regval.mk 0x3A5A 0x00, regval.mk 0x3A5E 0x00, regval.mk 0x3A62 0x00,
  regval.mk 0x3A6E 0xA0, regval.mk 0x3A70 0x50, regval.mk 0x3A8C 0x04, regval.mk 0x3A8D 0x03, regval.mk 0x3A8E 0x09, regval.mk 0x3A90 0x38,
  regval.mk 0x3A91 0x42, regval.mk 0x3A92 0x3C, regval.mk 0x3B0E 0xF3, regval.mk 0x3B12 0xE5, regval.mk 0x3B27 0xC0, regval.mk 0x3B2E 0xEF,
  regval.mk 0x3B30 0x6A, regval.mk 0x3B32 0xF6, regval.mk 0x3B36 0xE1, regval.mk 0x3B3A 0xE8, regval.mk 0x3B5A 0x17, regval.mk 0x3B5E 0xEF,
  regval.mk 0x3B60 0x6A, regval.mk 0x3B62 0xF6, regval.mk 0x3B66 0xE1, regval.mk 0x3B6A 0xE8, regval.mk 0x3B88 0xEC, regval.mk 0x3B8A 0xED,
  regval.mk 0x3B94 0x71, regval.mk 0x3B96 0x72, regval.mk 0x3B98 0xDE, regval.mk 0x3B9A 0xDF, regval.mk 0x3C0F 0x06, regval.mk 0x3C10 0x06,
  regval.mk 0x3C11 0x06, regval.mk 0x3C12 0x06, regval.mk 0x3C13 0x06, regval.mk 0x3C18 0x20, regval.mk 0x3C3A 0x7A, regval.mk 0x3C40 0xF4,
  regval.mk 0x3C48 0xE6, regval.mk 0x3C54 0xCE, regval.mk 0x3C56 0xD0, regval.mk 0x3C6C 0x53, regval.mk 0x3C6E 0x55, regval.mk 0x3C70 0xC0,
  regval.mk 0x3C72 0xC2, regval.mk 0x3C7E 0xCE, regval.mk 0x3C8C 0xCF, regval.mk 0x3C8E 0xEB, regval.mk 0x3C98 0x54, regval.mk 0x3C9A 0x70,
  regval.mk 0x3C9C 0xC1, regval.mk 0x3C9E 0xDD, regval.mk 0x3CB0 0x7A, regval.mk 0x3CB2 0xBA, regval.mk 0x3CC8 0xBC, regval.mk 0x3CCA 0x7C,
  regval.mk 0x3CD4 0xEA, regval.mk 0x3CD5 0x01, regval.mk 0x3CD6 0x4A, regval.mk 0x3CD8 0x00, regval.mk 0x3CD9 0x00, regval.mk 0x3CDA 0xFF,
  regval.mk 0x3CDB 0x03, regval.mk 0x3CDC 0x00, regval.mk 0x3CDD 0x00, regval.mk 0x3CDE 0xFF, regval.mk 0x3CDF 0x03, regval.mk 0x3CE4 0x4C,
  regval.mk 0x3CE6 0xEC, regval.mk 0x3CE7 0x01, regval.mk 0x3CE8 0xFF, regval.mk 0x3CE9 0x03, regval.mk 0x3CEA 0x00, regval.mk 0x3CEB 0x00,
  regval.mk 0x3CEC 0xFF, regval.mk 0x3CED 0x03, regval.mk 0x3CEE 0x00, regval.mk 0x3CEF 0x00, regval.mk 0x3E28 0x82, regval.mk 0x3E2A 0x80,
  regval.mk 0x3E30 0x85, regval.mk 0x3E32 0x7D, regval.mk 0x3E5C 0xCE, regval.mk 0x3E5E 0xD3, regval.mk 0x3E70 0x53, regval.mk 0x3E72 0x58,
  regval.mk 0x3E74 0xC0, regval.mk 0x3E76 0xC5, regval.mk 0x3E78 0xC0, regval.mk 0x3E79 0x01, regval.mk 0x3E7A 0xD4, regval.mk 0x3E7B 0x01,
  regval.mk 0x3EB4 0x0B, regval.mk 0x3EB5 0x02, regval.mk 0x3EB6 0x4D, regval.mk 0x3EEC 0xF3, regval.mk 0x3EEE 0xE7, regval.mk 0x3F01 0x01,
  regval.mk 0x3F24 0x10, regval.mk 0x3F28 0x2D, regval.mk 0x3F2A 0x2D, regval.mk 0x3F2C 0x2D, regval.mk 0x3F2E 0x2D, regval.mk 0x3F30 0x23,
  regval.mk 0x3F38 0x2D, regval.mk 0x3F3A 0x2D, regval.mk 0x3F3C 0x2D, regval.mk 0x3F3E 0x28, regval.mk 0x3F40 0x1E, regval.mk 0x3F48 0x2D,
  regval.mk 0x3F4A 0x2D, regval.mk 0x4004 0xE4, regval.mk 0x4006 0xFF, regval.mk 0x4018 0x69, regval.mk 0x401A 0x84, regval.mk 0x401C 0xD6,
  regval.mk 0x401E 0xF1, regval.mk 0x4038 0xDE, regval.mk 0x403A 0x00, regval.mk 0x403B 0x01, regval.mk 0x404C 0x63, regval.mk 0x404E 0x85,
  regval.mk 0x4050 0xD0, regval.mk 0x4052 0xF2, regval.mk 0x4108 0xDD, regval.mk 0x410A 0xF7, regval.mk 0x411C 0x62, regval.mk 0x411E 0x7C,
  regval.mk 0x4120 0xCF, regval.mk 0x4122 0xE9, regval.mk 0x4138 0xE6, regval.mk 0x413A 0xF1, regval.mk 0x414C 0x6B, regval.mk 0x414E 0x76,
  regval.mk 0x4150 0xD8, regval.mk 0x4152 0xE3, regval.mk 0x417E 0x03, regval.mk 0x417F 0x01, regval.mk 0x4186 0xE0, regval.mk 0x4190 0xF3,
  regval.mk 0x4192 0xF7, regval.mk 0x419C 0x78, regval.mk 0x419E 0x7C, regval.mk 0x41A0 0xE5, regval.mk 0x41A2 0xE9, regval.mk 0x41C8 0xE2,
  regval.mk 0x41CA 0xFD, regval.mk 0x41DC 0x67, regval.mk 0x41DE 0x82, regval.mk 0x41E0 0xD4, regval.mk 0x41E2 0xEF, regval.mk 0x4200 0xDE,
  regval.mk 0x4202 0xDA, regval.mk 0x4218 0x63, regval.mk 0x421A 0x5F, regval.mk 0x421C 0xD0, regval.mk 0x421E 0xCC, regval.mk 0x425A 0x82,
  regval.mk 0x425C 0xEF, regval.mk 0x4348 0xFE, regval.mk 0x4349 0x06, regval.mk 0x4352 0xCE, regval.mk 0x4420 0x0B, regval.mk 0x4421 0x02,
  regval.mk 0x4422 0x4D, regval.mk 0x4426 0xF5, regval.mk 0x442A 0xE7, regval.mk 0x4432 0xF5, regval.mk 0x4436 0xE7, regval.mk 0x4466 0xB4,
  regval.mk 0x446E 0x32, regval.mk 0x449F 0x1C, regval.mk 0x44A4 0x2C, regval.mk 0x44A6 0x2C, regval.mk 0x44A8 0x2C, regval.mk 0x44AA 0x2C,
  regval.mk 0x44B4 0x2C, regval.mk 0x44B6 0x2C, regval.mk 0x44B8 0x2C, regval.mk 0x44BA 0x2C, regval.mk 0x44C4 0x2C, regval.mk 0x44C6 0x2C,
  regval.mk 0x44C8 0x2C, regval.mk 0x4506 0xF3, regval.mk 0x450E 0xE5, regval.mk 0x4516 0xF3, regval.mk 0x4522 0xE5, regval.mk 0x4524 0xF3,
  regval.mk 0x452C 0xE5, regval.mk 0x453C 0x22, regval.mk 0x453D 0x1B, regval.mk 0x453E 0x1B, regval.mk 0x453F 0x15, regval.mk 0x4540 0x15,
  regval.mk 0x4541 0x15, regval.mk 0x4542 0x15, regval.mk 0x4543 0x15, regval.mk 0x4544 0x15, regval.mk 0x4548 0x00, regval.mk 0x4549 0x01,
  regval.mk 0x454A 0x01, regval.mk 0x454B 0x06, regval.mk 0x454C 0x06, regval.mk 0x454D 0x06, regval.mk 0x454E 0x06, regval.mk 0x454F 0x06,
  regval.mk 0x4550 0x06, regval.mk 0x4554 0x55, regval.mk 0x4555 0x02, regval.mk 0x4556 0x42, regval.mk 0x4557 0x05, regval.mk 0x4558 0xFD,
  regval.mk 0x4559 0x05, regval.mk 0x455A 0x94, regval.mk 0x455B 0x06, regval.mk 0x455D 0x06, regval.mk 0x455E 0x49, regval.mk 0x455F 0x07,
  regval.mk 0x4560 0x7F, regval.mk 0x4561 0x07, regval.mk 0x4562 0xA5, regval.mk 0x4564 0x55, regval.mk 0x4565 0x02, regval.mk 0x4566 0x42,
  regval.mk 0x4567 0x05, regval.mk 0x4568 0xFD, regval.mk 0x4569 0x05, regval.mk 0x456A 0x94, regval.mk 0x456B 0x06, regval.mk 0x456D 0x06,
  regval.mk 0x456E 0x49, regval.mk 0x456F 0x07, regval.mk 0x4572 0xA5, regval.mk 0x460C 0x7D, regval.mk 0x460E 0xB1, regval.mk 0x4614 0xA8,
  regval.mk 0x4616 0xB2, regval.mk 0x461C 0x7E, regval.mk 0x461E 0xA7, regval.mk 0x4624 0xA8, regval.mk 0x4626 0xB2, regval.mk 0x462C 0x7E,
  regval.mk 0x462E 0x8A, regval.mk 0x4630 0x94, regval.mk 0x4632 0xA7, regval.mk 0x4634 0xFB, regval.mk 0x4636 0x2F, regval.mk 0x4638 0x81,
  regval.mk 0x4639 0x01, regval.mk 0x463A 0xB5, regval.mk 0x463B 0x01, regval.mk 0x463C 0x26, regval.mk 0x463E 0x30, regval.mk 0x4640 0xAC,
  regval.mk 0x4641 0x01, regval.mk 0x4642 0xB6, regval.mk 0x4643 0x01, regval.mk 0x4644 0xFC, regval.mk 0x4646 0x25, regval.mk 0x4648 0x82,
  regval.mk 0x4649 0x01, regval.mk 0x464A 0xAB, regval.mk 0x464B 0x01, regval.mk 0x464C 0x26, regval.mk 0x464E 0x30, regval.mk 0x4654 0xFC,
  regval.mk 0x4656 0x08, regval.mk 0x4658 0x12, regval.mk 0x465A 0x25, regval.mk 0x4662 0xFC, regval.mk 0x46A2 0xFB, regval.mk 0x46D6 0xF3,
  regval.mk 0x46E6 0x00, regval.mk 0x46E8 0xFF, regval.mk 0x46E9 0x03, regval.mk 0x46EC 0x7A, regval.mk 0x46EE 0xE5, regval.mk 0x46F4 0xEE,
  regval.mk 0x46F6 0xF2, regval.mk 0x470C 0xFF, regval.mk 0x470D 0x03, regval.mk 0x470E 0x00, regval.mk 0x4714 0xE0, regval.mk 0x4716 0xE4,
  regval.mk 0x471E 0xED, regval.mk 0x472E 0x00, regval.mk 0x4730 0xFF, regval.mk 0x4731 0x03, regval.mk 0x4734 0x7B, regval.mk 0x4736 0xDF,
  regval.mk 0x4754 0x7D, regval.mk 0x4756 0x8B, regval.mk 0x4758 0x93, regval.mk 0x475A 0xB1, regval.mk 0x475C 0xFB, regval.mk 0x475E 0x09,
  regval.mk 0x4760 0x11, regval.mk 0x4762 0x2F, regval.mk 0x4766 0xCC, regval.mk 0x4776 0xCB, regval.mk 0x477E 0x4A, regval.mk 0x478E 0x49,
  regval.mk 0x4794 0x7C, regval.mk 0x4796 0x8F, regval.mk 0x4798 0xB3, regval.mk 0x4799 0x00, regval.mk 0x479A 0xCC, regval.mk 0x479C 0xC1,
  regval.mk 0x479E 0xCB, regval.mk 0x47A4 0x7D, regval.mk 0x47A6 0x8E, regval.mk 0x47A8 0xB4, regval.mk 0x47A9 0x00, regval.mk 0x47AA 0xC0,
  regval.mk 0x47AC 0xFA, regval.mk 0x47AE 0x0D, regval.mk 0x47B0 0x31, regval.mk 0x47B1 0x01, regval.mk 0x47B2 0x4A, regval.mk 0x47B3 0x01,
  regval.mk 0x47B4 0x3F, regval.mk 0x47B6 0x49, regval.mk 0x47BC 0xFB, regval.mk 0x47BE 0x0C, regval.mk 0x47C0 0x32, regval.mk 0x47C1 0x01,
  regval.mk 0x47C2 0x3E, regval.mk 0x47C3 0x01, regval.mk 0x4E3C 0x07,
  regval.mk IMX678_REG_NULL 0x00]

def imx678_interal_sync_master_start_regs : List regval :=
  [⟨0x3010, 0x07⟩, ⟨0x31a1, 0x00⟩, ⟨IMX678_REG_NULL, 0x00⟩]

def imx678_interal_sync_master_stop_regs : List regval :=
  [⟨0x31a1, 0x0f⟩, ⟨IMX678_REG_NULL, 0x00⟩]

def imx678_external_sync_master_start_regs : List regval :=
  [⟨0x3010, 0x05⟩, ⟨0x31a1, 0x03⟩, ⟨0x31d9, 0x01⟩, ⟨IMX678_REG_NULL, 0x00⟩]

def imx678_external_sync_master_stop_regs : List regval :=
  [⟨0x31a1, 0x0f⟩, ⟨IMX678_REG_NULL, 0x00⟩]

def imx678_slave_start_regs : List regval :=
  [⟨0x3010, 0x05⟩, ⟨0x31a1, 0x0f⟩, ⟨IMX678_REG_NULL, 0x00⟩]

/-- The mode catalog `supported_modes` (a single entry). -/
def supported_modes : List imx678_mode := [
  { width := 3840,
    height := 2160,
    max_fps_numerator := 10000,
    max_fps_denominator := 300000,
    exp_def := 0x0600,
    hts_def := 0x044C * 4,
    vts_def := 0x08CA,
    bus_fmt := MEDIA_BUS_FMT_SRGGB10_1X10,
    global_reg_list := imx678_10_3840x2160_global_regs,
    hdr_mode := NO_HDR,
    vclk_freq := IMX678_XVCLK_FREQ_37,
    bpp := 10,
    mipi_freq_idx := 0 }]

/-- The first catalog entry, `supported_modes[0]`. -/
def supported_modes_0 : imx678_mode := supported_modes.headD
  { bus_fmt := 0, width := 0, height := 0, max_fps_numerator := 0, max_fps_denominator := 0,
    hts_def := 0, vts_def := 0, exp_def := 0, global_reg_list := [], hdr_mode := NO_HDR,
    vclk_freq := 0, bpp := 0, mipi_freq_idx := 0 }

def link_freq_menu_items : List Nat :=
  [IMX678_LINK_FREQ_445, IMX678_LINK_FREQ_445, IMX678_LINK_FREQ_445]

/-! ## Register transport -/

/-- The four bytes of `cpu_to_be32(val)`, most significant first. -/
def cpu_to_be32 (val : Nat) : List Nat :=
  [(val >>> 24) &&& 0xff, (val >>> 16) &&& 0xff, (val >>> 8) &&& 0xff, val &&& 0xff]

/-- Write registers up to 4 at a time: `imx678_write_reg`. -/
def imx678_write_reg (env : Env) (w : World) (reg : Nat) (len : Nat) (val : Nat) :
    World × Int :=
  if len > 4 then (w, -EINVAL)
  else
    let buf := [(reg >>> 8) &&& 0xff, reg &&& 0xff] ++ (cpu_to_be32 (val % 4294967296)).drop (4 - len)
    let w1 : World := { w.emit (Event.i2c_master_send buf) with n_send := w.n_send + 1 }
    if env.i2c_send_ok w.n_send then (w1, 0) else (w1, -EIO_ERRNO)

/-- Apply a register table up to its `IMX678_REG_NULL` row: `imx678_write_array`. -/
def imx678_write_array (env : Env) : World → List regval → World × Int
  | w, [] => (w, 0)
  | w, r :: rs =>
    if r.addr = IMX678_REG_NULL then (w, 0)
    else if r.addr = IMX678_REG_DELAY then
      imx678_write_array env (usleep_range w r.val (r.val * 2)) rs
    else
      let res := imx678_write_reg env w r.addr IMX678_REG_VALUE_08BIT r.val
      if res.2 = 0 then imx678_write_array env res.1 rs else res

/-- Whether an operation is a two-message register read transfer. -/
def Event.is_i2c_transfer : Event → Bool
  | Event.i2c_transfer _ _ => true
  | _ => false

/-- Number of `i2c_transfer` calls issued so far. -/
def World.n_transfer (w : World) : Nat :=
  w.log.countP Event.is_i2c_transfer

/-- The four bytes of `data_be` after a transfer: zero-initialised, then `len` bytes
received at `&data_be_p[4 - len]` (a byte the device did not deliver stays 0). -/
def data_be (len : Nat) (data : List Nat) : List Nat :=
  List.replicate (4 - len) 0 ++ (List.range len).map fun j => data.getD j 0 % 256

/-- The `u32` value `be32_to_cpu` gives for four bytes in memory order. -/
def be32_to_cpu (bytes : List Nat) : Nat :=
  bytes.getD 0 0 * 16777216 + bytes.getD 1 0 * 65536 + bytes.getD 2 0 * 256 + bytes.getD 3 0

/-- The retry loop of `imx678_read_reg`: up to `n` transfers, stopping at the first one
that completes both messages. -/
def read_reg_transfers (env : Env) (reg len : Nat) : Nat → World → World × Option (List Nat)
  | 0, w => (w, none)
  | n + 1, w =>
    let w1 := w.emit (Event.i2c_transfer [(reg >>> 8) &&& 0xff, reg &&& 0xff] len)
    match env.i2c_transfer_data w.n_transfer with
    | some data => (w1, some data)
    | none => read_reg_transfers env reg len n w1

/-- Read registers up to 4 at a time: `imx678_read_reg`.  `val` is the content of `*val`
before the call; the third component of the result is its content afterwards. -/
def imx678_read_reg (env : Env) (w : World) (reg : Nat) (len : Nat) (val : Nat) :
    World × Int × Nat :=
  if len > 4 ∨ len = 0 then (w, -EINVAL, val)
  else
    let t := read_reg_transfers env reg len 3 w
    match t.2 with
    | none => (t.1, -EIO_ERRNO, val)
    | some data => (t.1, 0, be32_to_cpu (data_be len data))

/-- The identification loop of `imx678_check_sensor_id`: up to `n` reads of the identity
register into `id`, stopping after the first read that leaves `id` equal to the chip id. -/
def check_sensor_id_loop (env : Env) : Nat → World → Nat → World × Nat
  | 0, w, id => (w, id)
  | n + 1, w, id =>
    let r := imx678_read_reg env w IMX678_REG_CHIP_ID IMX678_REG_VALUE_16BIT id
    if r.2.2 = IMX678_CHIP_ID then (r.1, r.2.2)
    else check_sensor_id_loop env n r.1 r.2.2

/-- Sensor identity check: `imx678_check_sensor_id`. -/
def imx678_check_sensor_id (env : Env) (w : World) : World × Int :=
  let l := check_sensor_id_loop env 10 w 0
  if l.2 ≠ IMX678_CHIP_ID then (usleep_range l.1 2000 4000, -ENODEV)
  else (l.1, 0)

/-! ## Control coordinator -/

/-- Write the test-pattern register: `imx678_enable_test_pattern`. -/
def imx678_enable_test_pattern (env : Env) (w : World) (pattern : Nat) : World × Int :=
  let val : Nat :=
    if pattern ≠ 0 then ((pattern - 1) ||| IMX678_TEST_PATTERN_ENABLE) % 4294967296
    else IMX678_TEST_PATTERN_DISABLE
  imx678_write_reg env w IMX678_REG_TEST_PATTERN IMX678_REG_VALUE_08BIT val

/-- The control setter `imx678_set_ctrl`, called by the host framework with the control
`id` and its new value `val` (`ctrl->val`, an `s32`).  The flip controls reach the
hardware only inside `#if 0` blocks, so they write nothing. -/
def imx678_set_ctrl (env : Env) (w : World) (s : imx678) (id : ctrl_id) (val : Int) :
    World × imx678 × Int :=
  /- Propagate change of current control to all related controls -/
  let s1 : imx678 :=
    match id with
    | V4L2_CID_VBLANK =>
      /- Update max exposure while meeting expected vblanking -/
      let max : Int := ((u32_of ((s.cur_mode.height : Int) + val - 4) : Nat) : Int)
      { s with exposure := __v4l2_ctrl_modify_range s.exposure s.exposure.minimum max
                             s.exposure.step s.exposure.default_value }
    | _ => s
  let g := pm_runtime_get_if_in_use w
  if g.2 = false then (g.1, s1, 0)
  else
    let r : World × imx678 × Int :=
      match id with
      | V4L2_CID_EXPOSURE =>
        let shr0 : Nat := u32_of ((s1.cur_vts : Int) - val)
        let r1 := imx678_write_reg env g.1 IMX678_SHR_EXPO_REG_H IMX678_REG_VALUE_08BIT
                    (IMX678_FETCH_EXP_H shr0)
        let r2 := imx678_write_reg env r1.1 IMX678_SHR_EXPO_REG_M IMX678_REG_VALUE_08BIT
                    (IMX678_FETCH_EXP_M shr0)
        let r3 := imx678_write_reg env r2.1 IMX678_SHR_EXPO_REG_L IMX678_REG_VALUE_08BIT
                    (IMX678_FETCH_EXP_L shr0)
        (r3.1, s1, Int.lor (Int.lor r1.2 r2.2) r3.2)
      | V4L2_CID_ANALOGUE_GAIN =>
        let r1 := imx678_write_reg env g.1 IMX678_REG_GAIN IMX678_REG_VALUE_08BIT (u32_of val)
        (r1.1, s1, r1.2)
      | V4L2_CID_VBLANK =>
        let vts0 : Nat := u32_of (val + (s1.cur_mode.height : Int))
        /- vts of hdr mode is double to correct T-line calculation.
           Restore before write to reg. -/
        let vts1 : Nat :=
          if s1.cur_mode.hdr_mode = HDR_X2 then
            ((((vts0 + 3) % 4294967296) >>> 2) * 4) % 4294967296
          else vts0
        let s2 : imx678 := { s1 with cur_vts := vts1 }
        let vts : Nat := if s1.cur_mode.hdr_mode = HDR_X2 then vts1 >>> 1 else vts1
        let r1 := imx678_write_reg env g.1 IMX678_REG_VTS_H IMX678_REG_VALUE_08BIT
                    (IMX678_FETCH_VTS_H vts)
        let r2 := imx678_write_reg env r1.1 IMX678_REG_VTS_M IMX678_REG_VALUE_08BIT
                    (IMX678_FETCH_VTS_M vts)
        let r3 := imx678_write_reg env r2.1 IMX678_REG_VTS_L IMX678_REG_VALUE_08BIT
                    (IMX678_FETCH_VTS_L vts)
        (r3.1, s2, Int.lor (Int.lor r1.2 r2.2) r3.2)
      | V4L2_CID_TEST_PATTERN =>
        let r1 := imx678_enable_test_pattern env g.1 (u32_of val)
        (r1.1, s1, r1.2)
      | V4L2_CID_HFLIP => (g.1, s1, 0)
      | V4L2_CID_VFLIP => (g.1, s1, 0)
      | other _ => (g.1, s1, 0)
    (pm_runtime_put r.1, r.2.1, r.2.2)

/-- Control creation at attach time: `imx678_initialize_controls` (the exit taken when the
host framework reports a handler error is not part of the embedding). -/
def imx678_initialize_controls (s : imx678) : imx678 :=
  let mode := s.cur_mode
  /- a menu control: the driver gives no step -/
  let link_freq0 : v4l2_ctrl := v4l2_ctrl_new_std 0 2 0 0
  let dst_pixel_rate : Nat :=
    (((link_freq_menu_items.getD mode.mipi_freq_idx 0) % 4294967296) / mode.bpp * 2 *
      IMX678_LANES) % 4294967296
  let pixel_rate : v4l2_ctrl := v4l2_ctrl_new_std 0 PIXEL_RATE_WITH_445M_10BIT 1 dst_pixel_rate
  let link_freq : v4l2_ctrl := { link_freq0 with val := mode.mipi_freq_idx }
  let h_blank : Nat := u32_of ((mode.hts_def : Int) - mode.width)
  let hblank : v4l2_ctrl := v4l2_ctrl_new_std h_blank h_blank 1 h_blank
  let vblank_def : Int := ((u32_of ((mode.vts_def : Int) - mode.height) : Nat) : Int)
  let vblank : v4l2_ctrl :=
    v4l2_ctrl_new_std vblank_def ((u32_of ((IMX678_VTS_MAX : Int) - mode.height) : Nat) : Int)
      1 vblank_def
  let exposure_max : Int := ((u32_of ((mode.vts_def : Int) - 4) : Nat) : Int)
  let exposure : v4l2_ctrl :=
    v4l2_ctrl_new_std IMX678_EXPOSURE_MIN exposure_max IMX678_EXPOSURE_STEP mode.exp_def
  let anal_gain : v4l2_ctrl :=
    v4l2_ctrl_new_std IMX678_GAIN_MIN IMX678_GAIN_MAX IMX678_GAIN_STEP IMX678_GAIN_DEFAULT
  /- a menu control: the slot of the step holds the skip mask, 0 -/
  let test_pattern : v4l2_ctrl := v4l2_ctrl_new_std 0 4 0 0
  { s with
    link_freq := link_freq,
    pixel_rate := pixel_rate,
    cur_mipi_freq_idx := mode.mipi_freq_idx,
    cur_vclk_freq := mode.vclk_freq,
    hblank := hblank,
    vblank := vblank,
    cur_vts := mode.vts_def,
    exposure := exposure,
    anal_gain := anal_gain,
    test_pattern := test_pattern,
    hflip := v4l2_ctrl_new_std 0 1 1 0,
    vflip := v4l2_ctrl_new_std 0 1 1 0,
    has_init_exp := false }

/-- The zero-filled device structure of `imx678_probe` after the sync role and the default
mode have been stored, before the controls are created. -/
def imx678_probe_alloc (sync : rkmodule_sync_mode) : imx678 :=
  let z : v4l2_ctrl := { minimum := 0, maximum := 0, step := 0, default_value := 0, val := 0 }
  { exposure := z, anal_gain := z, hblank := z, vblank := z, test_pattern := z, hflip := z,
    vflip := z, pixel_rate := z, link_freq := z, streaming := false, power_on := false,
    cur_mode := supported_modes_0, sync_mode := sync, cur_vts := 0, has_init_exp := false,
    cur_vclk_freq := 0, cur_mipi_freq_idx := 0 }

/-- The world at attach time: nothing logged, no power reference held. -/
def World.init : World := { log := [], n_send := 0, pm_usage := 0 }

/-! ## Format negotiation -/

/-- Which format a negotiation addresses (`enum v4l2_subdev_format_whence`). -/
inductive v4l2_subdev_format_whence where
  | V4L2_SUBDEV_FORMAT_TRY
  | V4L2_SUBDEV_FORMAT_ACTIVE
  deriving DecidableEq, Repr

open v4l2_subdev_format_whence

/-- Kernel constant `V4L2_FIELD_NONE`. -/
def V4L2_FIELD_NONE : Nat := 1

/-- The request and reply of a negotiation: the fields of `struct v4l2_subdev_format` the
driver reads or writes. -/
structure v4l2_subdev_format where
  which : v4l2_subdev_format_whence
  width : Nat
  height : Nat
  code : Nat
  field : Nat
  deriving DecidableEq, Repr

/-- Distance of a catalog entry from a requested size. -/
def size_error (m : imx678_mode) (width height : Nat) : Nat :=
  Int.natAbs ((m.width : Int) - width) + Int.natAbs ((m.height : Int) - height)

/-- Modelled from the spec: `v4l2_find_nearest_size` of the host framework "selects the
catalog entry whose (width, height) is nearest to the request under a defined distance
metric (exact match preferred; ties broken by catalog order)". -/
def v4l2_find_nearest_size (modes : List imx678_mode) (width height : Nat) : imx678_mode :=
  modes.foldl
    (fun best m => if size_error m width height < size_error best width height then m else best)
    (modes.headD supported_modes_0)

/-- Format negotiation: `imx678_set_fmt` (built with `CONFIG_VIDEO_V4L2_SUBDEV_API`, so a
trial negotiation stores the proposal in the caller's pad configuration and succeeds). -/
def imx678_set_fmt (env : Env) (w : World) (s : imx678) (fmt : v4l2_subdev_format) :
    World × imx678 × v4l2_subdev_format × Int :=
  let mode := v4l2_find_nearest_size supported_modes fmt.width fmt.height
  let fmt1 : v4l2_subdev_format :=
    { fmt with code := mode.bus_fmt, width := mode.width, height := mode.height,
               field := V4L2_FIELD_NONE }
  if fmt.which = V4L2_SUBDEV_FORMAT_TRY then (w, s, fmt1, 0)
  else
    let h_blank : Int := ((u32_of ((mode.hts_def : Int) - mode.width) : Nat) : Int)
    let vblank_def : Int := ((u32_of ((mode.vts_def : Int) - mode.height) : Nat) : Int)
    let s1 : imx678 :=
      { s with
        cur_mode := mode,
        cur_vts := mode.vts_def,
        hblank := __v4l2_ctrl_modify_range s.hblank h_blank h_blank 1 h_blank,
        vblank := __v4l2_ctrl_modify_range s.vblank vblank_def
                    ((u32_of ((IMX678_VTS_MAX : Int) - mode.height) : Nat) : Int) 1 vblank_def }
    let clk : World × Int :=
      if s1.cur_vclk_freq ≠ mode.vclk_freq then
        let w1 := (((w.emit Event.clk_disable_unprepare).emit
                    (Event.clk_set_rate mode.vclk_freq)).emit Event.clk_prepare_enable)
        (w1, Int.lor env.clk_set_rate_ret env.clk_prepare_enable_ret)
      else (w, 0)
    if s1.cur_vclk_freq ≠ mode.vclk_freq ∧ clk.2 < 0 then (clk.1, s1, fmt1, clk.2)
    else
      let s2 : imx678 :=
        if s1.cur_vclk_freq ≠ mode.vclk_freq then { s1 with cur_vclk_freq := mode.vclk_freq }
        else s1
      let s3 : imx678 :=
        if s2.cur_mipi_freq_idx ≠ mode.mipi_freq_idx then
          let dst_pixel_rate : Nat :=
            (((link_freq_menu_items.getD mode.mipi_freq_idx 0) % 4294967296) / mode.bpp * 2 *
              IMX678_LANES) % 4294967296
          { s2 with
            pixel_rate := { s2.pixel_rate with val := dst_pixel_rate },
            link_freq := { s2.link_freq with val := mode.mipi_freq_idx },
            cur_mipi_freq_idx := mode.mipi_freq_idx }
        else s2
      (clk.1, s3, fmt1, 0)

/-! ## Streaming state machine -/

/-- The controls replayed by the host framework, in creation order (`hblank` is read-only and
`link_freq`, `pixel_rate` have no setter, so the framework skips them). -/
def replayed_ctrls : List ctrl_id :=
  [V4L2_CID_VBLANK, V4L2_CID_EXPOSURE, V4L2_CID_ANALOGUE_GAIN, V4L2_CID_TEST_PATTERN,
   V4L2_CID_HFLIP, V4L2_CID_VFLIP]

/-- Current value of a control of the handler. -/
def ctrl_val (s : imx678) : ctrl_id → Int
  | V4L2_CID_EXPOSURE => s.exposure.val
  | V4L2_CID_ANALOGUE_GAIN => s.anal_gain.val
  | V4L2_CID_VBLANK => s.vblank.val
  | V4L2_CID_TEST_PATTERN => s.test_pattern.val
  | V4L2_CID_HFLIP => s.hflip.val
  | V4L2_CID_VFLIP => s.vflip.val
  | other _ => 0

/-- Replay of a list of controls through `imx678_set_ctrl`, stopping at the first failure. -/
def ctrl_replay (env : Env) : World → imx678 → List ctrl_id → World × imx678 × Int
  | w, s, [] => (w, s, 0)
  | w, s, id :: ids =>
    let r := imx678_set_ctrl env w s id (ctrl_val s id)
    if r.2.2 ≠ 0 then r else ctrl_replay env r.1 r.2.1 ids

/-- Modelled from the spec: `v4l2_ctrl_handler_setup` of the host framework "commit[s] all
pending control values (replays every control through [...] apply)"; the replay stops at
the first setter that fails and returns its error. -/
def v4l2_ctrl_handler_setup (env : Env) (w : World) (s : imx678) : World × imx678 × Int :=
  ctrl_replay env w s replayed_ctrls

/-- Start of capture: `__imx678_start_stream`. -/
def __imx678_start_stream (env : Env) (w : World) (s : imx678) : World × imx678 × Int :=
  let b := imx678_write_array env w s.cur_mode.global_reg_list
  if b.2 ≠ 0 then (b.1, s, b.2)
  else
    /- In case these controls are set before streaming -/
    let c := v4l2_ctrl_handler_setup env b.1 s
    if c.2.2 ≠ 0 then c
    else
      let s1 := c.2.1
      let w1 := usleep_range c.1 24000 30000
      let r : World × Int :=
        if s1.sync_mode = EXTERNAL_MASTER_MODE then
          let a := imx678_write_array env w1 imx678_external_sync_master_start_regs
          (a.1, Int.lor c.2.2 a.2)
        else if s1.sync_mode = INTERNAL_MASTER_MODE then
          let a := imx678_write_array env w1 imx678_interal_sync_master_start_regs
          (a.1, Int.lor c.2.2 a.2)
        else if s1.sync_mode = SLAVE_MODE then
          let a := imx678_write_array env w1 imx678_slave_start_regs
          (a.1, Int.lor c.2.2 a.2)
        else (w1, c.2.2)
      if s1.sync_mode = NO_SYNC_MODE then
        let e := imx678_write_reg env r.1 IMX678_REG_CTRL_MODE IMX678_REG_VALUE_08BIT 0
        let w2 := usleep_range e.1 24000 30000
        let m := imx678_write_reg env w2 imx678_REG_MARSTER_MODE IMX678_REG_VALUE_08BIT 0
        (m.1, s1, m.2)
      else
        let m := imx678_write_reg env r.1 imx678_REG_MARSTER_MODE IMX678_REG_VALUE_08BIT 0
        (m.1, s1, Int.lor r.2 m.2)

/-- End of capture: `__imx678_stop_stream`. -/
def __imx678_stop_stream (env : Env) (w : World) (s : imx678) : World × Int :=
  let r := imx678_write_reg env w IMX678_REG_CTRL_MODE IMX678_REG_VALUE_08BIT 1
  if s.sync_mode = EXTERNAL_MASTER_MODE then
    let a := imx678_write_array env r.1 imx678_external_sync_master_stop_regs
    (a.1, Int.lor r.2 a.2)
  else if s.sync_mode = INTERNAL_MASTER_MODE then
    let a := imx678_write_array env r.1 imx678_interal_sync_master_stop_regs
    (a.1, Int.lor r.2 a.2)
  else r

/-- The streaming entry point `imx678_s_stream`; `on_arg` is the `int on` argument of the call. -/
def imx678_s_stream (env : Env) (w : World) (s : imx678) (on_arg : Int) :
    World × imx678 × Int :=
  let on1 : Bool := decide (on_arg ≠ 0)
  if on1 = s.streaming then (w, s, 0)
  else if on1 = true then
    let g := pm_runtime_get_sync env w
    if g.2 < 0 then (pm_runtime_put_noidle g.1, s, g.2)
    else
      let r := __imx678_start_stream env g.1 s
      if r.2.2 ≠ 0 then (pm_runtime_put r.1, r.2.1, r.2.2)
      else (r.1, { r.2.1 with streaming := on1 }, r.2.2)
  else
    let r := __imx678_stop_stream env w s
    (pm_runtime_put r.1, { s with streaming := on1 }, 0)

/-! ## Power sequencer -/

/-- Kernel macro `DIV_ROUND_UP` on `u32` operands: the sum wraps around at `2 ^ 32`. -/
def DIV_ROUND_UP (n d : Nat) : Nat := ((n + d - 1) % 4294967296) / d

/-- Calculate the delay in us by clock rate and clock cycles: `imx678_cal_delay`. -/
def imx678_cal_delay (cycles : Nat) : Nat :=
  DIV_ROUND_UP cycles (IMX678_XVCLK_FREQ_37 / 1000 / 1000)

/-- Power-up sequence: `__imx678_power_on`.  A failed pin selection and a clock rate that
reads back different from the requested one are only logged by the driver. -/
def __imx678_power_on (env : Env) (w : World) : World × Int :=
  let w1 := if env.pins_default_valid then w.emit Event.pinctrl_select_state else w
  let vclk_freq := IMX678_XVCLK_FREQ_37
  let w2 := w1.emit (Event.clk_set_rate vclk_freq)
  if env.clk_set_rate_ret < 0 then (w2, env.clk_set_rate_ret)
  else
    let w3 := w2.emit Event.clk_prepare_enable
    if env.clk_prepare_enable_ret < 0 then (w3, env.clk_prepare_enable_ret)
    else
      let w4 := if env.reset_gpio_valid then w3.emit (Event.gpiod_set_value_reset 0) else w3
      let w5 := w4.emit Event.regulator_bulk_enable
      if env.regulator_bulk_enable_ret < 0 then
        (w5.emit Event.clk_disable_unprepare, env.regulator_bulk_enable_ret)
      else
        let w6 := if env.reset_gpio_valid then w5.emit (Event.gpiod_set_value_reset 1) else w5
        let w7 := usleep_range w6 500 1000
        let w8 := if env.pwdn_gpio_valid then w7.emit (Event.gpiod_set_value_pwdn 1) else w7
        /- 8192 cycles prior to first SCCB transaction -/
        let delay_us := imx678_cal_delay 8192
        (usleep_range w8 delay_us (delay_us * 2), 0)

/-- Power-down sequence: `__imx678_power_off`. -/
def __imx678_power_off (env : Env) (w : World) : World :=
  let w1 := if env.pwdn_gpio_valid then w.emit (Event.gpiod_set_value_pwdn 0) else w
  let w2 := w1.emit Event.clk_disable_unprepare
  let w3 := if env.reset_gpio_valid then w2.emit (Event.gpiod_set_value_reset 0) else w2
  w3.emit Event.regulator_bulk_disable

/-- An environment in which every collaborator succeeds. -/
def Env.all_ok : Env :=
  { i2c_send_ok := fun _ => true, pm_get_sync_ret := 0, clk_set_rate_ret := 0,
    clk_prepare_enable_ret := 0 }

/-- The device state at the end of control initialisation in `imx678_probe`. -/
def imx678_probe_state (sync : rkmodule_sync_mode) : imx678 :=
  imx678_initialize_controls (imx678_probe_alloc sync)

/-! ## Reachability and expected traces -/

/-- Device states reachable from control initialisation by vblank control applications
(with a value of the published vblank range, in any power state and with any outcome of
the register writes) and committed mode negotiations. -/
inductive Reachable : imx678 → Prop where
  | init (s0 : imx678) : Reachable (imx678_initialize_controls s0)
  | vblank (env : Env) (w : World) (s : imx678) (v : Int) :
      Reachable s → s.vblank.minimum ≤ v → v ≤ s.vblank.maximum →
      Reachable (imx678_set_ctrl env w s V4L2_CID_VBLANK v).2.1
  | set_fmt (env : Env) (w : World) (s : imx678) (fmt : v4l2_subdev_format) :
      Reachable s → fmt.which = V4L2_SUBDEV_FORMAT_ACTIVE →
      Reachable (imx678_set_fmt env w s fmt).2.1

/-- A mode whose timing values are consistent: not HDR-x2, at least 4 lines in total, the
active height within the default vertical total, the latter within the hardware ceiling. -/
def mode_ok (m : imx678_mode) : Prop :=
  m.hdr_mode ≠ HDR_X2 ∧ 4 ≤ m.vts_def ∧ m.height ≤ m.vts_def ∧ m.vts_def ≤ IMX678_VTS_MAX

/-- Device states reachable from control initialisation of a consistent mode by vblank
control applications (with a value of the published vblank range, in any power state and
with any outcome of the register writes) and committed mode negotiations. -/
inductive ReachableConsistent : imx678 → Prop where
  | init (s0 : imx678) :
      mode_ok s0.cur_mode → ReachableConsistent (imx678_initialize_controls s0)
  | vblank (env : Env) (w : World) (s : imx678) (v : Int) :
      ReachableConsistent s → s.vblank.minimum ≤ v → v ≤ s.vblank.maximum →
      ReachableConsistent (imx678_set_ctrl env w s V4L2_CID_VBLANK v).2.1
  | set_fmt (env : Env) (w : World) (s : imx678) (fmt : v4l2_subdev_format) :
      ReachableConsistent s → fmt.which = V4L2_SUBDEV_FORMAT_ACTIVE →
      ReachableConsistent (imx678_set_fmt env w s fmt).2.1

/-- What holds in each of these states: the mode is consistent and the published vblank
range is that of the mode. -/
def range_inv (s : imx678) : Prop :=
  mode_ok s.cur_mode
    ∧ s.vblank.minimum = (s.cur_mode.vts_def : Int) - s.cur_mode.height
    ∧ s.vblank.maximum = (IMX678_VTS_MAX : Int) - s.cur_mode.height

/-- The invariant carried along powered vblank applications. -/
def vts_inv (s : imx678) : Prop :=
  mode_ok s.cur_mode
    ∧ s.vblank.minimum = (s.cur_mode.vts_def : Int) - s.cur_mode.height
    ∧ s.vblank.maximum = (IMX678_VTS_MAX : Int) - s.cur_mode.height
    ∧ s.exposure.maximum = (s.cur_vts : Int) - 4

/-- The operations a register table stands for, in table order, up to its end row. -/
def program_events : List regval → List Event
  | [] => []
  | r :: rs =>
    if r.addr = IMX678_REG_NULL then []
    else if r.addr = IMX678_REG_DELAY then
      Event.usleep_range r.val (r.val * 2) :: program_events rs
    else
      Event.i2c_master_send
          [(r.addr >>> 8) &&& 0xff, r.addr &&& 0xff, (r.val % 4294967296) &&& 0xff]
        :: program_events rs

/-- Number of register writes a table stands for. -/
def program_sends : List regval → Nat
  | [] => 0
  | r :: rs =>
    if r.addr = IMX678_REG_NULL then 0
    else if r.addr = IMX678_REG_DELAY then program_sends rs
    else program_sends rs + 1

/-- The operations `__imx678_start_stream` issues after the control commit when every
write succeeds: the settle delay, then what the sync role asks for. -/
def start_tail : rkmodule_sync_mode → List Event
  | NO_SYNC_MODE =>
    [Event.usleep_range 24000 30000, Event.i2c_master_send [0x30, 0x00, 0x00],
     Event.usleep_range 24000 30000, Event.i2c_master_send [0x30, 0x02, 0x00]]
  | EXTERNAL_MASTER_MODE =>
    [Event.usleep_range 24000 30000, Event.i2c_master_send [0x30, 0x10, 0x05],
     Event.i2c_master_send [0x31, 0xa1, 0x03], Event.i2c_master_send [0x31, 0xd9, 0x01],
     Event.i2c_master_send [0x30, 0x02, 0x00]]
  | INTERNAL_MASTER_MODE =>
    [Event.usleep_range 24000 30000, Event.i2c_master_send [0x30, 0x10, 0x07],
     Event.i2c_master_send [0x31, 0xa1, 0x00], Event.i2c_master_send [0x30, 0x02, 0x00]]
  | SLAVE_MODE =>
    [Event.usleep_range 24000 30000, Event.i2c_master_send [0x30, 0x10, 0x05],
     Event.i2c_master_send [0x31, 0xa1, 0x0f], Event.i2c_master_send [0x30, 0x02, 0x00]]

/-- The big-endian number made of the first `len` bytes the device delivered. -/
def be_value (len : Nat) (data : List Nat) : Nat :=
  ((List.range len).map fun j => data.getD j 0 % 256).foldl (fun acc b => acc * 256 + b) 0

/-- The successive reads of the identity register when nothing stops the loop: the world
and the content of `id` after `k` reads, starting from world `w` and content `id`. -/
def id_reads (env : Env) : Nat → World → Nat → World × Nat
  | 0, w, id => (w, id)
  | k + 1, w, id =>
    id_reads env k
      (imx678_read_reg env w IMX678_REG_CHIP_ID IMX678_REG_VALUE_16BIT id).1
      (imx678_read_reg env w IMX678_REG_CHIP_ID IMX678_REG_VALUE_16BIT id).2.2

/-- An environment in which power acquisition succeeds and the bus transfers numbered
`n` and above fail. -/
def Env.fail_from (n : Nat) : Env :=
  { Env.all_ok with i2c_send_ok := fun k => decide (k < n) }

/-- The 20-bit value three register bytes stand for: `(h << 16) | (m << 8) | l`. -/
def reassemble (h m l : Nat) : Nat :=
  (h <<< 16) ||| (m <<< 8) ||| l

/-- The start program `__imx678_start_stream` applies for a sync role (none for role None). -/
def sync_start_regs : rkmodule_sync_mode → List regval
  | NO_SYNC_MODE => []
  | EXTERNAL_MASTER_MODE => imx678_external_sync_master_start_regs
  | INTERNAL_MASTER_MODE => imx678_interal_sync_master_start_regs
  | SLAVE_MODE => imx678_slave_start_regs

/-- World, device state and result of `__imx678_start_stream` at the end of its control
commit, that is after the base program of the current mode and `v4l2_ctrl_handler_setup`. -/
def start_commit (env : Env) (w : World) (s : imx678) : World × imx678 × Int :=
  v4l2_ctrl_handler_setup env (imx678_write_array env w s.cur_mode.global_reg_list).1 s

/-- Result of the register write that is the `k`-th transfer of the bus: 0 or `-EIO`. -/
def write_result (env : Env) (k : Nat) : Int :=
  if env.i2c_send_ok k then 0 else -EIO_ERRNO

/-- Every collaborator succeeds, except the register write that is transfer `n`. -/
def Env.fail_at (n : Nat) : Env :=
  { Env.all_ok with i2c_send_ok := fun k => decide (k ≠ n) }

/-- States of the device and of its collaborators reachable from a Stopped device holding no
power reference by calls of `imx678_s_stream`, applications of controls and format
negotiations, with any arguments and any outcome of the collaborators. -/
inductive StreamReachable : World → imx678 → Prop where
  | init (w : World) (s : imx678) :
      s.streaming = false → w.pm_usage = 0 → StreamReachable w s
  | s_stream (env : Env) (w : World) (s : imx678) (on_arg : Int) :
      StreamReachable w s →
      StreamReachable (imx678_s_stream env w s on_arg).1 (imx678_s_stream env w s on_arg).2.1
  | set_ctrl (env : Env) (w : World) (s : imx678) (id : ctrl_id) (v : Int) :
      StreamReachable w s →
      StreamReachable (imx678_set_ctrl env w s id v).1 (imx678_set_ctrl env w s id v).2.1
  | set_fmt (env : Env) (w : World) (s : imx678) (fmt : v4l2_subdev_format) :
      StreamReachable w s →
      StreamReachable (imx678_set_fmt env w s fmt).1 (imx678_set_fmt env w s fmt).2.1

/-! ## Arithmetic helpers -/

theorem u32_of_cast (x : Int) (h0 : 0 ≤ x) (h1 : x < 4294967296) :
    ((u32_of x : Nat) : Int) = x := by
  unfold u32_of
  rw [Int.toNat_of_nonneg (Int.emod_nonneg _ (by norm_num)), Int.emod_eq_of_lt h0 h1]

theorem and_ff (x : Nat) : x &&& 0xff = x % 256 :=
  Nat.and_pow_two_sub_one_eq_mod x 8

theorem and_0f (x : Nat) : x &&& 0x0F = x % 16 :=
  Nat.and_pow_two_sub_one_eq_mod x 4

/-! ## Transport lemmas -/

/-- World after one 8-bit register write, whatever its outcome. -/
theorem write_reg_08_fst (env : Env) (w : World) (reg val : Nat) :
    (imx678_write_reg env w reg IMX678_REG_VALUE_08BIT val).1 =
      { log := w.log ++ [Event.i2c_master_send
                  [(reg >>> 8) &&& 0xff, reg &&& 0xff, (val % 4294967296) &&& 0xff]],
        n_send := w.n_send + 1, pm_usage := w.pm_usage } := by
  unfold imx678_write_reg
  simp only [IMX678_REG_VALUE_08BIT, World.emit, cpu_to_be32]
  split_ifs with h1 h2
  · omega
  · simp
  · simp

/-- Result of one 8-bit register write. -/
theorem write_reg_08_snd (env : Env) (w : World) (reg val : Nat) :
    (imx678_write_reg env w reg IMX678_REG_VALUE_08BIT val).2 =
      if env.i2c_send_ok w.n_send then 0 else -EIO_ERRNO := by
  unfold imx678_write_reg
  simp only [IMX678_REG_VALUE_08BIT]
  split_ifs <;> omega

/-! ## C1 -/

/-- C1. Applying the vblank control with value `v` leaves the published maximum of the
exposure control equal to `mode.height + v - 4`, for every state of the collaborators
(so whether or not the device is powered) and every outcome of the register writes.  The
two hypotheses say that the `u32` expression `height + v - 4` of the driver does not wrap
around; every `v` of the published vblank range `[vts_def - height, 0xfffff - height]`
satisfies them. -/
theorem set_ctrl_vblank_exposure_max (env : Env) (w : World) (s : imx678) (v : Int)
    (hlo : 4 ≤ (s.cur_mode.height : Int) + v)
    (hhi : (s.cur_mode.height : Int) + v - 4 < 4294967296) :
    (imx678_set_ctrl env w s V4L2_CID_VBLANK v).2.1.exposure.maximum
      = (s.cur_mode.height : Int) + v - 4 := by
  have hu := u32_of_cast ((s.cur_mode.height : Int) + v - 4) (by omega) hhi
  unfold imx678_set_ctrl
  simp only [__v4l2_ctrl_modify_range]
  split_ifs <;> simp [hu]

/-- Instance of C1: catalog mode, `v = 90` (the default vblank), device unpowered and powered. -/
theorem set_ctrl_vblank_exposure_max_witness :
    (4 ≤ (((imx678_probe_state NO_SYNC_MODE).cur_mode.height : Nat) : Int) + 90
      ∧ (((imx678_probe_state NO_SYNC_MODE).cur_mode.height : Nat) : Int) + 90 - 4 < 4294967296)
    ∧ (imx678_set_ctrl Env.all_ok World.init (imx678_probe_state NO_SYNC_MODE)
          V4L2_CID_VBLANK 90).2.1.exposure.maximum = 2246
    ∧ (imx678_set_ctrl Env.all_ok { World.init with pm_usage := 1 }
          (imx678_probe_state NO_SYNC_MODE) V4L2_CID_VBLANK 90).2.1.exposure.maximum = 2246 :=
  ⟨⟨by decide, by decide⟩,
   set_ctrl_vblank_exposure_max Env.all_ok World.init (imx678_probe_state NO_SYNC_MODE) 90
     (by decide) (by decide),
   set_ctrl_vblank_exposure_max Env.all_ok { World.init with pm_usage := 1 }
     (imx678_probe_state NO_SYNC_MODE) 90 (by decide) (by decide)⟩

/-! ## C2 -/

/-- C2. On a powered device, applying the exposure control with value `e` computes
`shr = cur_vts - e` (a `u32`) and issues exactly three 8-bit register writes, of
`(shr >> 16) & 0x0F` to `0x3052`, of `(shr >> 8) & 0xFF` to `0x3051` and of `shr & 0xFF` to
`0x3050` (in this order), between taking and dropping a power reference; this holds for
every `e`, in particular for every `e` of the published exposure range.  When
`0 ≤ e ≤ cur_vts` the `u32` value `shr` is the exact difference. -/
theorem set_ctrl_exposure_writes (env : Env) (w : World) (s : imx678) (e : Int)
    (hp : 0 < w.pm_usage) :
    (imx678_set_ctrl env w s V4L2_CID_EXPOSURE e).1.log =
        w.log ++ [Event.pm_runtime_get_if_in_use,
          Event.i2c_master_send [0x30, 0x52, (u32_of ((s.cur_vts : Int) - e) >>> 16) &&& 0x0F],
          Event.i2c_master_send [0x30, 0x51, (u32_of ((s.cur_vts : Int) - e) >>> 8) &&& 0xFF],
          Event.i2c_master_send [0x30, 0x50, u32_of ((s.cur_vts : Int) - e) &&& 0xFF],
          Event.pm_runtime_put]
      ∧ (0 ≤ e → e ≤ (s.cur_vts : Int) → s.cur_vts < 4294967296 →
          ((u32_of ((s.cur_vts : Int) - e) : Nat) : Int) = (s.cur_vts : Int) - e) := by
  constructor
  · unfold imx678_set_ctrl
    simp only [pm_runtime_get_if_in_use, hp, if_true, pm_runtime_put, World.emit,
      write_reg_08_fst, IMX678_SHR_EXPO_REG_H, IMX678_SHR_EXPO_REG_M, IMX678_SHR_EXPO_REG_L,
      IMX678_FETCH_EXP_H, IMX678_FETCH_EXP_M, IMX678_FETCH_EXP_L]
    simp [and_ff, and_0f, Nat.shiftRight_eq_div_pow]
    omega
  · intro h0 h1 h2
    exact u32_of_cast _ (by omega) (by omega)

/-- Instance of C2: catalog mode, default exposure `0x0600`, so `shr = 0x08CA - 0x0600 = 0x02CA`. -/
theorem set_ctrl_exposure_writes_witness :
    (0 : Int) < ({ World.init with pm_usage := 1 } : World).pm_usage
    ∧ (imx678_set_ctrl Env.all_ok { World.init with pm_usage := 1 }
          (imx678_probe_state NO_SYNC_MODE) V4L2_CID_EXPOSURE 0x0600).1.log =
        [Event.pm_runtime_get_if_in_use,
          Event.i2c_master_send [0x30, 0x52, 0x00],
          Event.i2c_master_send [0x30, 0x51, 0x02],
          Event.i2c_master_send [0x30, 0x50, 0xCA],
          Event.pm_runtime_put] :=
  ⟨by decide,
   (set_ctrl_exposure_writes Env.all_ok { World.init with pm_usage := 1 }
      (imx678_probe_state NO_SYNC_MODE) 0x0600 (by decide)).1⟩

/-! ## C3 -/

theorem hdr_round_up (t : Nat) (h : t + 3 < 4294967296) :
    ((((t + 3) % 4294967296) >>> 2) * 4) % 4294967296 = 4 * ((t + 3) / 4) := by
  simp only [Nat.shiftRight_eq_div_pow]
  omega

/-- C3. In an HDR-x2 mode on a powered device, applying the vblank control with value `v`,
with `t = v + mode.height`, stores `cur_vts = 4 * ceil(t / 4)` (the least multiple of 4
that is at least `t`, not halved), and the three bytes written to the vertical-total
registers `0x302a`, `0x3029`, `0x3028` are the high, middle and low byte of
`cur_vts / 2`.  The hypotheses on `t` say that `t` and `t + 3` are `u32` values, which
holds on the whole published vblank range. -/
theorem set_ctrl_vblank_hdr_x2 (env : Env) (w : World) (s : imx678) (v : Int)
    (hhdr : s.cur_mode.hdr_mode = HDR_X2) (hp : 0 < w.pm_usage)
    (h0 : 0 ≤ v + (s.cur_mode.height : Int))
    (h1 : v + (s.cur_mode.height : Int) + 3 < 4294967296) :
    (((imx678_set_ctrl env w s V4L2_CID_VBLANK v).2.1.cur_vts : Nat) : Int)
        = 4 * ⌈((v + (s.cur_mode.height : Int) : Int) : ℚ) / 4⌉
      ∧ (imx678_set_ctrl env w s V4L2_CID_VBLANK v).2.1.cur_vts % 4 = 0
      ∧ v + (s.cur_mode.height : Int) ≤ (imx678_set_ctrl env w s V4L2_CID_VBLANK v).2.1.cur_vts
      ∧ ((imx678_set_ctrl env w s V4L2_CID_VBLANK v).2.1.cur_vts : Int)
          < v + (s.cur_mode.height : Int) + 4
      ∧ (imx678_set_ctrl env w s V4L2_CID_VBLANK v).1.log =
          w.log ++ [Event.pm_runtime_get_if_in_use,
            Event.i2c_master_send [0x30, 0x2a,
              (((imx678_set_ctrl env w s V4L2_CID_VBLANK v).2.1.cur_vts / 2) >>> 16) &&& 0x0F],
            Event.i2c_master_send [0x30, 0x29,
              (((imx678_set_ctrl env w s V4L2_CID_VBLANK v).2.1.cur_vts / 2) >>> 8) &&& 0xFF],
            Event.i2c_master_send [0x30, 0x28,
              ((imx678_set_ctrl env w s V4L2_CID_VBLANK v).2.1.cur_vts / 2) &&& 0xFF],
            Event.pm_runtime_put] := by
  have hc := u32_of_cast (v + (s.cur_mode.height : Int)) h0 (by omega)
  have hcur : (imx678_set_ctrl env w s V4L2_CID_VBLANK v).2.1.cur_vts
      = 4 * ((u32_of (v + (s.cur_mode.height : Int)) + 3) / 4) := by
    unfold imx678_set_ctrl
    simp only [pm_runtime_get_if_in_use, hp, if_true, __v4l2_ctrl_modify_range, hhdr]
    simp only [Bool.true_eq_false, if_false]
    exact hdr_round_up _ (by omega)
  have hlog : (imx678_set_ctrl env w s V4L2_CID_VBLANK v).1.log =
      w.log ++ [Event.pm_runtime_get_if_in_use,
        Event.i2c_master_send [0x30, 0x2a,
          ((4 * ((u32_of (v + (s.cur_mode.height : Int)) + 3) / 4) / 2) >>> 16) &&& 0x0F],
        Event.i2c_master_send [0x30, 0x29,
          ((4 * ((u32_of (v + (s.cur_mode.height : Int)) + 3) / 4) / 2) >>> 8) &&& 0xFF],
        Event.i2c_master_send [0x30, 0x28,
          (4 * ((u32_of (v + (s.cur_mode.height : Int)) + 3) / 4) / 2) &&& 0xFF],
        Event.pm_runtime_put] := by
    unfold imx678_set_ctrl
    simp only [pm_runtime_get_if_in_use, hp, if_true, __v4l2_ctrl_modify_range, hhdr,
      pm_runtime_put, World.emit, write_reg_08_fst, IMX678_REG_VTS_H, IMX678_REG_VTS_M,
      IMX678_REG_VTS_L, IMX678_FETCH_VTS_H, IMX678_FETCH_VTS_M, IMX678_FETCH_VTS_L]
    simp only [Bool.true_eq_false, if_false, hdr_round_up _ (show u32_of (v + (s.cur_mode.height : Int)) + 3 < 4294967296 by omega)]
    simp [and_ff, and_0f, Nat.shiftRight_eq_div_pow]
    omega
  rw [hcur]
  generalize u32_of (v + (s.cur_mode.height : Int)) = t at hc hcur hlog
  refine ⟨?_, by omega, by omega, by omega, hlog⟩
  rw [← hc]
  have h4 : 4 * ((t + 3) / 4) < t + 4 := by omega
  have h5 : t ≤ 4 * ((t + 3) / 4) := by omega
  generalize (t + 3) / 4 = q at h4 h5 ⊢
  have hq : (⌈((t : Int) : ℚ) / 4⌉ : Int) = (q : Int) := by
    rw [Int.ceil_eq_iff]
    have h4q : ((4 * q : Nat) : ℚ) < ((t + 4 : Nat) : ℚ) := by exact_mod_cast h4
    have h5q : ((t : Nat) : ℚ) ≤ ((4 * q : Nat) : ℚ) := by exact_mod_cast h5
    push_cast at h4q h5q ⊢
    constructor <;> linarith
  rw [hq]
  push_cast
  ring

/-- Instance of C3: the catalog entry turned into an HDR-x2 mode, `v = 91`, so `t = 2251`,
`cur_vts = 2252` and the register value is `1126 = 0x0466`. -/
theorem set_ctrl_vblank_hdr_x2_witness :
    (({ supported_modes_0 with hdr_mode := HDR_X2 } : imx678_mode).hdr_mode = HDR_X2
      ∧ (0 : Int) < ({ World.init with pm_usage := 1 } : World).pm_usage
      ∧ (0 : Int) ≤ 91 + (({ supported_modes_0 with hdr_mode := HDR_X2 } : imx678_mode).height : Int)
      ∧ 91 + (({ supported_modes_0 with hdr_mode := HDR_X2 } : imx678_mode).height : Int) + 3
          < 4294967296)
    ∧ (imx678_set_ctrl Env.all_ok { World.init with pm_usage := 1 }
          { imx678_probe_state NO_SYNC_MODE with
            cur_mode := { supported_modes_0 with hdr_mode := HDR_X2 } }
          V4L2_CID_VBLANK 91).2.1.cur_vts % 4 = 0
    ∧ (imx678_set_ctrl Env.all_ok { World.init with pm_usage := 1 }
          { imx678_probe_state NO_SYNC_MODE with
            cur_mode := { supported_modes_0 with hdr_mode := HDR_X2 } }
          V4L2_CID_VBLANK 91).1.log =
        [Event.pm_runtime_get_if_in_use,
          Event.i2c_master_send [0x30, 0x2a, 0x00],
          Event.i2c_master_send [0x30, 0x29, 0x04],
          Event.i2c_master_send [0x30, 0x28, 0x66],
          Event.pm_runtime_put] :=
  ⟨⟨by decide, by decide, by decide, by decide⟩,
   (set_ctrl_vblank_hdr_x2 Env.all_ok { World.init with pm_usage := 1 }
      { imx678_probe_state NO_SYNC_MODE with
        cur_mode := { supported_modes_0 with hdr_mode := HDR_X2 } }
      91 (by decide) (by decide) (by decide) (by decide)).2.1,
   (set_ctrl_vblank_hdr_x2 Env.all_ok { World.init with pm_usage := 1 }
      { imx678_probe_state NO_SYNC_MODE with
        cur_mode := { supported_modes_0 with hdr_mode := HDR_X2 } }
      91 (by decide) (by decide) (by decide) (by decide)).2.2.2.2⟩

/-! ## C4 -/

/-- The catalog mode is consistent. -/
theorem supported_modes_0_ok : mode_ok supported_modes_0 := by
  unfold mode_ok
  decide

/-- Device state after a vblank application on a powered device in a mode that is not
HDR-x2. -/
theorem set_ctrl_vblank_powered_state (env : Env) (w : World) (s : imx678) (v : Int)
    (hp : 0 < w.pm_usage) (hhdr : s.cur_mode.hdr_mode ≠ HDR_X2) :
    (imx678_set_ctrl env w s V4L2_CID_VBLANK v).2.1 =
      { s with
        exposure := { s.exposure with
                      maximum := ((u32_of ((s.cur_mode.height : Int) + v - 4) : Nat) : Int) },
        cur_vts := u32_of (v + (s.cur_mode.height : Int)) } := by
  unfold imx678_set_ctrl
  simp [pm_runtime_get_if_in_use, hp, __v4l2_ctrl_modify_range, hhdr]

theorem vts_inv_init (s0 : imx678) (h : mode_ok s0.cur_mode) :
    vts_inv (imx678_initialize_controls s0) := by
  obtain ⟨h1, h2, h3, h4⟩ := h
  have h4' : s0.cur_mode.vts_def ≤ 1048575 := h4
  refine ⟨⟨h1, h2, h3, h4⟩, ?_, ?_, ?_⟩
  · exact u32_of_cast _ (by omega) (by omega)
  · exact u32_of_cast _ (by simp only [IMX678_VTS_MAX]; omega) (by simp only [IMX678_VTS_MAX]; omega)
  · exact u32_of_cast _ (by omega) (by omega)

theorem vts_inv_vblank (env : Env) (w : World) (s : imx678) (v : Int)
    (hi : vts_inv s) (hp : 0 < w.pm_usage) (hlo : s.vblank.minimum ≤ v)
    (hhi : v ≤ s.vblank.maximum) :
    vts_inv (imx678_set_ctrl env w s V4L2_CID_VBLANK v).2.1 := by
  obtain ⟨⟨h1, h2, h3, h4⟩, hmin, hmax, _⟩ := hi
  have h4' : s.cur_mode.vts_def ≤ 1048575 := h4
  rw [hmin] at hlo
  rw [hmax] at hhi
  simp only [IMX678_VTS_MAX] at hhi
  rw [set_ctrl_vblank_powered_state env w s v hp h1]
  refine ⟨⟨h1, h2, h3, h4⟩, hmin, hmax, ?_⟩
  show ((u32_of ((s.cur_mode.height : Int) + v - 4) : Nat) : Int)
    = ((u32_of (v + (s.cur_mode.height : Int)) : Nat) : Int) - 4
  rw [u32_of_cast _ (by omega) (by omega), u32_of_cast _ (by omega) (by omega)]
  ring

/-- C4 fails as stated: after control initialisation with the catalog mode, one vblank
application with the in-range value 100 while the device is not powered publishes the
exposure maximum 2256, while `cur_vts` keeps its initial value 2250 (so `cur_vts - 4` is
2246). -/
theorem exposure_max_invariant_fails :
    Reachable (imx678_set_ctrl Env.all_ok World.init (imx678_probe_state NO_SYNC_MODE)
        V4L2_CID_VBLANK 100).2.1
    ∧ (imx678_set_ctrl Env.all_ok World.init (imx678_probe_state NO_SYNC_MODE)
        V4L2_CID_VBLANK 100).2.1.exposure.maximum = 2256
    ∧ (imx678_set_ctrl Env.all_ok World.init (imx678_probe_state NO_SYNC_MODE)
        V4L2_CID_VBLANK 100).2.1.cur_vts = 2250
    ∧ ¬ ((imx678_set_ctrl Env.all_ok World.init (imx678_probe_state NO_SYNC_MODE)
        V4L2_CID_VBLANK 100).2.1.exposure.maximum
          = (((imx678_set_ctrl Env.all_ok World.init (imx678_probe_state NO_SYNC_MODE)
              V4L2_CID_VBLANK 100).2.1.cur_vts : Nat) : Int) - 4) :=
  ⟨Reachable.vblank _ _ _ _ (Reachable.init (imx678_probe_alloc NO_SYNC_MODE))
      (by decide) (by decide),
   by decide, by decide, by decide⟩

/-! ## Lemmas on the streaming sequence -/

theorem nat_or_eq_zero (m n : Nat) (h : m ||| n = 0) : m = 0 ∧ n = 0 := by
  have hb : ∀ i, m.testBit i = false ∧ n.testBit i = false := by
    intro i
    have hor := Nat.testBit_or m n i
    rw [h, Nat.zero_testBit] at hor
    cases hm : m.testBit i <;> cases hn : n.testBit i <;> simp_all
  exact ⟨Nat.zero_of_testBit_eq_false fun i => (hb i).1,
         Nat.zero_of_testBit_eq_false fun i => (hb i).2⟩

/-- An accumulated result `a | b` is zero only when both results are zero. -/
theorem int_lor_eq_zero (a b : Int) (h : Int.lor a b = 0) : a = 0 ∧ b = 0 := by
  cases a <;> cases b <;> simp only [Int.lor] at h
  · rename_i m n
    have h' : m ||| n = 0 := by exact_mod_cast h
    obtain ⟨h1, h2⟩ := nat_or_eq_zero m n h'
    subst h1 h2
    exact ⟨rfl, rfl⟩
  all_goals exact absurd h (by simp)

theorem int_lor_zero_zero : Int.lor 0 0 = 0 := by decide

/-- One 8-bit register write: the world afterwards and the result. -/
theorem write_reg_08_eq (env : Env) (w : World) (reg val : Nat) :
    imx678_write_reg env w reg IMX678_REG_VALUE_08BIT val =
      ({ log := w.log ++ [Event.i2c_master_send
                  [(reg >>> 8) &&& 0xff, reg &&& 0xff, (val % 4294967296) &&& 0xff]],
         n_send := w.n_send + 1, pm_usage := w.pm_usage },
       if env.i2c_send_ok w.n_send then 0 else -EIO_ERRNO) :=
  Prod.ext (write_reg_08_fst env w reg val) (write_reg_08_snd env w reg val)

/-- With a transport that never fails, `imx678_write_array` performs the whole table in
table order and returns 0. -/
theorem write_array_ok (env : Env) (hall : ∀ k, env.i2c_send_ok k = true)
    (regs : List regval) :
    ∀ w : World, imx678_write_array env w regs =
      ({ log := w.log ++ program_events regs, n_send := w.n_send + program_sends regs,
         pm_usage := w.pm_usage }, 0) := by
  induction regs with
  | nil => intro w; simp [imx678_write_array, program_events, program_sends]
  | cons r rs ih =>
    intro w
    unfold imx678_write_array program_events program_sends
    by_cases h1 : r.addr = IMX678_REG_NULL
    · simp only [if_pos h1, List.append_nil, Nat.add_zero]
    · by_cases h2 : r.addr = IMX678_REG_DELAY
      · simp only [if_neg h1, if_pos h2, ih, usleep_range, World.emit, List.append_assoc,
          List.singleton_append]
      · simp only [if_neg h1, if_neg h2, write_reg_08_eq, hall, if_true, ih,
          List.append_assoc, List.singleton_append, Nat.add_assoc, Nat.add_comm 1]

/-- `imx678_set_ctrl` leaves the streaming flag, the sync role and the mode alone. -/
theorem set_ctrl_frame (env : Env) (w : World) (s : imx678) (id : ctrl_id) (v : Int) :
    (imx678_set_ctrl env w s id v).2.1.streaming = s.streaming
      ∧ (imx678_set_ctrl env w s id v).2.1.sync_mode = s.sync_mode
      ∧ (imx678_set_ctrl env w s id v).2.1.cur_mode = s.cur_mode := by
  unfold imx678_set_ctrl
  by_cases hp : 0 < w.pm_usage <;> cases id <;>
    simp [pm_runtime_get_if_in_use, hp, __v4l2_ctrl_modify_range]

/-- `imx678_set_ctrl` only appends to the log. -/
theorem set_ctrl_log (env : Env) (w : World) (s : imx678) (id : ctrl_id) (v : Int) :
    ∃ evs, (imx678_set_ctrl env w s id v).1.log = w.log ++ evs := by
  unfold imx678_set_ctrl
  by_cases hp : 0 < w.pm_usage <;> cases id <;>
    simp [pm_runtime_get_if_in_use, hp, pm_runtime_put, World.emit, write_reg_08_eq,
      imx678_enable_test_pattern]

/-- `imx678_set_ctrl` drops the power reference it takes. -/
theorem set_ctrl_pm_usage (env : Env) (w : World) (s : imx678) (id : ctrl_id) (v : Int) :
    (imx678_set_ctrl env w s id v).1.pm_usage = w.pm_usage := by
  unfold imx678_set_ctrl
  by_cases hp : 0 < w.pm_usage <;> cases id <;>
    simp [pm_runtime_get_if_in_use, hp, pm_runtime_put, World.emit, write_reg_08_eq,
      imx678_enable_test_pattern]

/-- With a transport that never fails, `imx678_set_ctrl` returns 0. -/
theorem set_ctrl_ok (env : Env) (hall : ∀ k, env.i2c_send_ok k = true) (w : World)
    (s : imx678) (id : ctrl_id) (v : Int) :
    (imx678_set_ctrl env w s id v).2.2 = 0 := by
  unfold imx678_set_ctrl
  by_cases hp : 0 < w.pm_usage <;> cases id <;>
    simp [pm_runtime_get_if_in_use, hp, pm_runtime_put, World.emit, write_reg_08_eq,
      imx678_enable_test_pattern, hall, int_lor_zero_zero]

theorem ctrl_replay_frame (env : Env) (ids : List ctrl_id) :
    ∀ (w : World) (s : imx678),
      (ctrl_replay env w s ids).2.1.streaming = s.streaming
        ∧ (ctrl_replay env w s ids).2.1.sync_mode = s.sync_mode
        ∧ (ctrl_replay env w s ids).2.1.cur_mode = s.cur_mode := by
  induction ids with
  | nil => intro w s; simp [ctrl_replay]
  | cons id ids ih =>
    intro w s
    unfold ctrl_replay
    have hf := set_ctrl_frame env w s id (ctrl_val s id)
    by_cases h : (imx678_set_ctrl env w s id (ctrl_val s id)).2.2 ≠ 0
    · rw [if_pos h]
      exact hf
    · rw [if_neg h]
      have := ih (imx678_set_ctrl env w s id (ctrl_val s id)).1
        (imx678_set_ctrl env w s id (ctrl_val s id)).2.1
      rw [hf.1, hf.2.1, hf.2.2] at this
      exact this

theorem ctrl_replay_log (env : Env) (ids : List ctrl_id) :
    ∀ (w : World) (s : imx678), ∃ evs, (ctrl_replay env w s ids).1.log = w.log ++ evs := by
  induction ids with
  | nil => intro w s; exact ⟨[], by simp [ctrl_replay]⟩
  | cons id ids ih =>
    intro w s
    unfold ctrl_replay
    obtain ⟨e1, h1⟩ := set_ctrl_log env w s id (ctrl_val s id)
    by_cases h : (imx678_set_ctrl env w s id (ctrl_val s id)).2.2 ≠ 0
    · rw [if_pos h]
      exact ⟨e1, h1⟩
    · rw [if_neg h]
      obtain ⟨e2, h2⟩ := ih (imx678_set_ctrl env w s id (ctrl_val s id)).1
        (imx678_set_ctrl env w s id (ctrl_val s id)).2.1
      exact ⟨e1 ++ e2, by rw [h2, h1, List.append_assoc]⟩

theorem ctrl_replay_pm_usage (env : Env) (ids : List ctrl_id) :
    ∀ (w : World) (s : imx678), (ctrl_replay env w s ids).1.pm_usage = w.pm_usage := by
  induction ids with
  | nil => intro w s; simp [ctrl_replay]
  | cons id ids ih =>
    intro w s
    unfold ctrl_replay
    have h1 := set_ctrl_pm_usage env w s id (ctrl_val s id)
    by_cases h : (imx678_set_ctrl env w s id (ctrl_val s id)).2.2 ≠ 0
    · rw [if_pos h]
      exact h1
    · rw [if_neg h]
      rw [ih, h1]

theorem ctrl_replay_ok (env : Env) (hall : ∀ k, env.i2c_send_ok k = true)
    (ids : List ctrl_id) :
    ∀ (w : World) (s : imx678), (ctrl_replay env w s ids).2.2 = 0 := by
  induction ids with
  | nil => intro w s; simp [ctrl_replay]
  | cons id ids ih =>
    intro w s
    unfold ctrl_replay
    have h1 := set_ctrl_ok env hall w s id (ctrl_val s id)
    simp only [h1, ne_eq, not_true_eq_false, if_false]
    exact ih _ _

/-- With a transport that never fails, `__imx678_start_stream` returns 0 after the base
program, the control commit and the operations of the sync role. -/
theorem start_stream_all_ok (env : Env) (hall : ∀ k, env.i2c_send_ok k = true)
    (w : World) (s : imx678) :
    (__imx678_start_stream env w s).2.2 = 0
      ∧ (__imx678_start_stream env w s).2.1.streaming = s.streaming
      ∧ (__imx678_start_stream env w s).1.pm_usage = w.pm_usage
      ∧ ∃ commit, (__imx678_start_stream env w s).1.log =
          w.log ++ program_events s.cur_mode.global_reg_list ++ commit
            ++ start_tail s.sync_mode := by
  have hb := write_array_ok env hall s.cur_mode.global_reg_list w
  unfold __imx678_start_stream
  simp only [hb, ne_eq, not_true_eq_false, if_false]
  have hc0 := ctrl_replay_ok env hall replayed_ctrls
    { log := w.log ++ program_events s.cur_mode.global_reg_list,
      n_send := w.n_send + program_sends s.cur_mode.global_reg_list,
      pm_usage := w.pm_usage } s
  obtain ⟨commit, hclog⟩ := ctrl_replay_log env replayed_ctrls
    { log := w.log ++ program_events s.cur_mode.global_reg_list,
      n_send := w.n_send + program_sends s.cur_mode.global_reg_list,
      pm_usage := w.pm_usage } s
  have hcf := ctrl_replay_frame env replayed_ctrls
    { log := w.log ++ program_events s.cur_mode.global_reg_list,
      n_send := w.n_send + program_sends s.cur_mode.global_reg_list,
      pm_usage := w.pm_usage } s
  have hcp := ctrl_replay_pm_usage env replayed_ctrls
    { log := w.log ++ program_events s.cur_mode.global_reg_list,
      n_send := w.n_send + program_sends s.cur_mode.global_reg_list,
      pm_usage := w.pm_usage } s
  unfold v4l2_ctrl_handler_setup
  generalize ctrl_replay env
    { log := w.log ++ program_events s.cur_mode.global_reg_list,
      n_send := w.n_send + program_sends s.cur_mode.global_reg_list,
      pm_usage := w.pm_usage } s replayed_ctrls = c at hc0 hclog hcf hcp ⊢
  obtain ⟨cw, cs, cr⟩ := c
  simp only at hc0 hclog hcf hcp
  subst hc0
  obtain ⟨hf1, hf2, _⟩ := hcf
  refine ⟨?_, ?_, ?_, commit, ?_⟩ <;>
    cases hsync : s.sync_mode <;>
    simp [hf1, hf2, hsync, write_array_ok env hall, write_reg_08_eq, hall, usleep_range,
      World.emit, program_events, imx678_external_sync_master_start_regs,
      imx678_interal_sync_master_start_regs, imx678_slave_start_regs, start_tail, hclog,
      hcp, int_lor_zero_zero, IMX678_REG_NULL, IMX678_REG_DELAY, IMX678_REG_CTRL_MODE,
      imx678_REG_MARSTER_MODE] <;>
    decide

/-- `__imx678_start_stream` never touches the streaming flag. -/
theorem start_stream_streaming (env : Env) (w : World) (s : imx678) :
    (__imx678_start_stream env w s).2.1.streaming = s.streaming := by
  have hcf := (ctrl_replay_frame env replayed_ctrls
    (imx678_write_array env w s.cur_mode.global_reg_list).1 s).1
  unfold __imx678_start_stream v4l2_ctrl_handler_setup
  simp only []
  split_ifs <;> first | rfl | exact hcf

/-- A successful start from Stopped, for every sync role: result, state and log. -/
theorem s_stream_start_all_ok (env : Env) (w : World) (s : imx678) (on_arg : Int)
    (hon : on_arg ≠ 0) (hs : s.streaming = false) (hpm : 0 ≤ env.pm_get_sync_ret)
    (hall : ∀ k, env.i2c_send_ok k = true) :
    (imx678_s_stream env w s on_arg).2.2 = 0
      ∧ (imx678_s_stream env w s on_arg).2.1.streaming = true
      ∧ (imx678_s_stream env w s on_arg).1.pm_usage = w.pm_usage + 1
      ∧ ∃ commit, (imx678_s_stream env w s on_arg).1.log =
          w.log ++ [Event.pm_runtime_get_sync] ++ program_events s.cur_mode.global_reg_list
            ++ commit ++ start_tail s.sync_mode := by
  obtain ⟨h1, _, h3, commit, h4⟩ :=
    start_stream_all_ok env hall (pm_runtime_get_sync env w).1 s
  have hg : ¬ (pm_runtime_get_sync env w).2 < 0 := not_lt.mpr hpm
  unfold imx678_s_stream
  simp only [hon, hs, ne_eq, not_false_eq_true, decide_True, Bool.true_eq_false, if_false,
    if_true, if_neg hg, h1, not_true_eq_false]
  refine ⟨trivial, trivial, ?_, commit, ?_⟩
  · rw [h3]; rfl
  · rw [h4]; rfl

/-! ## C5 -/

/-- C5. Starting streaming from Stopped with sync role None, when power acquisition and
every register write succeed, takes the power reference, applies the base register program
of the mode in table order, commits the controls, waits 24-30 ms, then writes the
streaming-enable register `0x3000` with value 0, waits again and writes `0x3002 := 0`;
the call returns 0 and leaves `streaming = true`. -/
theorem s_stream_start_no_sync (env : Env) (w : World) (s : imx678) (on_arg : Int)
    (hon : on_arg ≠ 0) (hs : s.streaming = false) (hr : s.sync_mode = NO_SYNC_MODE)
    (hpm : 0 ≤ env.pm_get_sync_ret) (hall : ∀ k, env.i2c_send_ok k = true) :
    (imx678_s_stream env w s on_arg).2.2 = 0
      ∧ (imx678_s_stream env w s on_arg).2.1.streaming = true
      ∧ ∃ commit, (imx678_s_stream env w s on_arg).1.log =
          w.log ++ [Event.pm_runtime_get_sync] ++ program_events s.cur_mode.global_reg_list
            ++ commit
            ++ [Event.usleep_range 24000 30000, Event.i2c_master_send [0x30, 0x00, 0x00],
                Event.usleep_range 24000 30000, Event.i2c_master_send [0x30, 0x02, 0x00]] := by
  obtain ⟨h1, h2, _, commit, h4⟩ := s_stream_start_all_ok env w s on_arg hon hs hpm hall
  rw [hr] at h4
  exact ⟨h1, h2, commit, h4⟩

/-- Instance of C5: the device as attached, every collaborator succeeding. -/
theorem s_stream_start_no_sync_witness :
    ((1 : Int) ≠ 0 ∧ (imx678_probe_state NO_SYNC_MODE).streaming = false
      ∧ (imx678_probe_state NO_SYNC_MODE).sync_mode = NO_SYNC_MODE
      ∧ 0 ≤ Env.all_ok.pm_get_sync_ret ∧ ∀ k, Env.all_ok.i2c_send_ok k = true)
    ∧ (imx678_s_stream Env.all_ok World.init (imx678_probe_state NO_SYNC_MODE) 1).2.2 = 0
    ∧ (imx678_s_stream Env.all_ok World.init (imx678_probe_state NO_SYNC_MODE) 1).2.1.streaming
        = true :=
  ⟨⟨by decide, by decide, by decide, by decide, fun _ => rfl⟩,
   (s_stream_start_no_sync Env.all_ok World.init (imx678_probe_state NO_SYNC_MODE) 1
      (by decide) (by decide) (by decide) (by decide) (fun _ => rfl)).1,
   (s_stream_start_no_sync Env.all_ok World.init (imx678_probe_state NO_SYNC_MODE) 1
      (by decide) (by decide) (by decide) (by decide) (fun _ => rfl)).2.1⟩

/-! ## C6 -/

/-- C6 fails as stated: with the catalog mode, sync role ExternalMaster and every
collaborator succeeding, the log of a start from Stopped ends, after the base program, the
control commit, the settle delay and the three external-master writes, with the write
`0x3002 := 0` to the master-mode register. -/
theorem s_stream_start_external_master_writes_master_mode :
    (imx678_s_stream Env.all_ok World.init (imx678_probe_state EXTERNAL_MASTER_MODE) 1).1.log
      = [Event.pm_runtime_get_sync] ++ program_events imx678_10_3840x2160_global_regs ++
        [Event.pm_runtime_get_if_in_use,
         Event.i2c_master_send [0x30, 0x2a, 0x00],
         Event.i2c_master_send [0x30, 0x29, 0x08],
         Event.i2c_master_send [0x30, 0x28, 0xCA],
         Event.pm_runtime_put,
         Event.pm_runtime_get_if_in_use,
         Event.i2c_master_send [0x30, 0x52, 0x00],
         Event.i2c_master_send [0x30, 0x51, 0x02],
         Event.i2c_master_send [0x30, 0x50, 0xCA],
         Event.pm_runtime_put,
         Event.pm_runtime_get_if_in_use,
         Event.i2c_master_send [0x30, 0x70, 0x30],
         Event.pm_runtime_put,
         Event.pm_runtime_get_if_in_use,
         Event.i2c_master_send [0x5e, 0x00, 0x00],
         Event.pm_runtime_put,
         Event.pm_runtime_get_if_in_use,
         Event.pm_runtime_put,
         Event.pm_runtime_get_if_in_use,
         Event.pm_runtime_put,
         Event.usleep_range 24000 30000,
         Event.i2c_master_send [0x30, 0x10, 0x05],
         Event.i2c_master_send [0x31, 0xa1, 0x03],
         Event.i2c_master_send [0x31, 0xd9, 0x01],
         Event.i2c_master_send [0x30, 0x02, 0x00]] := by
  decide

/-! ## C7 -/

/-- C7. In every state of the device and of its collaborators, `imx678_s_stream` with a
nonzero argument while `streaming` is already true, and with argument 0 while `streaming`
is already false, returns 0 and changes nothing: the log (no register write, no power
reference taken or dropped), the usage count and the device state are the same. -/
theorem s_stream_noop (env : Env) (w : World) (s : imx678) (on_arg : Int) :
    (s.streaming = true → on_arg ≠ 0 → imx678_s_stream env w s on_arg = (w, s, 0))
      ∧ (s.streaming = false → imx678_s_stream env w s 0 = (w, s, 0)) := by
  constructor
  · intro hs hon
    unfold imx678_s_stream
    simp [hs, hon]
  · intro hs
    unfold imx678_s_stream
    simp [hs]

/-- Instance of C7: a start on a Streaming device and a stop on the device as attached. -/
theorem s_stream_noop_witness :
    ({ imx678_probe_state NO_SYNC_MODE with streaming := true }.streaming = true
      ∧ (1 : Int) ≠ 0 ∧ (imx678_probe_state NO_SYNC_MODE).streaming = false)
    ∧ imx678_s_stream Env.all_ok { World.init with pm_usage := 1 }
          { imx678_probe_state NO_SYNC_MODE with streaming := true } 1
        = ({ World.init with pm_usage := 1 },
           { imx678_probe_state NO_SYNC_MODE with streaming := true }, 0)
    ∧ imx678_s_stream Env.all_ok World.init (imx678_probe_state NO_SYNC_MODE) 0
        = (World.init, imx678_probe_state NO_SYNC_MODE, 0) :=
  ⟨⟨rfl, by decide, rfl⟩,
   (s_stream_noop Env.all_ok { World.init with pm_usage := 1 }
      { imx678_probe_state NO_SYNC_MODE with streaming := true } 1).1 rfl (by decide),
   (s_stream_noop Env.all_ok World.init (imx678_probe_state NO_SYNC_MODE) 1).2 rfl⟩

/-! ## C8 and C10 -/

/-- A table with a single write row is that one write. -/
theorem write_array_single (env : Env) (w : World) (a v : Nat)
    (h1 : a ≠ IMX678_REG_NULL) (h2 : a ≠ IMX678_REG_DELAY) :
    imx678_write_array env w [regval.mk a v, regval.mk IMX678_REG_NULL 0x00]
      = imx678_write_reg env w a IMX678_REG_VALUE_08BIT v := by
  simp only [imx678_write_array, if_neg h1, if_neg h2, if_true]
  split_ifs with h
  · exact Prod.ext rfl h.symm
  · rfl

/-- The two stop programs are the single write `0x31a1 := 0x0f`. -/
theorem stop_program_write (env : Env) (w : World) :
    imx678_write_array env w imx678_external_sync_master_stop_regs
        = imx678_write_reg env w 0x31a1 IMX678_REG_VALUE_08BIT 0x0f
      ∧ imx678_write_array env w imx678_interal_sync_master_stop_regs
        = imx678_write_reg env w 0x31a1 IMX678_REG_VALUE_08BIT 0x0f :=
  ⟨write_array_single env w 0x31a1 0x0f (by decide) (by decide),
   write_array_single env w 0x31a1 0x0f (by decide) (by decide)⟩

/-- The log of `__imx678_stop_stream`: the streaming-disable write, then the single write
of the stop program for the two master roles. -/
theorem stop_stream_log (env : Env) (w : World) (s : imx678) :
    (__imx678_stop_stream env w s).1.log =
      w.log ++ [Event.i2c_master_send [0x30, 0x00, 0x01]]
        ++ (if s.sync_mode = INTERNAL_MASTER_MODE ∨ s.sync_mode = EXTERNAL_MASTER_MODE
            then [Event.i2c_master_send [0x31, 0xa1, 0x0f]] else []) := by
  unfold __imx678_stop_stream
  cases hsync : s.sync_mode <;>
    simp only [reduceCtorEq, if_false, if_true, or_self, or_true, true_or,
      (stop_program_write env _).1, (stop_program_write env _).2, write_reg_08_fst,
      IMX678_REG_CTRL_MODE, List.append_nil] <;>
    rfl

/-- `__imx678_stop_stream` holds no power reference of its own. -/
theorem stop_stream_pm_usage (env : Env) (w : World) (s : imx678) :
    (__imx678_stop_stream env w s).1.pm_usage = w.pm_usage := by
  unfold __imx678_stop_stream
  cases hsync : s.sync_mode <;>
    simp only [reduceCtorEq, if_false, if_true,
      (stop_program_write env _).1, (stop_program_write env _).2, write_reg_08_fst]

/-- C8. Stopping a Streaming device first writes the streaming-enable register `0x3000`
with value 1, then applies the stop program of the role (the single write
`0x31a1 := 0x0f`) if and only if the sync role is InternalMaster or ExternalMaster, issues
no further register write, drops the power reference and leaves `streaming = false`;
this holds for every outcome of the writes. -/
theorem s_stream_stop_writes (env : Env) (w : World) (s : imx678)
    (hs : s.streaming = true) :
    (imx678_s_stream env w s 0).1.log =
        w.log ++ [Event.i2c_master_send [0x30, 0x00, 0x01]]
          ++ (if s.sync_mode = INTERNAL_MASTER_MODE ∨ s.sync_mode = EXTERNAL_MASTER_MODE
              then [Event.i2c_master_send [0x31, 0xa1, 0x0f]] else [])
          ++ [Event.pm_runtime_put]
      ∧ (imx678_s_stream env w s 0).2.1.streaming = false := by
  have hl := stop_stream_log env w s
  unfold imx678_s_stream
  simp [hs, pm_runtime_put, World.emit, hl]

/-- Instance of C8: stop with role InternalMaster and with role None. -/
theorem s_stream_stop_writes_witness :
    { imx678_probe_state INTERNAL_MASTER_MODE with streaming := true }.streaming = true
    ∧ (imx678_s_stream Env.all_ok { World.init with pm_usage := 1 }
          { imx678_probe_state INTERNAL_MASTER_MODE with streaming := true } 0).1.log
        = [Event.i2c_master_send [0x30, 0x00, 0x01], Event.i2c_master_send [0x31, 0xa1, 0x0f],
           Event.pm_runtime_put]
    ∧ (imx678_s_stream Env.all_ok { World.init with pm_usage := 1 }
          { imx678_probe_state NO_SYNC_MODE with streaming := true } 0).1.log
        = [Event.i2c_master_send [0x30, 0x00, 0x01], Event.pm_runtime_put] :=
  ⟨rfl,
   (s_stream_stop_writes Env.all_ok { World.init with pm_usage := 1 }
      { imx678_probe_state INTERNAL_MASTER_MODE with streaming := true } rfl).1,
   (s_stream_stop_writes Env.all_ok { World.init with pm_usage := 1 }
      { imx678_probe_state NO_SYNC_MODE with streaming := true } rfl).1⟩

/-- C10. For every sync role and every outcome of the register writes (all of them failing
included), `imx678_s_stream` with argument 0 on a Streaming device returns 0, leaves
`streaming = false` and releases the power reference exactly once: the usage count drops by
one and the log gains register writes followed by a single `pm_runtime_put`. -/
theorem s_stream_stop_best_effort (env : Env) (w : World) (s : imx678)
    (hs : s.streaming = true) :
    (imx678_s_stream env w s 0).2.2 = 0
      ∧ (imx678_s_stream env w s 0).2.1.streaming = false
      ∧ (imx678_s_stream env w s 0).1.pm_usage = w.pm_usage - 1
      ∧ ∃ writes : List Event,
          (∀ e ∈ writes, ∃ buf, e = Event.i2c_master_send buf)
          ∧ (imx678_s_stream env w s 0).1.log = w.log ++ writes ++ [Event.pm_runtime_put] := by
  have hl := stop_stream_log env w s
  have hp := stop_stream_pm_usage env w s
  refine ⟨?_, ?_, ?_,
    [Event.i2c_master_send [0x30, 0x00, 0x01]]
      ++ (if s.sync_mode = INTERNAL_MASTER_MODE ∨ s.sync_mode = EXTERNAL_MASTER_MODE
          then [Event.i2c_master_send [0x31, 0xa1, 0x0f]] else []), ?_, ?_⟩
  · unfold imx678_s_stream
    simp [hs]
  · unfold imx678_s_stream
    simp [hs]
  · unfold imx678_s_stream
    simp [hs, pm_runtime_put, World.emit, hp]
  · intro e he
    split_ifs at he
    · simp only [List.singleton_append, List.mem_cons, List.mem_singleton, List.mem_nil_iff,
        or_false] at he
      rcases he with he | he <;> exact ⟨_, he⟩
    · simp only [List.append_nil, List.mem_singleton] at he
      exact ⟨_, he⟩
  · unfold imx678_s_stream
    simp [hs, pm_runtime_put, World.emit, hl]

/-- Instance of C10: stop with role ExternalMaster while every register write fails. -/
theorem s_stream_stop_best_effort_witness :
    { imx678_probe_state EXTERNAL_MASTER_MODE with streaming := true }.streaming = true
    ∧ (imx678_s_stream { Env.all_ok with i2c_send_ok := fun _ => false }
          { World.init with pm_usage := 1 }
          { imx678_probe_state EXTERNAL_MASTER_MODE with streaming := true } 0).2.2 = 0
    ∧ (imx678_s_stream { Env.all_ok with i2c_send_ok := fun _ => false }
          { World.init with pm_usage := 1 }
          { imx678_probe_state EXTERNAL_MASTER_MODE with streaming := true } 0).2.1.streaming
        = false
    ∧ (imx678_s_stream { Env.all_ok with i2c_send_ok := fun _ => false }
          { World.init with pm_usage := 1 }
          { imx678_probe_state EXTERNAL_MASTER_MODE with streaming := true } 0).1.pm_usage
        = 0 :=
  ⟨rfl,
   (s_stream_stop_best_effort { Env.all_ok with i2c_send_ok := fun _ => false }
      { World.init with pm_usage := 1 }
      { imx678_probe_state EXTERNAL_MASTER_MODE with streaming := true } rfl).1,
   (s_stream_stop_best_effort { Env.all_ok with i2c_send_ok := fun _ => false }
      { World.init with pm_usage := 1 }
      { imx678_probe_state EXTERNAL_MASTER_MODE with streaming := true } rfl).2.1,
   (s_stream_stop_best_effort { Env.all_ok with i2c_send_ok := fun _ => false }
      { World.init with pm_usage := 1 }
      { imx678_probe_state EXTERNAL_MASTER_MODE with streaming := true } rfl).2.2.1⟩

/-! ## C9 -/

/-- `imx678_write_reg` holds no power reference. -/
theorem write_reg_pm_usage (env : Env) (w : World) (reg len val : Nat) :
    (imx678_write_reg env w reg len val).1.pm_usage = w.pm_usage := by
  unfold imx678_write_reg
  split_ifs <;> rfl

/-- `imx678_write_array` holds no power reference. -/
theorem write_array_pm_usage (env : Env) (regs : List regval) :
    ∀ w : World, (imx678_write_array env w regs).1.pm_usage = w.pm_usage := by
  induction regs with
  | nil => intro w; rfl
  | cons r rs ih =>
    intro w
    unfold imx678_write_array
    simp only []
    split_ifs
    · rfl
    · rw [ih]; rfl
    · rw [ih, write_reg_pm_usage]
    · rw [write_reg_pm_usage]

/-- C9, as the driver has it. For every start from Stopped in which power acquisition
succeeds, the device is marked Streaming after the call if and only if the call returns 0,
and the call returns what `__imx678_start_stream` returned.  In particular, when the base
register program succeeds but committing the deferred control values fails, the start is
aborted: the call returns the error of the commit, issues nothing after the commit except
the release of the power reference, and leaves `streaming = false`. -/
theorem s_stream_start_streaming_iff (env : Env) (w : World) (s : imx678) (on_arg : Int)
    (hon : on_arg ≠ 0) (hs : s.streaming = false) (hpm : 0 ≤ env.pm_get_sync_ret) :
    ((imx678_s_stream env w s on_arg).2.1.streaming = true
        ↔ (imx678_s_stream env w s on_arg).2.2 = 0)
      ∧ (imx678_s_stream env w s on_arg).2.2
          = (__imx678_start_stream env (pm_runtime_get_sync env w).1 s).2.2
      ∧ ((imx678_write_array env (pm_runtime_get_sync env w).1
            s.cur_mode.global_reg_list).2 = 0 →
         (v4l2_ctrl_handler_setup env
            (imx678_write_array env (pm_runtime_get_sync env w).1
              s.cur_mode.global_reg_list).1 s).2.2 ≠ 0 →
         (imx678_s_stream env w s on_arg).2.2
             = (v4l2_ctrl_handler_setup env
                 (imx678_write_array env (pm_runtime_get_sync env w).1
                   s.cur_mode.global_reg_list).1 s).2.2
           ∧ (imx678_s_stream env w s on_arg).2.1.streaming = false
           ∧ (imx678_s_stream env w s on_arg).1.log
               = (v4l2_ctrl_handler_setup env
                   (imx678_write_array env (pm_runtime_get_sync env w).1
                     s.cur_mode.global_reg_list).1 s).1.log ++ [Event.pm_runtime_put]
           ∧ (imx678_s_stream env w s on_arg).1.pm_usage = w.pm_usage) := by
  have hg : ¬ (pm_runtime_get_sync env w).2 < 0 := not_lt.mpr hpm
  have hst := start_stream_streaming env (pm_runtime_get_sync env w).1 s
  have hs_eq : imx678_s_stream env w s on_arg =
      if (__imx678_start_stream env (pm_runtime_get_sync env w).1 s).2.2 ≠ 0 then
        (pm_runtime_put (__imx678_start_stream env (pm_runtime_get_sync env w).1 s).1,
         (__imx678_start_stream env (pm_runtime_get_sync env w).1 s).2.1,
         (__imx678_start_stream env (pm_runtime_get_sync env w).1 s).2.2)
      else
        ((__imx678_start_stream env (pm_runtime_get_sync env w).1 s).1,
         { (__imx678_start_stream env (pm_runtime_get_sync env w).1 s).2.1 with
           streaming := true },
         (__imx678_start_stream env (pm_runtime_get_sync env w).1 s).2.2) := by
    unfold imx678_s_stream
    simp only [hon, hs, ne_eq, not_false_eq_true, decide_True, Bool.true_eq_false, if_false,
      if_true, if_neg hg]
  refine ⟨?_, ?_, ?_⟩
  · rw [hs_eq]
    by_cases h : (__imx678_start_stream env (pm_runtime_get_sync env w).1 s).2.2 ≠ 0
    · rw [if_pos h]
      simp only [hst, hs, Bool.false_eq_true, false_iff]
      exact h
    · rw [if_neg h]
      simp only [true_iff]
      exact not_not.mp h
  · rw [hs_eq]
    split_ifs <;> rfl
  · intro hb hc
    have hstart : __imx678_start_stream env (pm_runtime_get_sync env w).1 s =
        v4l2_ctrl_handler_setup env
          (imx678_write_array env (pm_runtime_get_sync env w).1
            s.cur_mode.global_reg_list).1 s := by
      unfold __imx678_start_stream
      simp only [hb, ne_eq, not_true_eq_false, if_false]
      rw [if_pos hc]
    have hpu := ctrl_replay_pm_usage env replayed_ctrls
      (imx678_write_array env (pm_runtime_get_sync env w).1 s.cur_mode.global_reg_list).1 s
    have hcf := (ctrl_replay_frame env replayed_ctrls
      (imx678_write_array env (pm_runtime_get_sync env w).1 s.cur_mode.global_reg_list).1 s).1
    rw [hs_eq, hstart, if_pos hc]
    refine ⟨rfl, ?_, rfl, ?_⟩
    · exact hcf.trans hs
    · show (v4l2_ctrl_handler_setup env _ s).1.pm_usage - 1 = w.pm_usage
      unfold v4l2_ctrl_handler_setup
      rw [hpu, write_array_pm_usage]
      show w.pm_usage + 1 - 1 = w.pm_usage
      omega

/-- Instance of the start rule: catalog mode, role None, the base program succeeds and the
control commit fails. -/
theorem s_stream_start_streaming_iff_witness :
    ((1 : Int) ≠ 0 ∧ (imx678_probe_state NO_SYNC_MODE).streaming = false
      ∧ 0 ≤ (Env.fail_from 369).pm_get_sync_ret)
    ∧ ((imx678_s_stream (Env.fail_from 369) World.init
          (imx678_probe_state NO_SYNC_MODE) 1).2.1.streaming = true
        ↔ (imx678_s_stream (Env.fail_from 369) World.init
          (imx678_probe_state NO_SYNC_MODE) 1).2.2 = 0)
    ∧ (imx678_s_stream (Env.fail_from 369) World.init
          (imx678_probe_state NO_SYNC_MODE) 1).2.1.streaming = false :=
  ⟨⟨by decide, by decide, by decide⟩,
   (s_stream_start_streaming_iff (Env.fail_from 369) World.init
      (imx678_probe_state NO_SYNC_MODE) 1 (by decide) (by decide) (by decide)).1,
   ((s_stream_start_streaming_iff (Env.fail_from 369) World.init
      (imx678_probe_state NO_SYNC_MODE) 1 (by decide) (by decide) (by decide)).2.2
      (by decide) (by decide)).2.1⟩

/-- C9 fails as stated: with the catalog mode and sync role None, power acquisition and
the 369 writes of the base register program succeed, the first write of the control commit
and all later ones fail; the start then returns `-EIO` and the device is not marked
Streaming. -/
theorem s_stream_start_commit_failure_not_streaming :
    0 ≤ (Env.fail_from 369).pm_get_sync_ret
    ∧ (imx678_write_array (Env.fail_from 369)
        (pm_runtime_get_sync (Env.fail_from 369) World.init).1
        (imx678_probe_state NO_SYNC_MODE).cur_mode.global_reg_list).2 = 0
    ∧ (v4l2_ctrl_handler_setup (Env.fail_from 369)
        (imx678_write_array (Env.fail_from 369)
          (pm_runtime_get_sync (Env.fail_from 369) World.init).1
          (imx678_probe_state NO_SYNC_MODE).cur_mode.global_reg_list).1
        (imx678_probe_state NO_SYNC_MODE)).2.2 = -5
    ∧ (imx678_s_stream (Env.fail_from 369) World.init
        (imx678_probe_state NO_SYNC_MODE) 1).2.1.streaming = false
    ∧ (imx678_s_stream (Env.fail_from 369) World.init
        (imx678_probe_state NO_SYNC_MODE) 1).2.2 = -5 := by
  decide

/-! ## C13 -/

/-- C13. For every control id and value, applying a control while the device is not
powered (no power reference in use) returns 0 and leaves the collaborators untouched: no
register write, no other operation, no power reference taken. -/
theorem set_ctrl_unpowered (env : Env) (w : World) (s : imx678) (id : ctrl_id) (v : Int)
    (hp : ¬ 0 < w.pm_usage) :
    (imx678_set_ctrl env w s id v).2.2 = 0 ∧ (imx678_set_ctrl env w s id v).1 = w := by
  unfold imx678_set_ctrl
  simp [pm_runtime_get_if_in_use, hp]

/-- Instance of C13: the exposure control applied to the device as attached. -/
theorem set_ctrl_unpowered_witness :
    ¬ (0 : Int) < World.init.pm_usage
    ∧ (imx678_set_ctrl Env.all_ok World.init (imx678_probe_state NO_SYNC_MODE)
          V4L2_CID_EXPOSURE 0x0600).2.2 = 0
    ∧ (imx678_set_ctrl Env.all_ok World.init (imx678_probe_state NO_SYNC_MODE)
          V4L2_CID_EXPOSURE 0x0600).1 = World.init :=
  ⟨by decide,
   (set_ctrl_unpowered Env.all_ok World.init (imx678_probe_state NO_SYNC_MODE)
      V4L2_CID_EXPOSURE 0x0600 (by decide)).1,
   (set_ctrl_unpowered Env.all_ok World.init (imx678_probe_state NO_SYNC_MODE)
      V4L2_CID_EXPOSURE 0x0600 (by decide)).2⟩

/-! ## C15 -/

theorem u32_of_natCast (p : Nat) (h : p < 4294967296) : u32_of (p : Int) = p := by
  have := u32_of_cast (p : Int) (by omega) (by omega)
  exact_mod_cast this

/-- C15. Applying the test-pattern control with index `p` on a powered device issues one
8-bit write to register `0x5e00`, of the low byte of the value 0 when `p = 0` and of
`(p - 1) | 0x80` otherwise; for `p ≤ 128` that byte is the value itself, and for the menu
indices 1 to 4 it is `0x80` to `0x83`. -/
theorem set_ctrl_test_pattern (env : Env) (w : World) (s : imx678) (p : Nat)
    (hp : 0 < w.pm_usage) (h32 : p < 4294967296) :
    (imx678_set_ctrl env w s V4L2_CID_TEST_PATTERN (p : Int)).1.log =
        w.log ++ [Event.pm_runtime_get_if_in_use,
          Event.i2c_master_send
            [0x5e, 0x00, (if p = 0 then 0 else (p - 1) ||| 0x80) &&& 0xff],
          Event.pm_runtime_put]
      ∧ (p ≤ 128 → (if p = 0 then 0 else (p - 1) ||| 0x80) &&& 0xff
                      = if p = 0 then 0 else (p - 1) ||| 0x80)
      ∧ (1 ≤ p → p ≤ 4 → (if p = 0 then 0 else (p - 1) ||| 0x80) &&& 0xff = 0x7f + p) := by
  refine ⟨?_, ?_, ?_⟩
  · have hlt : (p - 1 ||| 128) < 4294967296 :=
      Nat.or_lt_two_pow (n := 32) (by omega) (by norm_num)
    unfold imx678_set_ctrl
    simp only [pm_runtime_get_if_in_use, hp, if_true, pm_runtime_put, World.emit,
      imx678_enable_test_pattern, write_reg_08_fst, IMX678_REG_TEST_PATTERN,
      IMX678_TEST_PATTERN_ENABLE, IMX678_TEST_PATTERN_DISABLE, u32_of_natCast p h32]
    by_cases h0 : p = 0
    · subst h0
      simp
      decide
    · simp [h0, Nat.mod_eq_of_lt hlt]
      decide
  · intro h128
    by_cases h0 : p = 0
    · subst h0
      rfl
    · have hlt : (p - 1 ||| 128) < 256 :=
        Nat.or_lt_two_pow (n := 8) (by omega) (by norm_num)
      simp only [h0, if_false, and_ff]
      exact Nat.mod_eq_of_lt hlt
  · intro h1 h4
    interval_cases p <;> rfl

/-- Instance of C15: menu index 3 gives the register value `0x82`. -/
theorem set_ctrl_test_pattern_witness :
    ((0 : Int) < ({ World.init with pm_usage := 1 } : World).pm_usage
      ∧ (3 : Nat) < 4294967296)
    ∧ (imx678_set_ctrl Env.all_ok { World.init with pm_usage := 1 }
          (imx678_probe_state NO_SYNC_MODE) V4L2_CID_TEST_PATTERN ((3 : Nat) : Int)).1.log =
        [Event.pm_runtime_get_if_in_use, Event.i2c_master_send [0x5e, 0x00, 0x82],
          Event.pm_runtime_put] :=
  ⟨⟨by decide, by decide⟩,
   (set_ctrl_test_pattern Env.all_ok { World.init with pm_usage := 1 }
      (imx678_probe_state NO_SYNC_MODE) 3 (by decide) (by decide)).1⟩

/-! ## C18 -/

theorem reg_hi_byte (reg : Nat) (h : reg < 65536) : (reg >>> 8) &&& 0xff = reg >>> 8 := by
  rw [and_ff, Nat.shiftRight_eq_div_pow]
  omega

/-- C18. For every 16-bit register address `reg` and 32-bit value `val`: for a length
`len` from 1 to 4, `imx678_write_reg` issues one send of exactly `len + 2` bytes, which are
`reg >> 8`, `reg & 0xff` and then the low `len` bytes of `val`, most significant first, and
returns 0 or `-EIO` according to the outcome of that send; for `len > 4` it returns
`-EINVAL` and sends nothing. -/
theorem write_reg_burst (env : Env) (w : World) (reg len val : Nat)
    (hreg : reg < 65536) (hval : val < 4294967296) :
    (1 ≤ len → len ≤ 4 →
        (imx678_write_reg env w reg len val).1
            = { w with
                log := w.log ++ [Event.i2c_master_send
                  ([reg >>> 8, reg &&& 0xff]
                    ++ (List.range len).map fun j => (val >>> (8 * (len - 1 - j))) &&& 0xff)],
                n_send := w.n_send + 1 }
          ∧ ([reg >>> 8, reg &&& 0xff]
                ++ (List.range len).map fun j => (val >>> (8 * (len - 1 - j))) &&& 0xff).length
              = len + 2
          ∧ (imx678_write_reg env w reg len val).2
              = if env.i2c_send_ok w.n_send then 0 else -EIO_ERRNO)
      ∧ (4 < len → imx678_write_reg env w reg len val = (w, -EINVAL)) := by
  constructor
  · intro h1 h4
    have hhi := reg_hi_byte reg hreg
    have hv := Nat.mod_eq_of_lt hval
    refine ⟨?_, by simp, ?_⟩
    · interval_cases len <;>
        (unfold imx678_write_reg
         simp only [World.emit, cpu_to_be32, hhi, hv]
         split_ifs <;> first | omega | simp [List.range_succ])
    · unfold imx678_write_reg
      split_ifs <;> first | omega | rfl
  · intro h
    unfold imx678_write_reg
    rw [if_pos h]

/-- Instance of C18: a three-byte write of `0xAABBCCDD` to register `0x1234`. -/
theorem write_reg_burst_witness :
    ((0x1234 : Nat) < 65536 ∧ (0xAABBCCDD : Nat) < 4294967296 ∧ 1 ≤ 3 ∧ 3 ≤ 4)
    ∧ (imx678_write_reg Env.all_ok World.init 0x1234 3 0xAABBCCDD).1
        = { World.init with
            log := [Event.i2c_master_send [0x12, 0x34, 0xBB, 0xCC, 0xDD]], n_send := 1 }
    ∧ imx678_write_reg Env.all_ok World.init 0x1234 5 0xAABBCCDD = (World.init, -EINVAL) :=
  ⟨⟨by decide, by decide, by decide, by decide⟩,
   ((write_reg_burst Env.all_ok World.init 0x1234 3 0xAABBCCDD (by decide) (by decide)).1
      (by decide) (by decide)).1,
   (write_reg_burst Env.all_ok World.init 0x1234 5 0xAABBCCDD (by decide) (by decide)).2
      (by decide)⟩

/-! ## C19 -/

theorem n_transfer_emit (w : World) (a : List Nat) (l : Nat) :
    (w.emit (Event.i2c_transfer a l)).n_transfer = w.n_transfer + 1 := by
  simp [World.n_transfer, World.emit, List.countP_append, Event.is_i2c_transfer]

/-- For a length from 1 to 4 the value decoded from `data_be` is the big-endian number
made of the bytes received. -/
theorem be32_data_be (len : Nat) (d : List Nat) (h1 : 1 ≤ len) (h4 : len ≤ 4) :
    be32_to_cpu (data_be len d) = be_value len d := by
  interval_cases len <;>
    simp [be32_to_cpu, data_be, be_value, List.range_succ, List.replicate] <;> ring

/-- The retry loop of `imx678_read_reg`, by the outcome of the next three transfers. -/
theorem read_reg_transfers_three (env : Env) (w : World) (reg len : Nat) :
    (∀ d, env.i2c_transfer_data w.n_transfer = some d →
        read_reg_transfers env reg len 3 w
          = ({ w with log := w.log
                ++ [Event.i2c_transfer [(reg >>> 8) &&& 0xff, reg &&& 0xff] len] }, some d))
      ∧ (∀ d, env.i2c_transfer_data w.n_transfer = none →
          env.i2c_transfer_data (w.n_transfer + 1) = some d →
          read_reg_transfers env reg len 3 w
            = ({ w with log := w.log
                  ++ [Event.i2c_transfer [(reg >>> 8) &&& 0xff, reg &&& 0xff] len,
                      Event.i2c_transfer [(reg >>> 8) &&& 0xff, reg &&& 0xff] len] }, some d))
      ∧ (∀ d, env.i2c_transfer_data w.n_transfer = none →
          env.i2c_transfer_data (w.n_transfer + 1) = none →
          env.i2c_transfer_data (w.n_transfer + 2) = some d →
          read_reg_transfers env reg len 3 w
            = ({ w with log := w.log
                  ++ [Event.i2c_transfer [(reg >>> 8) &&& 0xff, reg &&& 0xff] len,
                      Event.i2c_transfer [(reg >>> 8) &&& 0xff, reg &&& 0xff] len,
                      Event.i2c_transfer [(reg >>> 8) &&& 0xff, reg &&& 0xff] len] }, some d))
      ∧ (env.i2c_transfer_data w.n_transfer = none →
          env.i2c_transfer_data (w.n_transfer + 1) = none →
          env.i2c_transfer_data (w.n_transfer + 2) = none →
          read_reg_transfers env reg len 3 w
            = ({ w with log := w.log
                  ++ [Event.i2c_transfer [(reg >>> 8) &&& 0xff, reg &&& 0xff] len,
                      Event.i2c_transfer [(reg >>> 8) &&& 0xff, reg &&& 0xff] len,
                      Event.i2c_transfer [(reg >>> 8) &&& 0xff, reg &&& 0xff] len] }, none)) := by
  refine ⟨?_, ?_, ?_, ?_⟩
  · intro d h0
    simp only [read_reg_transfers, h0]
    simp [World.emit]
  · intro d h0 h1
    simp only [read_reg_transfers, h0, n_transfer_emit, h1]
    simp [World.emit]
  · intro d h0 h1 h2
    simp only [read_reg_transfers, h0, n_transfer_emit, h1, h2, Nat.add_assoc]
    simp [World.emit]
  · intro h0 h1 h2
    simp only [read_reg_transfers, h0, n_transfer_emit, h1, h2, Nat.add_assoc]
    simp [World.emit]

/-- C19. For every length `len` from 1 to 4, `imx678_read_reg` performs at most 3
transfers and stops at the first one that succeeds, returning 0 with the big-endian value of
the `len` bytes read; it returns `-EIO` if and only if all 3 transfers fail, and then the
output value is what it was before the call. -/
theorem read_reg_retry (env : Env) (w : World) (reg len val : Nat)
    (h1 : 1 ≤ len) (h4 : len ≤ 4) :
    (∀ d, env.i2c_transfer_data w.n_transfer = some d →
        imx678_read_reg env w reg len val
          = ({ w with log := w.log
                ++ [Event.i2c_transfer [(reg >>> 8) &&& 0xff, reg &&& 0xff] len] },
             0, be_value len d))
      ∧ (∀ d, env.i2c_transfer_data w.n_transfer = none →
          env.i2c_transfer_data (w.n_transfer + 1) = some d →
          imx678_read_reg env w reg len val
            = ({ w with log := w.log
                  ++ [Event.i2c_transfer [(reg >>> 8) &&& 0xff, reg &&& 0xff] len,
                      Event.i2c_transfer [(reg >>> 8) &&& 0xff, reg &&& 0xff] len] },
               0, be_value len d))
      ∧ (∀ d, env.i2c_transfer_data w.n_transfer = none →
          env.i2c_transfer_data (w.n_transfer + 1) = none →
          env.i2c_transfer_data (w.n_transfer + 2) = some d →
          imx678_read_reg env w reg len val
            = ({ w with log := w.log
                  ++ [Event.i2c_transfer [(reg >>> 8) &&& 0xff, reg &&& 0xff] len,
                      Event.i2c_transfer [(reg >>> 8) &&& 0xff, reg &&& 0xff] len,
                      Event.i2c_transfer [(reg >>> 8) &&& 0xff, reg &&& 0xff] len] },
               0, be_value len d))
      ∧ (env.i2c_transfer_data w.n_transfer = none →
          env.i2c_transfer_data (w.n_transfer + 1) = none →
          env.i2c_transfer_data (w.n_transfer + 2) = none →
          imx678_read_reg env w reg len val
            = ({ w with log := w.log
                  ++ [Event.i2c_transfer [(reg >>> 8) &&& 0xff, reg &&& 0xff] len,
                      Event.i2c_transfer [(reg >>> 8) &&& 0xff, reg &&& 0xff] len,
                      Event.i2c_transfer [(reg >>> 8) &&& 0xff, reg &&& 0xff] len] },
               -EIO_ERRNO, val))
      ∧ ((imx678_read_reg env w reg len val).2.1 = -EIO_ERRNO ↔
          (env.i2c_transfer_data w.n_transfer = none
            ∧ env.i2c_transfer_data (w.n_transfer + 1) = none
            ∧ env.i2c_transfer_data (w.n_transfer + 2) = none)) := by
  have hlen : ¬ (len > 4 ∨ len = 0) := by omega
  have hbe := fun d => be32_data_be len d h1 h4
  obtain ⟨t1, t2, t3, t4⟩ := read_reg_transfers_three env w reg len
  have c1 : ∀ d, env.i2c_transfer_data w.n_transfer = some d →
      imx678_read_reg env w reg len val
        = ({ w with log := w.log
              ++ [Event.i2c_transfer [(reg >>> 8) &&& 0xff, reg &&& 0xff] len] },
           0, be_value len d) := by
    intro d h0
    unfold imx678_read_reg
    simp only [hlen, if_false, t1 d h0, hbe]
  have c2 : ∀ d, env.i2c_transfer_data w.n_transfer = none →
      env.i2c_transfer_data (w.n_transfer + 1) = some d →
      imx678_read_reg env w reg len val
        = ({ w with log := w.log
              ++ [Event.i2c_transfer [(reg >>> 8) &&& 0xff, reg &&& 0xff] len,
                  Event.i2c_transfer [(reg >>> 8) &&& 0xff, reg &&& 0xff] len] },
           0, be_value len d) := by
    intro d h0 h1'
    unfold imx678_read_reg
    simp only [hlen, if_false, t2 d h0 h1', hbe]
  have c3 : ∀ d, env.i2c_transfer_data w.n_transfer = none →
      env.i2c_transfer_data (w.n_transfer + 1) = none →
      env.i2c_transfer_data (w.n_transfer + 2) = some d →
      imx678_read_reg env w reg len val
        = ({ w with log := w.log
              ++ [Event.i2c_transfer [(reg >>> 8) &&& 0xff, reg &&& 0xff] len,
                  Event.i2c_transfer [(reg >>> 8) &&& 0xff, reg &&& 0xff] len,
                  Event.i2c_transfer [(reg >>> 8) &&& 0xff, reg &&& 0xff] len] },
           0, be_value len d) := by
    intro d h0 h1' h2
    unfold imx678_read_reg
    simp only [hlen, if_false, t3 d h0 h1' h2, hbe]
  have c4 : env.i2c_transfer_data w.n_transfer = none →
      env.i2c_transfer_data (w.n_transfer + 1) = none →
      env.i2c_transfer_data (w.n_transfer + 2) = none →
      imx678_read_reg env w reg len val
        = ({ w with log := w.log
              ++ [Event.i2c_transfer [(reg >>> 8) &&& 0xff, reg &&& 0xff] len,
                  Event.i2c_transfer [(reg >>> 8) &&& 0xff, reg &&& 0xff] len,
                  Event.i2c_transfer [(reg >>> 8) &&& 0xff, reg &&& 0xff] len] },
           -EIO_ERRNO, val) := by
    intro h0 h1' h2
    unfold imx678_read_reg
    simp only [hlen, if_false, t4 h0 h1' h2]
  refine ⟨c1, c2, c3, c4, ?_⟩
  have hne : (-EIO_ERRNO : Int) ≠ 0 := by decide
  constructor
  · intro hr
    cases h0 : env.i2c_transfer_data w.n_transfer with
    | some d => rw [c1 d h0] at hr; exact absurd hr.symm hne
    | none =>
      cases h1' : env.i2c_transfer_data (w.n_transfer + 1) with
      | some d => rw [c2 d h0 h1'] at hr; exact absurd hr.symm hne
      | none =>
        cases h2 : env.i2c_transfer_data (w.n_transfer + 2) with
        | some d => rw [c3 d h0 h1' h2] at hr; exact absurd hr.symm hne
        | none => exact ⟨rfl, rfl, rfl⟩
  · rintro ⟨h0, h1', h2⟩
    rw [c4 h0 h1' h2]

/-- Instance of C19: the first two transfers fail and the third delivers `0x4c 0x04`. -/
theorem read_reg_retry_witness :
    ((1 : Nat) ≤ 2 ∧ (2 : Nat) ≤ 4)
    ∧ imx678_read_reg
        { Env.all_ok with
          i2c_transfer_data := fun k => if k = 2 then some [0x4c, 0x04] else none }
        World.init 0x302c 2 77
      = ({ World.init with
           log := [Event.i2c_transfer [0x30, 0x2c] 2, Event.i2c_transfer [0x30, 0x2c] 2,
                   Event.i2c_transfer [0x30, 0x2c] 2] }, 0, 0x4c04)
    ∧ imx678_read_reg { Env.all_ok with i2c_transfer_data := fun _ => none }
        World.init 0x302c 2 77
      = ({ World.init with
           log := [Event.i2c_transfer [0x30, 0x2c] 2, Event.i2c_transfer [0x30, 0x2c] 2,
                   Event.i2c_transfer [0x30, 0x2c] 2] }, -EIO_ERRNO, 77) :=
  ⟨⟨by decide, by decide⟩,
   (read_reg_retry
      { Env.all_ok with
        i2c_transfer_data := fun k => if k = 2 then some [0x4c, 0x04] else none }
      World.init 0x302c 2 77 (by decide) (by decide)).2.2.1 [0x4c, 0x04] rfl rfl rfl,
   (read_reg_retry { Env.all_ok with i2c_transfer_data := fun _ => none }
      World.init 0x302c 2 77 (by decide) (by decide)).2.2.2.1 rfl rfl rfl⟩

/-! ## C12 -/

/-- One `imx678_read_reg` of a valid length issues between one and three transfers and
nothing else. -/
theorem read_reg_world (env : Env) (w : World) (reg len val : Nat)
    (h1 : 1 ≤ len) (h4 : len ≤ 4) :
    ∃ m, 1 ≤ m ∧ m ≤ 3 ∧ (imx678_read_reg env w reg len val).1
      = { w with log := w.log
            ++ List.replicate m (Event.i2c_transfer [(reg >>> 8) &&& 0xff, reg &&& 0xff] len) } := by
  have hlen : ¬ (len > 4 ∨ len = 0) := by omega
  obtain ⟨t1, t2, t3, t4⟩ := read_reg_transfers_three env w reg len
  unfold imx678_read_reg
  simp only [hlen, if_false]
  cases h0 : env.i2c_transfer_data w.n_transfer with
  | some d => exact ⟨1, by omega, by omega, by rw [t1 d h0]; rfl⟩
  | none =>
    cases h1' : env.i2c_transfer_data (w.n_transfer + 1) with
    | some d => exact ⟨2, by omega, by omega, by rw [t2 d h0 h1']; rfl⟩
    | none =>
      cases h2 : env.i2c_transfer_data (w.n_transfer + 2) with
      | some d => exact ⟨3, by omega, by omega, by rw [t3 d h0 h1' h2]; rfl⟩
      | none => exact ⟨3, by omega, by omega, by rw [t4 h0 h1' h2]; rfl⟩

/-- After `k` reads of the identity register the log has gained between `k` and `3 * k`
transfers of two bytes from register `0x302c`, and nothing else. -/
theorem id_reads_world (env : Env) :
    ∀ (k : Nat) (w : World) (id : Nat),
      ∃ m, k ≤ m ∧ m ≤ 3 * k ∧ (id_reads env k w id).1
        = { w with log := w.log ++ List.replicate m (Event.i2c_transfer [0x30, 0x2c] 2) } := by
  intro k
  induction k with
  | zero => intro w id; exact ⟨0, by omega, by omega, by simp [id_reads]⟩
  | succ k ih =>
    intro w id
    obtain ⟨m1, h1, h2, h3⟩ :=
      read_reg_world env w IMX678_REG_CHIP_ID IMX678_REG_VALUE_16BIT id (by decide) (by decide)
    obtain ⟨m2, h4, h5, h6⟩ := ih
      (imx678_read_reg env w IMX678_REG_CHIP_ID IMX678_REG_VALUE_16BIT id).1
      (imx678_read_reg env w IMX678_REG_CHIP_ID IMX678_REG_VALUE_16BIT id).2.2
    refine ⟨m1 + m2, by omega, by omega, ?_⟩
    unfold id_reads
    rw [h6, h3]
    have hT : Event.i2c_transfer [(IMX678_REG_CHIP_ID >>> 8) &&& 0xff, IMX678_REG_CHIP_ID &&& 0xff]
        IMX678_REG_VALUE_16BIT = Event.i2c_transfer [0x30, 0x2c] 2 := by decide
    simp only [hT, List.append_assoc, List.append_replicate_replicate]

/-- The loop runs to its end when no read leaves the chip id in `id`. -/
theorem check_sensor_id_loop_none (env : Env) :
    ∀ (n : Nat) (w : World) (id : Nat),
      (∀ k, k < n → (id_reads env (k + 1) w id).2 ≠ IMX678_CHIP_ID) →
      check_sensor_id_loop env n w id = id_reads env n w id := by
  intro n
  induction n with
  | zero => intro w id _; rfl
  | succ n ih =>
    intro w id h
    have h0 : (imx678_read_reg env w IMX678_REG_CHIP_ID IMX678_REG_VALUE_16BIT id).2.2
        ≠ IMX678_CHIP_ID := h 0 (by omega)
    unfold check_sensor_id_loop
    simp only [if_neg h0]
    rw [ih _ _ (fun k hk => h (k + 1) (by omega))]
    rfl

/-- The loop stops right after the first read that leaves the chip id in `id`. -/
theorem check_sensor_id_loop_first (env : Env) :
    ∀ (n : Nat) (w : World) (id : Nat) (k : Nat), k < n →
      (id_reads env (k + 1) w id).2 = IMX678_CHIP_ID →
      (∀ j, j < k → (id_reads env (j + 1) w id).2 ≠ IMX678_CHIP_ID) →
      check_sensor_id_loop env n w id = id_reads env (k + 1) w id := by
  intro n
  induction n with
  | zero => intro w id k hk; omega
  | succ n ih =>
    intro w id k hk hyes hno
    unfold check_sensor_id_loop
    cases k with
    | zero =>
      have h0 : (imx678_read_reg env w IMX678_REG_CHIP_ID IMX678_REG_VALUE_16BIT id).2.2
          = IMX678_CHIP_ID := hyes
      simp only [if_pos h0]
      rfl
    | succ k =>
      have h0 : (imx678_read_reg env w IMX678_REG_CHIP_ID IMX678_REG_VALUE_16BIT id).2.2
          ≠ IMX678_CHIP_ID := hno 0 (by omega)
      simp only [if_neg h0]
      rw [ih _ _ k (by omega) hyes (fun j hj => hno (j + 1) (by omega))]
      rfl

/-- C12. `imx678_check_sensor_id` reads the 16-bit identity register `0x302c` at most 10
times, the content of `id` starting at 0, and stops right after the first read that leaves
`0x4c04` in `id`: it returns 0 if and only if one of the first 10 reads does so; when the
first such read is the one numbered `k` (from 0) it has performed exactly `k + 1` reads
(between `k + 1` and `3 * (k + 1)` transfers); when no read does so it has performed exactly
10 reads (between 10 and 30 transfers), waits 2-4 ms and returns `-ENODEV`. -/
theorem check_sensor_id_spec (env : Env) (w : World) :
    ((imx678_check_sensor_id env w).2 = 0 ↔
        ∃ k, k < 10 ∧ (id_reads env (k + 1) w 0).2 = IMX678_CHIP_ID)
      ∧ (∀ k, k < 10 → (id_reads env (k + 1) w 0).2 = IMX678_CHIP_ID →
          (∀ j, j < k → (id_reads env (j + 1) w 0).2 ≠ IMX678_CHIP_ID) →
          imx678_check_sensor_id env w = ((id_reads env (k + 1) w 0).1, 0)
            ∧ ∃ m, k + 1 ≤ m ∧ m ≤ 3 * (k + 1) ∧ (imx678_check_sensor_id env w).1.log
                = w.log ++ List.replicate m (Event.i2c_transfer [0x30, 0x2c] 2))
      ∧ ((∀ k, k < 10 → (id_reads env (k + 1) w 0).2 ≠ IMX678_CHIP_ID) →
          imx678_check_sensor_id env w
              = (usleep_range (id_reads env 10 w 0).1 2000 4000, -ENODEV)
            ∧ ∃ m, 10 ≤ m ∧ m ≤ 30 ∧ (imx678_check_sensor_id env w).1.log
                = w.log ++ List.replicate m (Event.i2c_transfer [0x30, 0x2c] 2)
                    ++ [Event.usleep_range 2000 4000]) := by
  have hfirst : ∀ k, k < 10 → (id_reads env (k + 1) w 0).2 = IMX678_CHIP_ID →
      (∀ j, j < k → (id_reads env (j + 1) w 0).2 ≠ IMX678_CHIP_ID) →
      imx678_check_sensor_id env w = ((id_reads env (k + 1) w 0).1, 0) := by
    intro k hk hyes hno
    unfold imx678_check_sensor_id
    simp only [check_sensor_id_loop_first env 10 w 0 k hk hyes hno, hyes, ne_eq,
      not_true_eq_false, if_false]
  have hnone : (∀ k, k < 10 → (id_reads env (k + 1) w 0).2 ≠ IMX678_CHIP_ID) →
      imx678_check_sensor_id env w
        = (usleep_range (id_reads env 10 w 0).1 2000 4000, -ENODEV) := by
    intro hno
    have h9 : (id_reads env 10 w 0).2 ≠ IMX678_CHIP_ID := hno 9 (by omega)
    unfold imx678_check_sensor_id
    simp only [check_sensor_id_loop_none env 10 w 0 hno, h9, ne_eq, not_false_eq_true,
      if_true]
  refine ⟨?_, ?_, ?_⟩
  · constructor
    · intro hret
      by_contra hex
      have hno : ∀ k, k < 10 → (id_reads env (k + 1) w 0).2 ≠ IMX678_CHIP_ID :=
        fun k hk hyes => hex ⟨k, hk, hyes⟩
      rw [hnone hno] at hret
      have hne : (-ENODEV : Int) ≠ 0 := by decide
      exact hne hret
    · intro hex
      have hex' : ∃ k, k < 10 ∧ (id_reads env (k + 1) w 0).2 = IMX678_CHIP_ID := hex
      obtain ⟨hk, hyes⟩ := Nat.find_spec hex'
      rw [hfirst (Nat.find hex') hk hyes
        (fun j hj hj' => Nat.find_min hex' hj ⟨by omega, hj'⟩)]
  · intro k hk hyes hno
    refine ⟨hfirst k hk hyes hno, ?_⟩
    obtain ⟨m, h1, h2, h3⟩ := id_reads_world env (k + 1) w 0
    exact ⟨m, h1, h2, by rw [hfirst k hk hyes hno, h3]⟩
  · intro hno
    refine ⟨hnone hno, ?_⟩
    obtain ⟨m, h1, h2, h3⟩ := id_reads_world env 10 w 0
    exact ⟨m, h1, by omega, by rw [hnone hno, h3]; rfl⟩

/-- Instances of C12: a device that delivers the chip id only on the 5th read is accepted
after 5 reads; a device that always delivers another value is rejected with `-ENODEV`
after 10 reads. -/
theorem check_sensor_id_spec_witness :
    imx678_check_sensor_id
        { Env.all_ok with
          i2c_transfer_data := fun k => if k = 4 then some [0x4c, 0x04] else some [0x00, 0x00] }
        World.init
      = ({ World.init with log := List.replicate 5 (Event.i2c_transfer [0x30, 0x2c] 2) }, 0)
    ∧ imx678_check_sensor_id
        { Env.all_ok with i2c_transfer_data := fun _ => some [0x00, 0x00] } World.init
      = ({ World.init with
           log := List.replicate 10 (Event.i2c_transfer [0x30, 0x2c] 2)
                    ++ [Event.usleep_range 2000 4000] }, -ENODEV) :=
  ⟨((check_sensor_id_spec
      { Env.all_ok with
        i2c_transfer_data := fun k => if k = 4 then some [0x4c, 0x04] else some [0x00, 0x00] }
      World.init).2.1 4 (by decide) (by decide) (by decide)).1,
   ((check_sensor_id_spec
      { Env.all_ok with i2c_transfer_data := fun _ => some [0x00, 0x00] }
      World.init).2.2 (by decide)).1⟩

/-! ## C16 and C17 -/

/-- C17. A failing power-on returns the error after undoing what it had acquired.  If
enabling the regulators fails, the clock that was enabled is disabled as the last
operation, and there is no reset deassert, no power-down line write and no wait.  If
enabling the clock fails, the call returns right after that attempt: no regulator, reset
line or power-down line operation.  If setting the clock rate fails, the call returns
right after that attempt. -/
theorem power_on_failure (env : Env) (w : World) :
    (0 ≤ env.clk_set_rate_ret → 0 ≤ env.clk_prepare_enable_ret →
        env.regulator_bulk_enable_ret < 0 →
        (__imx678_power_on env w).2 = env.regulator_bulk_enable_ret
          ∧ (__imx678_power_on env w).1.log =
              w.log ++ (if env.pins_default_valid then [Event.pinctrl_select_state] else [])
                ++ [Event.clk_set_rate 74250000, Event.clk_prepare_enable]
                ++ (if env.reset_gpio_valid then [Event.gpiod_set_value_reset 0] else [])
                ++ [Event.regulator_bulk_enable, Event.clk_disable_unprepare])
      ∧ (0 ≤ env.clk_set_rate_ret → env.clk_prepare_enable_ret < 0 →
          (__imx678_power_on env w).2 = env.clk_prepare_enable_ret
            ∧ (__imx678_power_on env w).1.log =
                w.log ++ (if env.pins_default_valid then [Event.pinctrl_select_state] else [])
                  ++ [Event.clk_set_rate 74250000, Event.clk_prepare_enable])
      ∧ (env.clk_set_rate_ret < 0 →
          (__imx678_power_on env w).2 = env.clk_set_rate_ret
            ∧ (__imx678_power_on env w).1.log =
                w.log ++ (if env.pins_default_valid then [Event.pinctrl_select_state] else [])
                  ++ [Event.clk_set_rate 74250000]) := by
  refine ⟨?_, ?_, ?_⟩
  · intro hset hclk hreg
    have h1 : ¬ env.clk_set_rate_ret < 0 := not_lt.mpr hset
    have h2 : ¬ env.clk_prepare_enable_ret < 0 := not_lt.mpr hclk
    constructor
    · unfold __imx678_power_on
      simp only [h1, h2, hreg, if_false, if_true]
    · unfold __imx678_power_on
      simp only [h1, h2, hreg, if_false, if_true, World.emit, IMX678_XVCLK_FREQ_37]
      split_ifs <;> simp
  · intro hset hclk
    have h1 : ¬ env.clk_set_rate_ret < 0 := not_lt.mpr hset
    constructor
    · unfold __imx678_power_on
      simp only [h1, hclk, if_false, if_true]
    · unfold __imx678_power_on
      simp only [h1, hclk, if_false, if_true, World.emit, IMX678_XVCLK_FREQ_37]
      split_ifs <;> simp
  · intro hset
    constructor
    · unfold __imx678_power_on
      simp only [hset, if_true]
    · unfold __imx678_power_on
      simp only [hset, if_true, World.emit, IMX678_XVCLK_FREQ_37]
      split_ifs <;> simp

/-- Instances of C17: the regulators fail with `-EIO`; the clock fails to start with
`-EINVAL`. -/
theorem power_on_failure_witness :
    ((__imx678_power_on { Env.all_ok with regulator_bulk_enable_ret := -5 } World.init).2 = -5
      ∧ (__imx678_power_on { Env.all_ok with regulator_bulk_enable_ret := -5 } World.init).1.log
          = [Event.pinctrl_select_state, Event.clk_set_rate 74250000, Event.clk_prepare_enable,
             Event.gpiod_set_value_reset 0, Event.regulator_bulk_enable,
             Event.clk_disable_unprepare])
    ∧ ((__imx678_power_on { Env.all_ok with clk_prepare_enable_ret := -22 } World.init).2 = -22
      ∧ (__imx678_power_on { Env.all_ok with clk_prepare_enable_ret := -22 } World.init).1.log
          = [Event.pinctrl_select_state, Event.clk_set_rate 74250000,
             Event.clk_prepare_enable]) :=
  ⟨(power_on_failure { Env.all_ok with regulator_bulk_enable_ret := -5 } World.init).1
      (by decide) (by decide) (by decide),
   (power_on_failure { Env.all_ok with clk_prepare_enable_ret := -22 } World.init).2.1
      (by decide) (by decide)⟩

/-! ## C14 -/

theorem supported_modes_single : supported_modes = [supported_modes_0] := rfl

/-- With the single-entry catalog every request selects that entry. -/
theorem find_nearest_single (width height : Nat) :
    v4l2_find_nearest_size supported_modes width height = supported_modes_0 := by
  unfold v4l2_find_nearest_size
  rw [supported_modes_single]
  simp [List.foldl]

theorem supported_modes_0_size :
    supported_modes_0.width = 3840 ∧ supported_modes_0.height = 2160
      ∧ supported_modes_0.bus_fmt = MEDIA_BUS_FMT_SRGGB10_1X10 := by
  decide

/-- C14. With the single-entry mode catalog, for every requested width and height a
committed negotiation selects the 3840x2160 entry and returns its width, height and bus
format.  Negotiating a second time with the same request yields the same returned
format, the same result and the same device state as the first time, whenever the first
negotiation succeeded (for any outcome of the collaborators the second time), and also
when the collaborators answer the second time as they did the first time. -/
theorem set_fmt_single_mode (env : Env) (w : World) (s : imx678) (fmt : v4l2_subdev_format)
    (hact : fmt.which = V4L2_SUBDEV_FORMAT_ACTIVE) :
    (imx678_set_fmt env w s fmt).2.1.cur_mode = supported_modes_0
      ∧ (imx678_set_fmt env w s fmt).2.2.1.width = 3840
      ∧ (imx678_set_fmt env w s fmt).2.2.1.height = 2160
      ∧ (imx678_set_fmt env w s fmt).2.2.1.code = MEDIA_BUS_FMT_SRGGB10_1X10
      ∧ (∀ env2 : Env, (imx678_set_fmt env w s fmt).2.2.2 = 0 →
          imx678_set_fmt env2 (imx678_set_fmt env w s fmt).1 (imx678_set_fmt env w s fmt).2.1 fmt
            = imx678_set_fmt env w s fmt)
      ∧ ((imx678_set_fmt env (imx678_set_fmt env w s fmt).1
            (imx678_set_fmt env w s fmt).2.1 fmt).2
          = (imx678_set_fmt env w s fmt).2)
      ∧ (s.cur_vclk_freq = supported_modes_0.vclk_freq →
          (imx678_set_fmt env w s fmt).2.2.2 = 0) := by
  have hw := supported_modes_0_size.1
  have hh := supported_modes_0_size.2.1
  have hc := supported_modes_0_size.2.2
  have htry : ¬ fmt.which = V4L2_SUBDEV_FORMAT_TRY := by rw [hact]; decide
  generalize hm : supported_modes_0 = m at hw hh hc
  refine ⟨?_, ?_, ?_, ?_, ?_, ?_, ?_⟩
  · unfold imx678_set_fmt
    simp only [find_nearest_single, hm, htry, if_false]
    split_ifs <;> rfl
  · unfold imx678_set_fmt
    simp only [find_nearest_single, hm, htry, if_false]
    split_ifs <;> exact hw
  · unfold imx678_set_fmt
    simp only [find_nearest_single, hm, htry, if_false]
    split_ifs <;> exact hh
  · unfold imx678_set_fmt
    simp only [find_nearest_single, hm, htry, if_false]
    split_ifs <;> exact hc
  · intro env2
    unfold imx678_set_fmt
    simp only [find_nearest_single, hm, htry, if_false, __v4l2_ctrl_modify_range]
    by_cases hclk : s.cur_vclk_freq = m.vclk_freq <;>
      by_cases hmipi : s.cur_mipi_freq_idx = m.mipi_freq_idx <;>
      by_cases hret : Int.lor env.clk_set_rate_ret env.clk_prepare_enable_ret < 0 <;>
      simp [hclk, hmipi, hret] <;>
      (intro h; omega)
  · unfold imx678_set_fmt
    simp only [find_nearest_single, hm, htry, if_false, __v4l2_ctrl_modify_range]
    by_cases hclk : s.cur_vclk_freq = m.vclk_freq <;>
      by_cases hmipi : s.cur_mipi_freq_idx = m.mipi_freq_idx <;>
      by_cases hret : Int.lor env.clk_set_rate_ret env.clk_prepare_enable_ret < 0 <;>
      simp [hclk, hmipi, hret]
  · intro hclk
    unfold imx678_set_fmt
    simp only [find_nearest_single, hm, htry, if_false, __v4l2_ctrl_modify_range]
    simp [hclk]

/-- Instance of C14: a 640x480 request on the device as attached, negotiated twice. -/
theorem set_fmt_single_mode_witness :
    ({ which := V4L2_SUBDEV_FORMAT_ACTIVE, width := 640, height := 480, code := 0,
       field := 0 } : v4l2_subdev_format).which = V4L2_SUBDEV_FORMAT_ACTIVE
    ∧ (imx678_set_fmt Env.all_ok World.init (imx678_probe_state NO_SYNC_MODE)
          { which := V4L2_SUBDEV_FORMAT_ACTIVE, width := 640, height := 480, code := 0,
            field := 0 }).2.2.1.width = 3840
    ∧ imx678_set_fmt Env.all_ok
          (imx678_set_fmt Env.all_ok World.init (imx678_probe_state NO_SYNC_MODE)
            { which := V4L2_SUBDEV_FORMAT_ACTIVE, width := 640, height := 480, code := 0,
              field := 0 }).1
          (imx678_set_fmt Env.all_ok World.init (imx678_probe_state NO_SYNC_MODE)
            { which := V4L2_SUBDEV_FORMAT_ACTIVE, width := 640, height := 480, code := 0,
              field := 0 }).2.1
          { which := V4L2_SUBDEV_FORMAT_ACTIVE, width := 640, height := 480, code := 0,
            field := 0 }
        = imx678_set_fmt Env.all_ok World.init (imx678_probe_state NO_SYNC_MODE)
            { which := V4L2_SUBDEV_FORMAT_ACTIVE, width := 640, height := 480, code := 0,
              field := 0 } :=
  ⟨rfl,
   (set_fmt_single_mode Env.all_ok World.init (imx678_probe_state NO_SYNC_MODE)
      { which := V4L2_SUBDEV_FORMAT_ACTIVE, width := 640, height := 480, code := 0,
        field := 0 } rfl).2.1,
   (set_fmt_single_mode Env.all_ok World.init (imx678_probe_state NO_SYNC_MODE)
      { which := V4L2_SUBDEV_FORMAT_ACTIVE, width := 640, height := 480, code := 0,
        field := 0 } rfl).2.2.2.2.1 Env.all_ok
      ((set_fmt_single_mode Env.all_ok World.init (imx678_probe_state NO_SYNC_MODE)
        { which := V4L2_SUBDEV_FORMAT_ACTIVE, width := 640, height := 480, code := 0,
          field := 0 } rfl).2.2.2.2.2.2 rfl)⟩

/-! ## C20 and C11 -/

/-- The two ways `imx678_write_array` can end.  Either every write of the table succeeds,
the whole table is performed in table order and the result is 0; or the table splits as
`pre ++ r :: post` where the writes of `pre` succeed and the write of row `r` fails, the
operations performed are those of `pre` followed by the failed write, and the result is
`-EIO`. -/
theorem write_array_cases (env : Env) (regs : List regval) :
    ∀ w : World,
      ((imx678_write_array env w regs).2 = 0
        ∧ (imx678_write_array env w regs).1
            = { log := w.log ++ program_events regs,
                n_send := w.n_send + program_sends regs, pm_usage := w.pm_usage }
        ∧ ∀ k, k < program_sends regs → env.i2c_send_ok (w.n_send + k) = true)
      ∨ (∃ pre r post, regs = pre ++ r :: post
          ∧ (∀ x ∈ pre, x.addr ≠ IMX678_REG_NULL)
          ∧ r.addr ≠ IMX678_REG_NULL ∧ r.addr ≠ IMX678_REG_DELAY
          ∧ (∀ k, k < program_sends pre → env.i2c_send_ok (w.n_send + k) = true)
          ∧ env.i2c_send_ok (w.n_send + program_sends pre) = false
          ∧ program_sends pre < program_sends regs
          ∧ (imx678_write_array env w regs).2 = -EIO_ERRNO
          ∧ (imx678_write_array env w regs).1
              = { log := w.log ++ program_events (pre ++ [r]),
                  n_send := w.n_send + program_sends pre + 1, pm_usage := w.pm_usage }) := by
  induction regs with
  | nil =>
    intro w
    left
    exact ⟨rfl, by simp [imx678_write_array, program_events, program_sends],
      by intro k hk; simp [program_sends] at hk⟩
  | cons r rs ih =>
    intro w
    by_cases h1 : r.addr = IMX678_REG_NULL
    · left
      refine ⟨?_, ?_, ?_⟩
      · simp only [imx678_write_array, if_pos h1]
      · simp only [imx678_write_array, program_events, program_sends, if_pos h1,
          List.append_nil, Nat.add_zero]
      · intro k hk
        simp only [program_sends, if_pos h1] at hk
        omega
    · by_cases h2 : r.addr = IMX678_REG_DELAY
      · have hwa : imx678_write_array env w (r :: rs)
            = imx678_write_array env (usleep_range w r.val (r.val * 2)) rs := by
          simp only [imx678_write_array, if_neg h1, if_pos h2]
        have hpe : program_events (r :: rs)
            = Event.usleep_range r.val (r.val * 2) :: program_events rs := by
          simp only [program_events, if_neg h1, if_pos h2]
        have hps : program_sends (r :: rs) = program_sends rs := by
          simp only [program_sends, if_neg h1, if_pos h2]
        rcases ih (usleep_range w r.val (r.val * 2)) with
          ⟨e1, e2, e3⟩ | ⟨pre, r', post, e0, e1, e2, e3, e4, e5, e6, e7, e8⟩
        · left
          refine ⟨by rw [hwa, e1], ?_, ?_⟩
          · rw [hwa, e2, hpe, hps]
            simp [usleep_range, World.emit]
          · intro k hk
            rw [hps] at hk
            exact e3 k hk
        · right
          have hps' : program_sends (r :: pre) = program_sends pre := by
            simp only [program_sends, if_neg h1, if_pos h2]
          have hpe' : program_events (r :: pre ++ [r'])
              = Event.usleep_range r.val (r.val * 2) :: program_events (pre ++ [r']) := by
            simp only [List.cons_append, program_events, if_neg h1, if_pos h2]
            rfl
          refine ⟨r :: pre, r', post, by rw [e0]; rfl, ?_, e2, e3, ?_, ?_, ?_, ?_, ?_⟩
          · intro x hx
            rcases List.mem_cons.mp hx with hx | hx
            · rw [hx]; exact h1
            · exact e1 x hx
          · intro k hk
            rw [hps'] at hk
            exact e4 k hk
          · rw [hps']; exact e5
          · rw [hps', hps]; exact e6
          · rw [hwa, e7]
          · rw [hwa, e8, hpe', hps']
            simp [usleep_range, World.emit]
      · have hpe : program_events (r :: rs)
            = Event.i2c_master_send
                [(r.addr >>> 8) &&& 0xff, r.addr &&& 0xff, (r.val % 4294967296) &&& 0xff]
              :: program_events rs := by
          simp only [program_events, if_neg h1, if_neg h2]
        have hps : program_sends (r :: rs) = program_sends rs + 1 := by
          simp only [program_sends, if_neg h1, if_neg h2]
        cases hok : env.i2c_send_ok w.n_send with
        | false =>
          right
          refine ⟨[], r, rs, rfl, ?_, h1, h2, ?_, ?_, ?_, ?_, ?_⟩
          · intro x hx; simp at hx
          · intro k hk; simp [program_sends] at hk
          · simpa [program_sends] using hok
          · rw [hps]; simp [program_sends]
          · simp [imx678_write_array, h1, h2, write_reg_08_eq, hok, EIO_ERRNO]
          · simp [imx678_write_array, h1, h2, write_reg_08_eq, hok, EIO_ERRNO,
              program_events, program_sends]
        | true =>
          have hwa : imx678_write_array env w (r :: rs)
              = imx678_write_array env
                  { log := w.log ++ [Event.i2c_master_send
                      [(r.addr >>> 8) &&& 0xff, r.addr &&& 0xff,
                       (r.val % 4294967296) &&& 0xff]],
                    n_send := w.n_send + 1, pm_usage := w.pm_usage } rs := by
            simp [imx678_write_array, h1, h2, write_reg_08_eq, hok]
          have hcase := ih
            ({ log := w.log ++ [Event.i2c_master_send
                  [(r.addr >>> 8) &&& 0xff, r.addr &&& 0xff, (r.val % 4294967296) &&& 0xff]],
               n_send := w.n_send + 1, pm_usage := w.pm_usage } : World)
          rcases hcase with
            ⟨e1, e2, e3⟩ | ⟨pre, r', post, e0, e1, e2, e3, e4, e5, e6, e7, e8⟩
          · left
            refine ⟨by rw [hwa, e1], ?_, ?_⟩
            · rw [hwa, e2, hpe, hps]
              simp [Nat.add_assoc, Nat.add_comm 1]
            · intro k hk
              rw [hps] at hk
              cases k with
              | zero => simpa using hok
              | succ k =>
                have := e3 k (by omega)
                simp only at this
                rw [show w.n_send + (k + 1) = w.n_send + 1 + k by omega]
                exact this
          · right
            have hps' : program_sends (r :: pre) = program_sends pre + 1 := by
              simp only [program_sends, if_neg h1, if_neg h2]
            have hpe' : program_events (r :: pre ++ [r'])
                = Event.i2c_master_send
                    [(r.addr >>> 8) &&& 0xff, r.addr &&& 0xff, (r.val % 4294967296) &&& 0xff]
                  :: program_events (pre ++ [r']) := by
              simp only [List.cons_append, program_events, if_neg h1, if_neg h2]
              rfl
            refine ⟨r :: pre, r', post, by rw [e0]; rfl, ?_, e2, e3, ?_, ?_, ?_, ?_, ?_⟩
            · intro x hx
              rcases List.mem_cons.mp hx with hx | hx
              · rw [hx]; exact h1
              · exact e1 x hx
            · intro k hk
              rw [hps'] at hk
              cases k with
              | zero => simpa using hok
              | succ k =>
                have := e4 k (by omega)
                simp only at this
                rw [show w.n_send + (k + 1) = w.n_send + 1 + k by omega]
                exact this
            · rw [hps']
              simp only at e5
              rw [show w.n_send + (program_sends pre + 1) = w.n_send + 1 + program_sends pre
                by omega]
              exact e5
            · rw [hps', hps]; omega
            · rw [hwa, e7]
            · rw [hwa, e8, hpe', hps']
              simp [Nat.add_assoc, Nat.add_comm 1]

/-- C20. For every register table (read up to its `0xFFFF` end row), `imx678_write_array`
issues one 8-bit write per row that is not a delay row, strictly in table order.  It
returns 0 exactly when every write of the table succeeds, and has then performed the whole
table.  Otherwise the table splits as `pre ++ r :: post` where the writes of `pre`
succeeded and the write of row `r` failed: the operations performed are those of `pre`
followed by that failed write, no row of `post` is performed, and the result is the
error `-EIO` of that write. -/
theorem write_array_in_order (env : Env) (w : World) (regs : List regval) :
    ((imx678_write_array env w regs).2 = 0 ↔
        ∀ k, k < program_sends regs → env.i2c_send_ok (w.n_send + k) = true)
      ∧ ((imx678_write_array env w regs).2 = 0 →
          (imx678_write_array env w regs).1.log = w.log ++ program_events regs)
      ∧ ((imx678_write_array env w regs).2 ≠ 0 →
          ∃ pre r post, regs = pre ++ r :: post
            ∧ (∀ x ∈ pre, x.addr ≠ IMX678_REG_NULL)
            ∧ r.addr ≠ IMX678_REG_NULL ∧ r.addr ≠ IMX678_REG_DELAY
            ∧ (∀ k, k < program_sends pre → env.i2c_send_ok (w.n_send + k) = true)
            ∧ env.i2c_send_ok (w.n_send + program_sends pre) = false
            ∧ (imx678_write_array env w regs).2 = -EIO_ERRNO
            ∧ (imx678_write_array env w regs).1.log
                = w.log ++ program_events (pre ++ [r])) := by
  have hne : (-EIO_ERRNO : Int) ≠ 0 := by decide
  rcases write_array_cases env regs w with
    ⟨e1, e2, e3⟩ | ⟨pre, r, post, e0, e1, e2, e3, e4, e5, e6, e7, e8⟩
  · refine ⟨⟨fun _ => e3, fun _ => e1⟩, fun _ => by rw [e2], fun h => absurd e1 h⟩
  · refine ⟨⟨?_, ?_⟩, ?_, ?_⟩
    · intro h
      rw [e7] at h
      exact absurd h hne
    · intro h
      have := h (program_sends pre) e6
      rw [e5] at this
      exact absurd this (by decide)
    · intro h
      rw [e7] at h
      exact absurd h hne
    · intro _
      exact ⟨pre, r, post, e0, e1, e2, e3, e4, e5, e7, by rw [e8]⟩

/-- Instance of C20: the external-master start table when the second write fails; the third
row is not written. -/
theorem write_array_in_order_witness :
    (imx678_write_array (Env.fail_from 1) World.init
        imx678_external_sync_master_start_regs).2 ≠ 0
    ∧ ∃ pre r post, imx678_external_sync_master_start_regs = pre ++ r :: post
        ∧ (∀ x ∈ pre, x.addr ≠ IMX678_REG_NULL)
        ∧ r.addr ≠ IMX678_REG_NULL ∧ r.addr ≠ IMX678_REG_DELAY
        ∧ (∀ k, k < program_sends pre →
            (Env.fail_from 1).i2c_send_ok (World.init.n_send + k) = true)
        ∧ (Env.fail_from 1).i2c_send_ok (World.init.n_send + program_sends pre) = false
        ∧ (imx678_write_array (Env.fail_from 1) World.init
            imx678_external_sync_master_start_regs).2 = -EIO_ERRNO
        ∧ (imx678_write_array (Env.fail_from 1) World.init
            imx678_external_sync_master_start_regs).1.log
            = World.init.log ++ program_events (pre ++ [r]) :=
  ⟨by decide,
   (write_array_in_order (Env.fail_from 1) World.init
      imx678_external_sync_master_start_regs).2.2 (by decide)⟩

/-- C11. If, during a start from Stopped with power acquisition succeeding, a write of the
base register program of the mode fails, then `imx678_s_stream` returns the error `-EIO`
of that write, leaves the device state as it was (so `streaming = false`), and has issued,
after taking the power reference, the rows of the base program up to and including the
failed write and then only the release of the power reference: no later row, no control
commit, no sync-role or streaming-enable write. -/
theorem s_stream_start_base_failure (env : Env) (w : World) (s : imx678) (on_arg : Int)
    (hon : on_arg ≠ 0) (hs : s.streaming = false) (hpm : 0 ≤ env.pm_get_sync_ret)
    (hfail : ∃ k, k < program_sends s.cur_mode.global_reg_list
      ∧ env.i2c_send_ok (w.n_send + k) = false) :
    (imx678_s_stream env w s on_arg).2.2 = -EIO_ERRNO
      ∧ (imx678_s_stream env w s on_arg).2.1 = s
      ∧ (imx678_s_stream env w s on_arg).2.1.streaming = false
      ∧ (imx678_s_stream env w s on_arg).1.pm_usage = w.pm_usage
      ∧ ∃ pre r post, s.cur_mode.global_reg_list = pre ++ r :: post
          ∧ (∀ x ∈ pre, x.addr ≠ IMX678_REG_NULL)
          ∧ r.addr ≠ IMX678_REG_NULL ∧ r.addr ≠ IMX678_REG_DELAY
          ∧ (∀ k, k < program_sends pre → env.i2c_send_ok (w.n_send + k) = true)
          ∧ env.i2c_send_ok (w.n_send + program_sends pre) = false
          ∧ (imx678_s_stream env w s on_arg).1.log
              = w.log ++ [Event.pm_runtime_get_sync] ++ program_events (pre ++ [r])
                  ++ [Event.pm_runtime_put] := by
  have hg : ¬ (pm_runtime_get_sync env w).2 < 0 := not_lt.mpr hpm
  have hne : (-EIO_ERRNO : Int) ≠ 0 := by decide
  obtain ⟨k0, hk0, hbad⟩ := hfail
  rcases write_array_cases env s.cur_mode.global_reg_list (pm_runtime_get_sync env w).1 with
    ⟨_, _, e3⟩ | ⟨pre, r, post, e0, e1, e2, e3, e4, e5, _, e7, e8⟩
  · have := e3 k0 hk0
    have hn : (pm_runtime_get_sync env w).1.n_send = w.n_send := rfl
    rw [hn, hbad] at this
    exact absurd this (by decide)
  · have hb : (imx678_write_array env (pm_runtime_get_sync env w).1
        s.cur_mode.global_reg_list).2 ≠ 0 := by rw [e7]; exact hne
    have hstart : __imx678_start_stream env (pm_runtime_get_sync env w).1 s
        = ((imx678_write_array env (pm_runtime_get_sync env w).1
            s.cur_mode.global_reg_list).1, s, -EIO_ERRNO) := by
      unfold __imx678_start_stream
      simp only [e7, if_pos hne]
    have hstream : imx678_s_stream env w s on_arg
        = (pm_runtime_put (imx678_write_array env (pm_runtime_get_sync env w).1
            s.cur_mode.global_reg_list).1, s, -EIO_ERRNO) := by
      unfold imx678_s_stream
      simp only [hon, hs, ne_eq, not_false_eq_true, decide_True, Bool.true_eq_false, if_false,
        if_true, if_neg hg, hstart, if_pos hne]
    rw [hstream, e8]
    refine ⟨rfl, rfl, hs, ?_, pre, r, post, e0, e1, e2, e3, e4, e5, ?_⟩
    · show w.pm_usage + 1 - 1 = w.pm_usage
      omega
    · simp [pm_runtime_put, pm_runtime_get_sync, World.emit]

/-- Instance of C11: catalog mode, the 101st write of the base program and all later ones
fail. -/
theorem s_stream_start_base_failure_witness :
    ((1 : Int) ≠ 0 ∧ (imx678_probe_state NO_SYNC_MODE).streaming = false
      ∧ 0 ≤ (Env.fail_from 100).pm_get_sync_ret
      ∧ ∃ k, k < program_sends (imx678_probe_state NO_SYNC_MODE).cur_mode.global_reg_list
          ∧ (Env.fail_from 100).i2c_send_ok (World.init.n_send + k) = false)
    ∧ (imx678_s_stream (Env.fail_from 100) World.init
        (imx678_probe_state NO_SYNC_MODE) 1).2.2 = -EIO_ERRNO
    ∧ (imx678_s_stream (Env.fail_from 100) World.init
        (imx678_probe_state NO_SYNC_MODE) 1).2.1.streaming = false
    ∧ (imx678_s_stream (Env.fail_from 100) World.init
        (imx678_probe_state NO_SYNC_MODE) 1).1.pm_usage = World.init.pm_usage :=
  ⟨⟨by decide, by decide, by decide, ⟨100, by decide, by decide⟩⟩,
   (s_stream_start_base_failure (Env.fail_from 100) World.init
      (imx678_probe_state NO_SYNC_MODE) 1 (by decide) (by decide) (by decide)
      ⟨100, by decide, by decide⟩).1,
   (s_stream_start_base_failure (Env.fail_from 100) World.init
      (imx678_probe_state NO_SYNC_MODE) 1 (by decide) (by decide) (by decide)
      ⟨100, by decide, by decide⟩).2.2.1,
   (s_stream_start_base_failure (Env.fail_from 100) World.init
      (imx678_probe_state NO_SYNC_MODE) 1 (by decide) (by decide) (by decide)
      ⟨100, by decide, by decide⟩).2.2.2.1⟩

/-! ## C21 -/

/-- Three bytes `h < 16`, `m < 256`, `l < 256` reassemble to `h * 65536 + m * 256 + l`. -/
theorem reassemble_eq_add (h m l : Nat) (hm : m < 256) (hl : l < 256) :
    reassemble h m l = h * 65536 + m * 256 + l := by
  unfold reassemble
  rw [Nat.shiftLeft_eq, Nat.shiftLeft_eq]
  have h1 : 2 ^ 16 * h + m * 2 ^ 8 = 2 ^ 16 * h ||| m * 2 ^ 8 :=
    Nat.mul_add_lt_is_or (i := 16) (by omega) h
  have h2 : 2 ^ 8 * (h * 256 + m) + l = 2 ^ 8 * (h * 256 + m) ||| l :=
    Nat.mul_add_lt_is_or (i := 8) (by omega) (h * 256 + m)
  have e1 : h * 2 ^ 16 ||| m * 2 ^ 8 = 2 ^ 8 * (h * 256 + m) := by
    rw [Nat.mul_comm h (2 ^ 16), ← h1]
    omega
  rw [e1, ← h2]
  omega

/-- The byte split of the driver loses nothing below `2 ^ 20`. -/
theorem split_reassemble (x : Nat) (hx : x < 1048576) :
    reassemble ((x >>> 16) &&& 0x0F) ((x >>> 8) &&& 0xFF) (x &&& 0xFF) = x := by
  rw [reassemble_eq_add _ _ _ (by rw [and_ff]; omega) (by rw [and_ff]; omega)]
  rw [and_ff, and_ff, and_0f]
  simp only [Nat.shiftRight_eq_div_pow]
  omega

/-- Log of the exposure control applied on a powered device. -/
theorem set_ctrl_exposure_log (env : Env) (w : World) (s : imx678) (e : Int)
    (hp : 0 < w.pm_usage) :
    (imx678_set_ctrl env w s V4L2_CID_EXPOSURE e).1.log =
      w.log ++ [Event.pm_runtime_get_if_in_use,
        Event.i2c_master_send [0x30, 0x52, (u32_of ((s.cur_vts : Int) - e) >>> 16) &&& 0x0F],
        Event.i2c_master_send [0x30, 0x51, (u32_of ((s.cur_vts : Int) - e) >>> 8) &&& 0xFF],
        Event.i2c_master_send [0x30, 0x50, u32_of ((s.cur_vts : Int) - e) &&& 0xFF],
        Event.pm_runtime_put] := by
  unfold imx678_set_ctrl
  simp only [pm_runtime_get_if_in_use, hp, if_true, pm_runtime_put, World.emit,
    write_reg_08_fst, IMX678_SHR_EXPO_REG_H, IMX678_SHR_EXPO_REG_M, IMX678_SHR_EXPO_REG_L,
    IMX678_FETCH_EXP_H, IMX678_FETCH_EXP_M, IMX678_FETCH_EXP_L]
  simp [and_ff, and_0f, Nat.shiftRight_eq_div_pow]
  omega

/-- Log of the vblank control applied on a powered device in a mode that is not HDR-x2. -/
theorem set_ctrl_vblank_log (env : Env) (w : World) (s : imx678) (v : Int)
    (hp : 0 < w.pm_usage) (hhdr : s.cur_mode.hdr_mode ≠ HDR_X2) :
    (imx678_set_ctrl env w s V4L2_CID_VBLANK v).1.log =
      w.log ++ [Event.pm_runtime_get_if_in_use,
        Event.i2c_master_send
          [0x30, 0x2a, (u32_of (v + (s.cur_mode.height : Int)) >>> 16) &&& 0x0F],
        Event.i2c_master_send
          [0x30, 0x29, (u32_of (v + (s.cur_mode.height : Int)) >>> 8) &&& 0xFF],
        Event.i2c_master_send [0x30, 0x28, u32_of (v + (s.cur_mode.height : Int)) &&& 0xFF],
        Event.pm_runtime_put] := by
  unfold imx678_set_ctrl
  simp only [pm_runtime_get_if_in_use, hp, if_true, pm_runtime_put, World.emit,
    write_reg_08_fst, IMX678_REG_VTS_H, IMX678_REG_VTS_M, IMX678_REG_VTS_L,
    IMX678_FETCH_VTS_H, IMX678_FETCH_VTS_M, IMX678_FETCH_VTS_L, __v4l2_ctrl_modify_range,
    if_neg hhdr]
  simp [and_ff, and_0f, Nat.shiftRight_eq_div_pow]
  omega

/-- C21. The three-byte split of the vertical-total and shutter registers is lossless on
20-bit values: for every `x < 2 ^ 20`, `(FETCH_H(x) << 16) | (FETCH_M(x) << 8) | FETCH_L(x)`
is `x`, for the `VTS` and for the `EXP` macros.  Consequently, on a powered device: in a
mode that is not HDR-x2, for every vblank `v` of the published range
`[vts_def - height, 0xfffff - height]`, the three bytes written to `0x302a`, `0x3029`,
`0x3028` reassemble to `v + height`; and when `cur_vts ≤ 0xfffff`, for every exposure `e`
in `[5, cur_vts - 4]`, the three bytes written to `0x3052`, `0x3051`, `0x3050` reassemble
to `cur_vts - e`. -/
theorem split_lossless :
    (∀ x : Nat, x < 2 ^ 20 →
        reassemble (IMX678_FETCH_VTS_H x) (IMX678_FETCH_VTS_M x) (IMX678_FETCH_VTS_L x) = x
          ∧ reassemble (IMX678_FETCH_EXP_H x) (IMX678_FETCH_EXP_M x) (IMX678_FETCH_EXP_L x)
              = x)
      ∧ (∀ (env : Env) (w : World) (s : imx678) (v : Int),
          0 < w.pm_usage → s.cur_mode.hdr_mode ≠ HDR_X2 →
          (s.cur_mode.vts_def : Int) - s.cur_mode.height ≤ v →
          v ≤ (IMX678_VTS_MAX : Int) - s.cur_mode.height →
          ∃ bh bm bl : Nat,
            (imx678_set_ctrl env w s V4L2_CID_VBLANK v).1.log =
                w.log ++ [Event.pm_runtime_get_if_in_use,
                  Event.i2c_master_send [0x30, 0x2a, bh],
                  Event.i2c_master_send [0x30, 0x29, bm],
                  Event.i2c_master_send [0x30, 0x28, bl],
                  Event.pm_runtime_put]
              ∧ ((reassemble bh bm bl : Nat) : Int) = v + s.cur_mode.height)
      ∧ (∀ (env : Env) (w : World) (s : imx678) (e : Int),
          0 < w.pm_usage → s.cur_vts ≤ IMX678_VTS_MAX →
          5 ≤ e → e ≤ (s.cur_vts : Int) - 4 →
          ∃ bh bm bl : Nat,
            (imx678_set_ctrl env w s V4L2_CID_EXPOSURE e).1.log =
                w.log ++ [Event.pm_runtime_get_if_in_use,
                  Event.i2c_master_send [0x30, 0x52, bh],
                  Event.i2c_master_send [0x30, 0x51, bm],
                  Event.i2c_master_send [0x30, 0x50, bl],
                  Event.pm_runtime_put]
              ∧ ((reassemble bh bm bl : Nat) : Int) = (s.cur_vts : Int) - e) := by
  refine ⟨?_, ?_, ?_⟩
  · intro x hx
    have hx' : x < 1048576 := by omega
    exact ⟨split_reassemble x hx', split_reassemble x hx'⟩
  · intro env w s v hp hhdr hlo hhi
    simp only [IMX678_VTS_MAX] at hhi
    have hc := u32_of_cast (v + (s.cur_mode.height : Int)) (by omega) (by omega)
    refine ⟨_, _, _, set_ctrl_vblank_log env w s v hp hhdr, ?_⟩
    rw [split_reassemble _ (by omega)]
    exact hc
  · intro env w s e hp hvts hlo hhi
    have hvts' : s.cur_vts ≤ 1048575 := hvts
    have hc := u32_of_cast ((s.cur_vts : Int) - e) (by omega) (by omega)
    refine ⟨_, _, _, set_ctrl_exposure_log env w s e hp, ?_⟩
    rw [split_reassemble _ (by omega)]
    exact hc

/-- Instance of C21: the value `0xABCDE` survives the split, and on the powered device as
attached the vblank 100 is written as the bytes of `2260 = 0x08D4`. -/
theorem split_lossless_witness :
    ((0xABCDE : Nat) < 2 ^ 20
      ∧ (0 : Int) < ({ World.init with pm_usage := 1 } : World).pm_usage
      ∧ (imx678_probe_state NO_SYNC_MODE).cur_mode.hdr_mode ≠ HDR_X2)
    ∧ reassemble (IMX678_FETCH_VTS_H 0xABCDE) (IMX678_FETCH_VTS_M 0xABCDE)
        (IMX678_FETCH_VTS_L 0xABCDE) = 0xABCDE
    ∧ ∃ bh bm bl : Nat,
        (imx678_set_ctrl Env.all_ok { World.init with pm_usage := 1 }
            (imx678_probe_state NO_SYNC_MODE) V4L2_CID_VBLANK 100).1.log =
            ({ World.init with pm_usage := 1 } : World).log
              ++ [Event.pm_runtime_get_if_in_use,
              Event.i2c_master_send [0x30, 0x2a, bh],
              Event.i2c_master_send [0x30, 0x29, bm],
              Event.i2c_master_send [0x30, 0x28, bl],
              Event.pm_runtime_put]
          ∧ ((reassemble bh bm bl : Nat) : Int)
              = 100 + (imx678_probe_state NO_SYNC_MODE).cur_mode.height :=
  ⟨⟨by decide, by decide, by decide⟩,
   (split_lossless.1 0xABCDE (by decide)).1,
   split_lossless.2.1 Env.all_ok { World.init with pm_usage := 1 }
     (imx678_probe_state NO_SYNC_MODE) 100 (by decide) (by decide) (by decide) (by decide)⟩

/-! ## C22 -/

/-- The operations of a table up to and including a row are the first operations of the
table. -/
theorem program_events_split (pre : List regval) (r : regval) (post : List regval)
    (hpre : ∀ x ∈ pre, x.addr ≠ IMX678_REG_NULL) (hr : r.addr ≠ IMX678_REG_NULL) :
    program_events (pre ++ r :: post)
      = program_events (pre ++ [r]) ++ program_events post := by
  induction pre with
  | nil =>
    simp only [List.nil_append, program_events, if_neg hr]
    split_ifs <;> simp
  | cons x xs ih =>
    have hx : x.addr ≠ IMX678_REG_NULL := hpre x (List.mem_cons_self x xs)
    have ih' := ih (fun y hy => hpre y (List.mem_cons_of_mem x hy))
    simp only [List.cons_append, program_events, if_neg hx]
    split_ifs <;> simp [ih']

/-- `imx678_set_ctrl` only appends to the log, and never a write of 0 to `0x3000`. -/
theorem set_ctrl_log_no_enable (env : Env) (w : World) (s : imx678) (id : ctrl_id)
    (v : Int) :
    ∃ evs, (imx678_set_ctrl env w s id v).1.log = w.log ++ evs
      ∧ Event.i2c_master_send [0x30, 0x00, 0x00] ∉ evs := by
  unfold imx678_set_ctrl
  by_cases hp : 0 < w.pm_usage <;> cases id <;>
    (try simp [pm_runtime_get_if_in_use, hp, pm_runtime_put, World.emit, write_reg_08_eq,
      imx678_enable_test_pattern, IMX678_SHR_EXPO_REG_H, IMX678_SHR_EXPO_REG_M,
      IMX678_SHR_EXPO_REG_L, IMX678_REG_GAIN, IMX678_REG_VTS_H, IMX678_REG_VTS_M,
      IMX678_REG_VTS_L, IMX678_REG_TEST_PATTERN]
     try (intro h; exact absurd h (by decide)))

theorem ctrl_replay_log_no_enable (env : Env) (ids : List ctrl_id) :
    ∀ (w : World) (s : imx678),
      ∃ evs, (ctrl_replay env w s ids).1.log = w.log ++ evs
        ∧ Event.i2c_master_send [0x30, 0x00, 0x00] ∉ evs := by
  induction ids with
  | nil => intro w s; exact ⟨[], by simp [ctrl_replay], by simp⟩
  | cons id ids ih =>
    intro w s
    unfold ctrl_replay
    obtain ⟨e1, h1, n1⟩ := set_ctrl_log_no_enable env w s id (ctrl_val s id)
    by_cases h : (imx678_set_ctrl env w s id (ctrl_val s id)).2.2 ≠ 0
    · rw [if_pos h]
      exact ⟨e1, h1, n1⟩
    · rw [if_neg h]
      obtain ⟨e2, h2, n2⟩ := ih (imx678_set_ctrl env w s id (ctrl_val s id)).1
        (imx678_set_ctrl env w s id (ctrl_val s id)).2.1
      refine ⟨e1 ++ e2, by rw [h2, h1, List.append_assoc], ?_⟩
      simp only [List.mem_append, not_or]
      exact ⟨n1, n2⟩

/-- A table without delay rows stands for as many operations as register writes. -/
theorem program_events_length (regs : List regval)
    (h : ∀ x ∈ regs, x.addr ≠ IMX678_REG_DELAY) :
    (program_events regs).length = program_sends regs := by
  induction regs with
  | nil => rfl
  | cons r rs ih =>
    have hr : r.addr ≠ IMX678_REG_DELAY := h r (List.mem_cons_self r rs)
    have ih' := ih (fun y hy => h y (List.mem_cons_of_mem r hy))
    simp only [program_events, program_sends, if_neg hr]
    split_ifs
    · rfl
    · simp [ih']

theorem nat_ldiff_four_zero : Nat.ldiff 4 0 = 4 := by
  unfold Nat.ldiff
  rw [Nat.bitwise_zero_right]
  rfl

theorem int_lor_zero_eio : Int.lor 0 (-EIO_ERRNO) = -EIO_ERRNO := by
  show Int.negSucc (Nat.ldiff 4 0) = -EIO_ERRNO
  rw [nat_ldiff_four_zero]
  rfl

theorem int_lor_eio_zero : Int.lor (-EIO_ERRNO) 0 = -EIO_ERRNO := by
  show Int.negSucc (Nat.ldiff 4 0) = -EIO_ERRNO
  rw [nat_ldiff_four_zero]
  rfl

theorem int_lor_eio_eio : Int.lor (-EIO_ERRNO) (-EIO_ERRNO) = -EIO_ERRNO := by
  decide

/-- Accumulating results that are each 0 or `-EIO` with `|=` gives 0 when all are 0 and
`-EIO` otherwise. -/
theorem lor_fold (l : List Int) :
    ∀ acc : Int, (acc = 0 ∨ acc = -EIO_ERRNO) → (∀ x ∈ l, x = 0 ∨ x = -EIO_ERRNO) →
      l.foldl Int.lor acc = if acc = 0 ∧ ∀ x ∈ l, x = 0 then 0 else -EIO_ERRNO := by
  induction l with
  | nil =>
    intro acc hacc _
    have hne : (-EIO_ERRNO : Int) ≠ 0 := by decide
    rcases hacc with h | h <;> subst h <;> simp [hne]
  | cons x xs ih =>
    intro acc hacc hl
    have hx := hl x (List.mem_cons_self x xs)
    have hxs : ∀ y ∈ xs, y = 0 ∨ y = -EIO_ERRNO :=
      fun y hy => hl y (List.mem_cons_of_mem x hy)
    have hne : (-EIO_ERRNO : Int) ≠ 0 := by decide
    rw [List.foldl_cons]
    rcases hacc with ha | ha <;> rcases hx with hx | hx <;> subst ha <;> subst hx
    · rw [show Int.lor 0 0 = 0 from by decide, ih 0 (Or.inl rfl) hxs]
      simp
    · rw [int_lor_zero_eio,
        ih (-EIO_ERRNO) (Or.inr rfl) hxs]
      simp [hne]
    · rw [int_lor_eio_zero,
        ih (-EIO_ERRNO) (Or.inr rfl) hxs]
      simp [hne]
    · rw [int_lor_eio_eio,
        ih (-EIO_ERRNO) (Or.inr rfl) hxs]
      simp [hne]

/-- The `|=` accumulation of the results of the transfers `n .. n + j` is 0 when all of
them succeed. -/
theorem lor_results_ok (env : Env) (n j : Nat)
    (h : ∀ k, k ≤ j → env.i2c_send_ok (n + k) = true) :
    ((List.range (j + 1)).map (fun k => write_result env (n + k))).foldl Int.lor 0 = 0 := by
  rw [lor_fold _ 0 (Or.inl rfl)]
  · rw [if_pos]
    refine ⟨rfl, ?_⟩
    intro x hx
    obtain ⟨k, hk, rfl⟩ := List.mem_map.mp hx
    have hk' : k ≤ j := by have := List.mem_range.mp hk; omega
    simp [write_result, h k hk']
  · intro x hx
    obtain ⟨k, _, rfl⟩ := List.mem_map.mp hx
    unfold write_result
    split_ifs
    · exact Or.inl rfl
    · exact Or.inr rfl

/-- The `|=` accumulation of the results of the transfers `n .. n + j` is `-EIO` when one
of them fails. -/
theorem lor_results_fail (env : Env) (n j i : Nat) (hi : i ≤ j)
    (h : env.i2c_send_ok (n + i) = false) :
    ((List.range (j + 1)).map (fun k => write_result env (n + k))).foldl Int.lor 0
      = -EIO_ERRNO := by
  have hne : (-EIO_ERRNO : Int) ≠ 0 := by decide
  rw [lor_fold _ 0 (Or.inl rfl)]
  · rw [if_neg]
    rintro ⟨_, hall⟩
    have := hall (write_result env (n + i))
      (List.mem_map.mpr ⟨i, List.mem_range.mpr (by omega), rfl⟩)
    rw [write_result, h] at this
    exact hne this
  · intro x hx
    obtain ⟨k, _, rfl⟩ := List.mem_map.mp hx
    unfold write_result
    split_ifs
    · exact Or.inl rfl
    · exact Or.inr rfl

/-- For a sync role other than None, when the base program and the control commit
succeed, `__imx678_start_stream` is: the settle delay, `imx678_write_array` on the start
program of the role, one write of 0 to the master-mode register; the result accumulates
the results of the last two with `|=`. -/
theorem start_stream_sync_eq (env : Env) (w : World) (s : imx678)
    (hrole : s.sync_mode ≠ NO_SYNC_MODE)
    (hb : (imx678_write_array env w s.cur_mode.global_reg_list).2 = 0)
    (hc : (start_commit env w s).2.2 = 0) :
    __imx678_start_stream env w s =
      ((imx678_write_reg env
          (imx678_write_array env (usleep_range (start_commit env w s).1 24000 30000)
            (sync_start_regs s.sync_mode)).1
          imx678_REG_MARSTER_MODE IMX678_REG_VALUE_08BIT 0).1,
       (start_commit env w s).2.1,
       Int.lor
        (Int.lor 0 (imx678_write_array env
          (usleep_range (start_commit env w s).1 24000 30000)
          (sync_start_regs s.sync_mode)).2)
        (imx678_write_reg env
          (imx678_write_array env (usleep_range (start_commit env w s).1 24000 30000)
            (sync_start_regs s.sync_mode)).1
          imx678_REG_MARSTER_MODE IMX678_REG_VALUE_08BIT 0).2) := by
  have hf : (start_commit env w s).2.1.sync_mode = s.sync_mode :=
    (ctrl_replay_frame env replayed_ctrls
      (imx678_write_array env w s.cur_mode.global_reg_list).1 s).2.1
  unfold __imx678_start_stream
  simp only []
  rw [if_neg (not_not.mpr hb)]
  unfold start_commit at hc hf ⊢
  rw [if_neg (not_not.mpr hc), hf, hc]
  cases hs : s.sync_mode
  · exact absurd hs hrole
  · simp [sync_start_regs]
  · simp [sync_start_regs]
  · simp [sync_start_regs]

/-- A written row after rows that do not end the table counts for one more write. -/
theorem program_sends_append_single (pre : List regval) (r : regval)
    (hpre : ∀ x ∈ pre, x.addr ≠ IMX678_REG_NULL) (hr : r.addr ≠ IMX678_REG_NULL)
    (hd : r.addr ≠ IMX678_REG_DELAY) :
    program_sends (pre ++ [r]) = program_sends pre + 1 := by
  induction pre with
  | nil => simp [program_sends, hr, hd]
  | cons x xs ih =>
    have hx : x.addr ≠ IMX678_REG_NULL := hpre x (List.mem_cons_self x xs)
    have ih' : program_sends (xs.append [r]) = program_sends xs + 1 :=
      ih (fun y hy => hpre y (List.mem_cons_of_mem x hy))
    simp only [List.cons_append, program_sends, if_neg hx]
    split_ifs <;> omega

/-- The start programs of the sync roles hold no delay row. -/
theorem sync_start_regs_no_delay (m : rkmodule_sync_mode) :
    ∀ x ∈ sync_start_regs m, x.addr ≠ IMX678_REG_DELAY := by
  cases m <;> decide

/-- The start programs of the sync roles hold no write of 0 to `0x3000`. -/
theorem sync_start_regs_no_enable (m : rkmodule_sync_mode) :
    Event.i2c_master_send [0x30, 0x00, 0x00] ∉ program_events (sync_start_regs m) := by
  cases m <;> decide

/-- C22, as the driver has it. For a sync role other than None, when the base program and
the control commit succeed, `__imx678_start_stream` issues after the 24-30 ms settle delay
the writes of the role's start program up to and including the first one that fails
(`issued`; the whole program when none fails), then one write `0x3002 := 0`, whatever the
results; no write of 0 to `0x3000` is among them, nor among the operations of the control
commit; the result is the `|=` accumulation of the results of the writes issued after the
settle delay. -/
theorem start_stream_sync_role (env : Env) (w : World) (s : imx678)
    (hrole : s.sync_mode ≠ NO_SYNC_MODE)
    (hb : (imx678_write_array env w s.cur_mode.global_reg_list).2 = 0)
    (hc : (start_commit env w s).2.2 = 0) :
    ∃ issued rest : List Event,
      program_events (sync_start_regs s.sync_mode) = issued ++ rest
      ∧ issued ≠ []
      ∧ (∀ k, k + 1 < issued.length →
          env.i2c_send_ok ((start_commit env w s).1.n_send + k) = true)
      ∧ ((∀ k, k < issued.length →
            env.i2c_send_ok ((start_commit env w s).1.n_send + k) = true) → rest = [])
      ∧ (__imx678_start_stream env w s).1.log
          = (start_commit env w s).1.log ++ Event.usleep_range 24000 30000 :: issued
              ++ [Event.i2c_master_send [0x30, 0x02, 0x00]]
      ∧ Event.i2c_master_send [0x30, 0x00, 0x00]
          ∉ issued ++ [Event.i2c_master_send [0x30, 0x02, 0x00]]
      ∧ (__imx678_start_stream env w s).2.2
          = ((List.range (issued.length + 1)).map
              (fun k => write_result env ((start_commit env w s).1.n_send + k))).foldl
              Int.lor 0
      ∧ ∃ commit : List Event,
          (start_commit env w s).1.log
            = w.log ++ program_events s.cur_mode.global_reg_list ++ commit
          ∧ Event.i2c_master_send [0x30, 0x00, 0x00] ∉ commit := by
  have hcommit : ∃ commit : List Event,
      (start_commit env w s).1.log
        = w.log ++ program_events s.cur_mode.global_reg_list ++ commit
      ∧ Event.i2c_master_send [0x30, 0x00, 0x00] ∉ commit := by
    obtain ⟨commit, hcl, hcn⟩ := ctrl_replay_log_no_enable env replayed_ctrls
      (imx678_write_array env w s.cur_mode.global_reg_list).1 s
    refine ⟨commit, ?_, hcn⟩
    unfold start_commit v4l2_ctrl_handler_setup
    rw [hcl]
    rcases write_array_cases env s.cur_mode.global_reg_list w with
      ⟨_, hbw, _⟩ | ⟨_, _, _, _, _, _, _, _, _, _, hret, _⟩
    · rw [hbw]
    · rw [hret] at hb
      exact absurd hb (by decide)
  rw [start_stream_sync_eq env w s hrole hb hc]
  simp only [write_reg_08_fst, write_reg_08_snd]
  have hnd := sync_start_regs_no_delay s.sync_mode
  have hnoen := sync_start_regs_no_enable s.sync_mode
  have hw1n : (usleep_range (start_commit env w s).1 24000 30000).n_send
      = (start_commit env w s).1.n_send := rfl
  have hw1l : (usleep_range (start_commit env w s).1 24000 30000).log
      = (start_commit env w s).1.log ++ [Event.usleep_range 24000 30000] := rfl
  have hm : [(imx678_REG_MARSTER_MODE >>> 8) &&& 0xff, imx678_REG_MARSTER_MODE &&& 0xff,
      (0 % 4294967296) &&& 0xff] = [0x30, 0x02, 0x00] := by decide
  rw [hm]
  rcases write_array_cases env (sync_start_regs s.sync_mode)
      (usleep_range (start_commit env w s).1 24000 30000) with
    ⟨h0, hw, hall⟩ | ⟨pre, r, post, hregs, hpre, hr1, hr2, hprek, hfail, hlt, hret, hw⟩
  · have hlen := program_events_length (sync_start_regs s.sync_mode) hnd
    refine ⟨program_events (sync_start_regs s.sync_mode), [], by simp, ?_, ?_, ?_, ?_, ?_,
      ?_, hcommit⟩
    · cases hs : s.sync_mode
      · exact absurd hs hrole
      all_goals decide
    · intro k hk
      rw [hlen] at hk
      rw [← hw1n]
      exact hall k (by omega)
    · intro _; rfl
    · rw [hw]
      simp [hw1l]
    · simp only [List.mem_append, List.mem_singleton, not_or]
      exact ⟨hnoen, by decide⟩
    · rw [hw, h0, hlen, hw1n, int_lor_zero_zero]
      simp only []
      by_cases hk : env.i2c_send_ok
          ((start_commit env w s).1.n_send + program_sends (sync_start_regs s.sync_mode))
          = true
      · rw [if_pos hk, int_lor_zero_zero]
        symm
        apply lor_results_ok
        intro k hk'
        rcases Nat.lt_or_eq_of_le hk' with h | h
        · rw [← hw1n]; exact hall k h
        · rw [h]; exact hk
      · rw [if_neg hk, int_lor_zero_eio]
        symm
        exact lor_results_fail env _ _ _ (le_refl _) (by simpa using hk)
  · have hsub : ∀ x ∈ pre ++ [r], x.addr ≠ IMX678_REG_DELAY := by
      intro x hx
      apply hnd x
      rw [hregs]
      rcases List.mem_append.mp hx with h | h
      · exact List.mem_append_left _ h
      · have hxr := List.mem_singleton.mp h
        subst hxr
        exact List.mem_append_right _ (List.mem_cons_self _ _)
    have hlen : (program_events (pre ++ [r])).length = program_sends pre + 1 := by
      rw [program_events_length _ hsub, program_sends_append_single pre r hpre hr1 hr2]
    have hsplit := program_events_split pre r post hpre hr1
    rw [← hregs] at hsplit
    refine ⟨program_events (pre ++ [r]), program_events post, hsplit, ?_, ?_, ?_, ?_, ?_,
      ?_, hcommit⟩
    · intro h
      rw [h] at hlen
      simp at hlen
    · intro k hk
      rw [hlen] at hk
      rw [← hw1n]
      exact hprek k (by omega)
    · intro h
      have := h (program_sends pre) (by omega)
      rw [← hw1n, hfail] at this
      exact absurd this (by decide)
    · rw [hw]
      simp [hw1l]
    · simp only [List.mem_append, List.mem_singleton, not_or]
      refine ⟨?_, by decide⟩
      intro h
      apply hnoen
      rw [hsplit]
      exact List.mem_append_left _ h
    · rw [hw, hret, hlen, int_lor_zero_eio]
      simp only []
      have hfold := lor_results_fail env (start_commit env w s).1.n_send
        (program_sends pre + 1) (program_sends pre) (by omega)
        (by rw [← hw1n]; exact hfail)
      rw [hfold]
      split_ifs
      · exact int_lor_eio_zero
      · exact int_lor_eio_eio

/-- Instance of C22 as the driver has it: catalog mode, role ExternalMaster, a powered device, and
a bus on which only the first write of the start program fails. -/
theorem start_stream_sync_role_witness :
    ((imx678_probe_state EXTERNAL_MASTER_MODE).sync_mode ≠ NO_SYNC_MODE
      ∧ (imx678_write_array (Env.fail_at 377)
          (pm_runtime_get_sync (Env.fail_at 377) World.init).1
          (imx678_probe_state EXTERNAL_MASTER_MODE).cur_mode.global_reg_list).2 = 0
      ∧ (start_commit (Env.fail_at 377)
          (pm_runtime_get_sync (Env.fail_at 377) World.init).1
          (imx678_probe_state EXTERNAL_MASTER_MODE)).2.2 = 0)
    ∧ ∃ issued rest : List Event,
      program_events (sync_start_regs (imx678_probe_state EXTERNAL_MASTER_MODE).sync_mode)
        = issued ++ rest
      ∧ issued ≠ []
      ∧ (∀ k, k + 1 < issued.length →
          (Env.fail_at 377).i2c_send_ok
            ((start_commit (Env.fail_at 377)
              (pm_runtime_get_sync (Env.fail_at 377) World.init).1
              (imx678_probe_state EXTERNAL_MASTER_MODE)).1.n_send + k) = true)
      ∧ ((∀ k, k < issued.length →
            (Env.fail_at 377).i2c_send_ok
              ((start_commit (Env.fail_at 377)
                (pm_runtime_get_sync (Env.fail_at 377) World.init).1
                (imx678_probe_state EXTERNAL_MASTER_MODE)).1.n_send + k) = true) → rest = [])
      ∧ (__imx678_start_stream (Env.fail_at 377)
            (pm_runtime_get_sync (Env.fail_at 377) World.init).1
            (imx678_probe_state EXTERNAL_MASTER_MODE)).1.log
          = (start_commit (Env.fail_at 377)
              (pm_runtime_get_sync (Env.fail_at 377) World.init).1
              (imx678_probe_state EXTERNAL_MASTER_MODE)).1.log
              ++ Event.usleep_range 24000 30000 :: issued
              ++ [Event.i2c_master_send [0x30, 0x02, 0x00]]
      ∧ Event.i2c_master_send [0x30, 0x00, 0x00]
          ∉ issued ++ [Event.i2c_master_send [0x30, 0x02, 0x00]]
      ∧ (__imx678_start_stream (Env.fail_at 377)
            (pm_runtime_get_sync (Env.fail_at 377) World.init).1
            (imx678_probe_state EXTERNAL_MASTER_MODE)).2.2
          = ((List.range (issued.length + 1)).map
              (fun k => write_result (Env.fail_at 377)
                ((start_commit (Env.fail_at 377)
                  (pm_runtime_get_sync (Env.fail_at 377) World.init).1
                  (imx678_probe_state EXTERNAL_MASTER_MODE)).1.n_send + k))).foldl
              Int.lor 0
      ∧ ∃ commit : List Event,
          (start_commit (Env.fail_at 377)
              (pm_runtime_get_sync (Env.fail_at 377) World.init).1
              (imx678_probe_state EXTERNAL_MASTER_MODE)).1.log
            = (pm_runtime_get_sync (Env.fail_at 377) World.init).1.log
              ++ program_events
                  (imx678_probe_state EXTERNAL_MASTER_MODE).cur_mode.global_reg_list
              ++ commit
          ∧ Event.i2c_master_send [0x30, 0x00, 0x00] ∉ commit :=
  ⟨⟨by decide, by decide, by decide⟩,
   start_stream_sync_role (Env.fail_at 377)
     (pm_runtime_get_sync (Env.fail_at 377) World.init).1
     (imx678_probe_state EXTERNAL_MASTER_MODE) (by decide) (by decide) (by decide)⟩

/-- C22 fails as stated: with the catalog mode, sync role ExternalMaster and a powered
device, the base program (writes 0 to 368 of the bus) and the control commit (writes 369
to 376) succeed, and write 377, the first of the external-master start program
(`0x3010 := 0x05`), fails.  After the settle delay the start then issues that write and
the write `0x3002 := 0` only: the rows `0x31a1 := 0x03` and `0x31d9 := 0x01` of the start
program are not written; the result is `-EIO`. -/
theorem start_stream_external_master_program_cut :
    (imx678_write_array (Env.fail_at 377)
        (pm_runtime_get_sync (Env.fail_at 377) World.init).1
        (imx678_probe_state EXTERNAL_MASTER_MODE).cur_mode.global_reg_list).2 = 0
    ∧ (start_commit (Env.fail_at 377)
        (pm_runtime_get_sync (Env.fail_at 377) World.init).1
        (imx678_probe_state EXTERNAL_MASTER_MODE)).2.2 = 0
    ∧ (start_commit (Env.fail_at 377)
        (pm_runtime_get_sync (Env.fail_at 377) World.init).1
        (imx678_probe_state EXTERNAL_MASTER_MODE)).1.n_send = 377
    ∧ program_events (sync_start_regs (imx678_probe_state EXTERNAL_MASTER_MODE).sync_mode)
        = [Event.i2c_master_send [0x30, 0x10, 0x05],
           Event.i2c_master_send [0x31, 0xa1, 0x03],
           Event.i2c_master_send [0x31, 0xd9, 0x01]]
    ∧ (__imx678_start_stream (Env.fail_at 377)
          (pm_runtime_get_sync (Env.fail_at 377) World.init).1
          (imx678_probe_state EXTERNAL_MASTER_MODE)).1.log
        = (start_commit (Env.fail_at 377)
            (pm_runtime_get_sync (Env.fail_at 377) World.init).1
            (imx678_probe_state EXTERNAL_MASTER_MODE)).1.log
          ++ [Event.usleep_range 24000 30000,
              Event.i2c_master_send [0x30, 0x10, 0x05],
              Event.i2c_master_send [0x30, 0x02, 0x00]]
    ∧ (__imx678_start_stream (Env.fail_at 377)
          (pm_runtime_get_sync (Env.fail_at 377) World.init).1
          (imx678_probe_state EXTERNAL_MASTER_MODE)).2.2 = -5 := by
  refine ⟨by decide, by decide, by decide, by decide, by decide, ?_⟩
  rw [start_stream_sync_eq (Env.fail_at 377)
    (pm_runtime_get_sync (Env.fail_at 377) World.init).1
    (imx678_probe_state EXTERNAL_MASTER_MODE) (by decide) (by decide) (by decide)]
  have ha : (imx678_write_array (Env.fail_at 377)
      (usleep_range (start_commit (Env.fail_at 377)
        (pm_runtime_get_sync (Env.fail_at 377) World.init).1
        (imx678_probe_state EXTERNAL_MASTER_MODE)).1 24000 30000)
      (sync_start_regs (imx678_probe_state EXTERNAL_MASTER_MODE).sync_mode)).2
      = -EIO_ERRNO := by decide
  have hm : (imx678_write_reg (Env.fail_at 377)
      (imx678_write_array (Env.fail_at 377)
        (usleep_range (start_commit (Env.fail_at 377)
          (pm_runtime_get_sync (Env.fail_at 377) World.init).1
          (imx678_probe_state EXTERNAL_MASTER_MODE)).1 24000 30000)
        (sync_start_regs (imx678_probe_state EXTERNAL_MASTER_MODE).sync_mode)).1
      imx678_REG_MARSTER_MODE IMX678_REG_VALUE_08BIT 0).2 = 0 := by decide
  simp only []
  rw [ha, hm, int_lor_zero_eio, int_lor_eio_zero]
  rfl

/-! ## C23 -/

/-- A start from Stopped whose power acquisition succeeds marks the device Streaming
exactly when `__imx678_start_stream` returns 0, and releases the reference otherwise. -/
theorem s_stream_start_eq (env : Env) (w : World) (s : imx678) (on_arg : Int)
    (hon : on_arg ≠ 0) (hs : s.streaming = false) (hpm : 0 ≤ env.pm_get_sync_ret) :
    imx678_s_stream env w s on_arg =
      if (__imx678_start_stream env (pm_runtime_get_sync env w).1 s).2.2 ≠ 0 then
        (pm_runtime_put (__imx678_start_stream env (pm_runtime_get_sync env w).1 s).1,
         (__imx678_start_stream env (pm_runtime_get_sync env w).1 s).2.1,
         (__imx678_start_stream env (pm_runtime_get_sync env w).1 s).2.2)
      else
        ((__imx678_start_stream env (pm_runtime_get_sync env w).1 s).1,
         { (__imx678_start_stream env (pm_runtime_get_sync env w).1 s).2.1 with
           streaming := true },
         (__imx678_start_stream env (pm_runtime_get_sync env w).1 s).2.2) := by
  have hg : ¬ (pm_runtime_get_sync env w).2 < 0 := not_lt.mpr hpm
  unfold imx678_s_stream
  simp only [hon, hs, ne_eq, not_false_eq_true, decide_True, Bool.true_eq_false, if_false,
    if_true, if_neg hg]

/-- For sync role None, when the base program and the control commit succeed,
`__imx678_start_stream` is: the settle delay, the write of 0 to `0x3000`, a second delay,
the write of 0 to the master-mode register, whose result is the result of the start. -/
theorem start_stream_no_sync_eq (env : Env) (w : World) (s : imx678)
    (hrole : s.sync_mode = NO_SYNC_MODE)
    (hb : (imx678_write_array env w s.cur_mode.global_reg_list).2 = 0)
    (hc : (start_commit env w s).2.2 = 0) :
    __imx678_start_stream env w s =
      ((imx678_write_reg env
          (usleep_range
            (imx678_write_reg env (usleep_range (start_commit env w s).1 24000 30000)
              IMX678_REG_CTRL_MODE IMX678_REG_VALUE_08BIT 0).1 24000 30000)
          imx678_REG_MARSTER_MODE IMX678_REG_VALUE_08BIT 0).1,
       (start_commit env w s).2.1,
       (imx678_write_reg env
          (usleep_range
            (imx678_write_reg env (usleep_range (start_commit env w s).1 24000 30000)
              IMX678_REG_CTRL_MODE IMX678_REG_VALUE_08BIT 0).1 24000 30000)
          imx678_REG_MARSTER_MODE IMX678_REG_VALUE_08BIT 0).2) := by
  have hf : (start_commit env w s).2.1.sync_mode = s.sync_mode :=
    (ctrl_replay_frame env replayed_ctrls
      (imx678_write_array env w s.cur_mode.global_reg_list).1 s).2.1
  unfold __imx678_start_stream
  simp only []
  rw [if_neg (not_not.mpr hb)]
  unfold start_commit at hc hf ⊢
  rw [if_neg (not_not.mpr hc), hf, hrole]
  simp

/-- C23. With sync role None, in a start from Stopped whose power acquisition, base
program and control commit succeed, `__imx678_start_stream` issues after the commit the
settle delay, the streaming-enable write `0x3000 := 0` (transfer `n` of the bus), a second
delay and the master-mode write `0x3002 := 0` (transfer `n + 1`), and its result is the
result of the master-mode write alone, whatever the result of the enable write.  So
`imx678_s_stream` returns that result and marks the device Streaming exactly when the
master-mode write succeeds; in particular when the enable write fails and the master-mode
write succeeds, the start returns 0 and the device is marked Streaming. -/
theorem s_stream_start_no_sync_result (env : Env) (w : World) (s : imx678) (on_arg : Int)
    (hon : on_arg ≠ 0) (hs : s.streaming = false) (hpm : 0 ≤ env.pm_get_sync_ret)
    (hrole : s.sync_mode = NO_SYNC_MODE)
    (hb : (imx678_write_array env (pm_runtime_get_sync env w).1
            s.cur_mode.global_reg_list).2 = 0)
    (hc : (start_commit env (pm_runtime_get_sync env w).1 s).2.2 = 0) :
    (__imx678_start_stream env (pm_runtime_get_sync env w).1 s).1.log
        = (start_commit env (pm_runtime_get_sync env w).1 s).1.log
          ++ [Event.usleep_range 24000 30000, Event.i2c_master_send [0x30, 0x00, 0x00],
              Event.usleep_range 24000 30000, Event.i2c_master_send [0x30, 0x02, 0x00]]
    ∧ (imx678_write_reg env
          (usleep_range (start_commit env (pm_runtime_get_sync env w).1 s).1 24000 30000)
          IMX678_REG_CTRL_MODE IMX678_REG_VALUE_08BIT 0).2
        = write_result env (start_commit env (pm_runtime_get_sync env w).1 s).1.n_send
    ∧ (__imx678_start_stream env (pm_runtime_get_sync env w).1 s).2.2
        = (imx678_write_reg env
            (usleep_range
              (imx678_write_reg env
                (usleep_range (start_commit env (pm_runtime_get_sync env w).1 s).1
                  24000 30000)
                IMX678_REG_CTRL_MODE IMX678_REG_VALUE_08BIT 0).1 24000 30000)
            imx678_REG_MARSTER_MODE IMX678_REG_VALUE_08BIT 0).2
    ∧ (__imx678_start_stream env (pm_runtime_get_sync env w).1 s).2.2
        = write_result env ((start_commit env (pm_runtime_get_sync env w).1 s).1.n_send + 1)
    ∧ (imx678_s_stream env w s on_arg).2.2
        = write_result env ((start_commit env (pm_runtime_get_sync env w).1 s).1.n_send + 1)
    ∧ (imx678_s_stream env w s on_arg).2.1.streaming
        = env.i2c_send_ok ((start_commit env (pm_runtime_get_sync env w).1 s).1.n_send + 1)
    ∧ (env.i2c_send_ok (start_commit env (pm_runtime_get_sync env w).1 s).1.n_send = false →
       env.i2c_send_ok ((start_commit env (pm_runtime_get_sync env w).1 s).1.n_send + 1)
          = true →
       (imx678_write_reg env
          (usleep_range (start_commit env (pm_runtime_get_sync env w).1 s).1 24000 30000)
          IMX678_REG_CTRL_MODE IMX678_REG_VALUE_08BIT 0).2 = -EIO_ERRNO
       ∧ (__imx678_start_stream env (pm_runtime_get_sync env w).1 s).2.2 = 0
       ∧ (imx678_s_stream env w s on_arg).2.2 = 0
       ∧ (imx678_s_stream env w s on_arg).2.1.streaming = true) := by
  have hne : (-EIO_ERRNO : Int) ≠ 0 := by decide
  have hst := start_stream_streaming env (pm_runtime_get_sync env w).1 s
  have heq := start_stream_no_sync_eq env (pm_runtime_get_sync env w).1 s hrole hb hc
  have hres : (__imx678_start_stream env (pm_runtime_get_sync env w).1 s).2.2
      = write_result env
          ((start_commit env (pm_runtime_get_sync env w).1 s).1.n_send + 1) := by
    rw [heq]
    simp only [write_reg_08_snd, write_reg_08_fst]
    rfl
  have hen : (imx678_write_reg env
      (usleep_range (start_commit env (pm_runtime_get_sync env w).1 s).1 24000 30000)
      IMX678_REG_CTRL_MODE IMX678_REG_VALUE_08BIT 0).2
      = write_result env (start_commit env (pm_runtime_get_sync env w).1 s).1.n_send := by
    rw [write_reg_08_snd]
    rfl
  have hsr : (imx678_s_stream env w s on_arg).2.2
      = write_result env
          ((start_commit env (pm_runtime_get_sync env w).1 s).1.n_send + 1) := by
    rw [s_stream_start_eq env w s on_arg hon hs hpm, ← hres]
    split_ifs <;> rfl
  have hss : (imx678_s_stream env w s on_arg).2.1.streaming
      = env.i2c_send_ok
          ((start_commit env (pm_runtime_get_sync env w).1 s).1.n_send + 1) := by
    rw [s_stream_start_eq env w s on_arg hon hs hpm, hres]
    unfold write_result
    by_cases hk : env.i2c_send_ok
        ((start_commit env (pm_runtime_get_sync env w).1 s).1.n_send + 1) = true
    · rw [if_pos hk, if_neg (not_not.mpr rfl), hk]
    · rw [if_neg hk, if_pos hne]
      simp only [hst, hs]
      exact (Bool.not_eq_true _ ▸ hk).symm
  refine ⟨?_, hen, ?_, hres, hsr, hss, ?_⟩
  · rw [heq]
    simp only [write_reg_08_fst, usleep_range, World.emit, List.append_assoc]
    have h1 : [(IMX678_REG_CTRL_MODE >>> 8) &&& 0xff, IMX678_REG_CTRL_MODE &&& 0xff,
        (0 % 4294967296) &&& 0xff] = [0x30, 0x00, 0x00] := by decide
    have h2 : [(imx678_REG_MARSTER_MODE >>> 8) &&& 0xff, imx678_REG_MARSTER_MODE &&& 0xff,
        (0 % 4294967296) &&& 0xff] = [0x30, 0x02, 0x00] := by decide
    rw [h1, h2]
    rfl
  · rw [heq]
  · intro hf hok
    refine ⟨?_, ?_, ?_, ?_⟩
    · rw [hen, write_result, hf]
      rfl
    · rw [hres, write_result, hok]
      rfl
    · rw [hsr, write_result, hok]
      rfl
    · rw [hss, hok]

/-- Instance of C23: catalog mode, role None, a start from Stopped on a bus where only
transfer 377, the streaming-enable write, fails. -/
theorem s_stream_start_no_sync_result_witness :
    ((1 : Int) ≠ 0 ∧ (imx678_probe_state NO_SYNC_MODE).streaming = false
      ∧ 0 ≤ (Env.fail_at 377).pm_get_sync_ret
      ∧ (imx678_probe_state NO_SYNC_MODE).sync_mode = NO_SYNC_MODE
      ∧ (imx678_write_array (Env.fail_at 377)
          (pm_runtime_get_sync (Env.fail_at 377) World.init).1
          (imx678_probe_state NO_SYNC_MODE).cur_mode.global_reg_list).2 = 0
      ∧ (start_commit (Env.fail_at 377)
          (pm_runtime_get_sync (Env.fail_at 377) World.init).1
          (imx678_probe_state NO_SYNC_MODE)).2.2 = 0
      ∧ (Env.fail_at 377).i2c_send_ok
          (start_commit (Env.fail_at 377)
            (pm_runtime_get_sync (Env.fail_at 377) World.init).1
            (imx678_probe_state NO_SYNC_MODE)).1.n_send = false
      ∧ (Env.fail_at 377).i2c_send_ok
          ((start_commit (Env.fail_at 377)
            (pm_runtime_get_sync (Env.fail_at 377) World.init).1
            (imx678_probe_state NO_SYNC_MODE)).1.n_send + 1) = true)
    ∧ (imx678_write_reg (Env.fail_at 377)
          (usleep_range (start_commit (Env.fail_at 377)
            (pm_runtime_get_sync (Env.fail_at 377) World.init).1
            (imx678_probe_state NO_SYNC_MODE)).1 24000 30000)
          IMX678_REG_CTRL_MODE IMX678_REG_VALUE_08BIT 0).2 = -EIO_ERRNO
    ∧ (__imx678_start_stream (Env.fail_at 377)
          (pm_runtime_get_sync (Env.fail_at 377) World.init).1
          (imx678_probe_state NO_SYNC_MODE)).2.2 = 0
    ∧ (imx678_s_stream (Env.fail_at 377) World.init
          (imx678_probe_state NO_SYNC_MODE) 1).2.2 = 0
    ∧ (imx678_s_stream (Env.fail_at 377) World.init
          (imx678_probe_state NO_SYNC_MODE) 1).2.1.streaming = true :=
  ⟨⟨by decide, by decide, by decide, by decide, by decide, by decide, by decide,
     by decide⟩,
   (s_stream_start_no_sync_result (Env.fail_at 377) World.init
      (imx678_probe_state NO_SYNC_MODE) 1 (by decide) (by decide) (by decide) (by decide)
      (by decide) (by decide)).2.2.2.2.2.2 (by decide) (by decide)⟩

/-! ## C24 -/

/-- `__imx678_start_stream` holds no power reference on return. -/
theorem start_stream_pm_usage (env : Env) (w : World) (s : imx678) :
    (__imx678_start_stream env w s).1.pm_usage = w.pm_usage := by
  have hb := write_array_pm_usage env s.cur_mode.global_reg_list w
  have hcp := ctrl_replay_pm_usage env replayed_ctrls
    (imx678_write_array env w s.cur_mode.global_reg_list).1 s
  have hu : ∀ (x : World) (lo hi : Nat), (usleep_range x lo hi).pm_usage = x.pm_usage :=
    fun _ _ _ => rfl
  unfold __imx678_start_stream v4l2_ctrl_handler_setup
  simp only []
  split_ifs <;>
    simp only [write_reg_pm_usage, write_array_pm_usage, hu, hb, hcp]

/-- `imx678_set_fmt` takes and drops no power reference and leaves the streaming flag. -/
theorem set_fmt_frame (env : Env) (w : World) (s : imx678) (fmt : v4l2_subdev_format) :
    (imx678_set_fmt env w s fmt).1.pm_usage = w.pm_usage
      ∧ (imx678_set_fmt env w s fmt).2.1.streaming = s.streaming := by
  unfold imx678_set_fmt
  simp only []
  split_ifs <;> exact ⟨rfl, rfl⟩

/-- A call of `imx678_s_stream` that asks for the state the device is in changes nothing. -/
theorem s_stream_same (env : Env) (w : World) (s : imx678) (on_arg : Int)
    (h : decide (on_arg ≠ 0) = s.streaming) :
    imx678_s_stream env w s on_arg = (w, s, 0) := by
  unfold imx678_s_stream
  simp only []
  rw [if_pos h]

/-- A start from Stopped whose power acquisition fails drops the reference it took. -/
theorem s_stream_acquire_failed (env : Env) (w : World) (s : imx678) (on_arg : Int)
    (hon : on_arg ≠ 0) (hs : s.streaming = false) (hpm : env.pm_get_sync_ret < 0) :
    imx678_s_stream env w s on_arg
      = (pm_runtime_put_noidle (pm_runtime_get_sync env w).1, s, env.pm_get_sync_ret) := by
  have hg : (pm_runtime_get_sync env w).2 < 0 := hpm
  unfold imx678_s_stream
  simp only [hon, hs, ne_eq, not_false_eq_true, decide_True, Bool.true_eq_false, if_false,
    if_true, if_pos hg]
  rfl

/-- A stop from Streaming runs `__imx678_stop_stream` and releases the reference. -/
theorem s_stream_stop_eq (env : Env) (w : World) (s : imx678) (on_arg : Int)
    (hon : on_arg = 0) (hs : s.streaming = true) :
    imx678_s_stream env w s on_arg
      = (pm_runtime_put (__imx678_stop_stream env w s).1, { s with streaming := false },
          0) := by
  unfold imx678_s_stream
  simp [hon, hs]

/-- Every call of `imx678_s_stream` keeps the balance: when the usage count is 1 for a
Streaming device and 0 for a Stopped one before the call, so it is after the call. -/
theorem s_stream_balance_step (env : Env) (w : World) (s : imx678) (on_arg : Int)
    (h : w.pm_usage = if s.streaming = true then 1 else 0) :
    (imx678_s_stream env w s on_arg).1.pm_usage
      = if (imx678_s_stream env w s on_arg).2.1.streaming = true then 1 else 0 := by
  by_cases hsame : decide (on_arg ≠ 0) = s.streaming
  · rw [s_stream_same env w s on_arg hsame]
    exact h
  · by_cases hon : on_arg ≠ 0
    · have hs : s.streaming = false := by
        cases hst : s.streaming
        · rfl
        · exact absurd (by simp [hon, hst]) hsame
      rw [hs] at h
      simp only [Bool.false_eq_true, if_false] at h
      by_cases hpm : 0 ≤ env.pm_get_sync_ret
      · rw [s_stream_start_eq env w s on_arg hon hs hpm]
        have hp := start_stream_pm_usage env (pm_runtime_get_sync env w).1 s
        have hst := start_stream_streaming env (pm_runtime_get_sync env w).1 s
        have hg : (pm_runtime_get_sync env w).1.pm_usage = w.pm_usage + 1 := rfl
        split_ifs with h1 h2 h3
        · simp only [hst, hs] at h2
          exact absurd h2 (by decide)
        · show (__imx678_start_stream env (pm_runtime_get_sync env w).1 s).1.pm_usage - 1 = 0
          rw [hp, hg, h]
          rfl
        · rw [hp, hg, h]
          rfl
        · exact absurd rfl h3
      · rw [s_stream_acquire_failed env w s on_arg hon hs (not_le.mp hpm)]
        simp only [hs, Bool.false_eq_true, if_false]
        show w.pm_usage + 1 - 1 = 0
        rw [h]
        rfl
    · have hon0 : on_arg = 0 := not_not.mp hon
      have hs : s.streaming = true := by
        cases hst : s.streaming
        · exact absurd (by simp [hon0, hst]) hsame
        · rfl
      rw [hs] at h
      simp only [if_true] at h
      rw [s_stream_stop_eq env w s on_arg hon0 hs]
      simp only [Bool.false_eq_true, if_false]
      show (__imx678_stop_stream env w s).1.pm_usage - 1 = 0
      rw [stop_stream_pm_usage, h]
      rfl

/-- C24. The usage count of the power-management collaborator (references acquired minus
references released) changes over a call of `imx678_s_stream` by +1 when a start succeeds
(the device is then Streaming), by -1 when a stop is performed (the device is then
Stopped), and by 0 in the other cases, which leave the streaming flag as it was: a call
asking for the state the device is in, a start whose power acquisition fails, a start
whose `__imx678_start_stream` fails.  Hence in every state reachable from a Stopped device
with no reference held, by such calls with control applications and format negotiations
in between, the count is 1 if the device is Streaming and 0 otherwise. -/
theorem s_stream_power_balance :
    (∀ (env : Env) (w : World) (s : imx678) (on_arg : Int),
      (on_arg ≠ 0 → s.streaming = false → 0 ≤ env.pm_get_sync_ret →
        (__imx678_start_stream env (pm_runtime_get_sync env w).1 s).2.2 = 0 →
          (imx678_s_stream env w s on_arg).1.pm_usage = w.pm_usage + 1
          ∧ (imx678_s_stream env w s on_arg).2.1.streaming = true
          ∧ (imx678_s_stream env w s on_arg).2.2 = 0)
      ∧ (on_arg = 0 → s.streaming = true →
          (imx678_s_stream env w s on_arg).1.pm_usage = w.pm_usage - 1
          ∧ (imx678_s_stream env w s on_arg).2.1.streaming = false
          ∧ (imx678_s_stream env w s on_arg).2.2 = 0)
      ∧ (decide (on_arg ≠ 0) = s.streaming →
          (imx678_s_stream env w s on_arg).1.pm_usage = w.pm_usage
          ∧ (imx678_s_stream env w s on_arg).2.1.streaming = s.streaming
          ∧ (imx678_s_stream env w s on_arg).2.2 = 0)
      ∧ (on_arg ≠ 0 → s.streaming = false → env.pm_get_sync_ret < 0 →
          (imx678_s_stream env w s on_arg).1.pm_usage = w.pm_usage
          ∧ (imx678_s_stream env w s on_arg).2.1.streaming = false
          ∧ (imx678_s_stream env w s on_arg).2.2 = env.pm_get_sync_ret)
      ∧ (on_arg ≠ 0 → s.streaming = false → 0 ≤ env.pm_get_sync_ret →
        (__imx678_start_stream env (pm_runtime_get_sync env w).1 s).2.2 ≠ 0 →
          (imx678_s_stream env w s on_arg).1.pm_usage = w.pm_usage
          ∧ (imx678_s_stream env w s on_arg).2.1.streaming = false
          ∧ (imx678_s_stream env w s on_arg).2.2
              = (__imx678_start_stream env (pm_runtime_get_sync env w).1 s).2.2))
    ∧ (∀ (w : World) (s : imx678), StreamReachable w s →
        w.pm_usage = if s.streaming = true then 1 else 0) := by
  refine ⟨fun env w s on_arg => ⟨?_, ?_, ?_, ?_, ?_⟩, ?_⟩
  · intro hon hs hpm h0
    rw [s_stream_start_eq env w s on_arg hon hs hpm, if_neg (not_not.mpr h0)]
    refine ⟨?_, rfl, h0⟩
    show (__imx678_start_stream env (pm_runtime_get_sync env w).1 s).1.pm_usage
      = w.pm_usage + 1
    rw [start_stream_pm_usage]
    rfl
  · intro hon hs
    rw [s_stream_stop_eq env w s on_arg hon hs]
    refine ⟨?_, rfl, rfl⟩
    show (__imx678_stop_stream env w s).1.pm_usage - 1 = w.pm_usage - 1
    rw [stop_stream_pm_usage]
  · intro hsame
    rw [s_stream_same env w s on_arg hsame]
    exact ⟨rfl, rfl, rfl⟩
  · intro hon hs hpm
    rw [s_stream_acquire_failed env w s on_arg hon hs hpm]
    refine ⟨?_, hs, rfl⟩
    show w.pm_usage + 1 - 1 = w.pm_usage
    omega
  · intro hon hs hpm hne
    rw [s_stream_start_eq env w s on_arg hon hs hpm, if_pos hne]
    refine ⟨?_, ?_, rfl⟩
    · show (__imx678_start_stream env (pm_runtime_get_sync env w).1 s).1.pm_usage - 1
        = w.pm_usage
      rw [start_stream_pm_usage]
      show w.pm_usage + 1 - 1 = w.pm_usage
      omega
    · show (__imx678_start_stream env (pm_runtime_get_sync env w).1 s).2.1.streaming = false
      rw [start_stream_streaming, hs]
  · intro w s hr
    induction hr with
    | init w s hs hp =>
      rw [hp, hs]
      rfl
    | s_stream env w s on_arg _ ih => exact s_stream_balance_step env w s on_arg ih
    | set_ctrl env w s id v _ ih =>
      rw [set_ctrl_pm_usage, (set_ctrl_frame env w s id v).1]
      exact ih
    | set_fmt env w s fmt _ ih =>
      rw [(set_fmt_frame env w s fmt).1, (set_fmt_frame env w s fmt).2]
      exact ih

/-- Instance of C24: catalog mode, role None, every collaborator succeeding: a start from
Stopped with no reference held takes one reference, and the state reached by that start
and a vblank control application holds one reference. -/
theorem s_stream_power_balance_witness :
    ((1 : Int) ≠ 0 ∧ (imx678_probe_state NO_SYNC_MODE).streaming = false
      ∧ 0 ≤ Env.all_ok.pm_get_sync_ret
      ∧ (__imx678_start_stream Env.all_ok (pm_runtime_get_sync Env.all_ok World.init).1
          (imx678_probe_state NO_SYNC_MODE)).2.2 = 0)
    ∧ ((imx678_s_stream Env.all_ok World.init (imx678_probe_state NO_SYNC_MODE) 1).1.pm_usage
          = World.init.pm_usage + 1
        ∧ (imx678_s_stream Env.all_ok World.init
            (imx678_probe_state NO_SYNC_MODE) 1).2.1.streaming = true
        ∧ (imx678_s_stream Env.all_ok World.init (imx678_probe_state NO_SYNC_MODE) 1).2.2 = 0)
    ∧ StreamReachable
        (imx678_set_ctrl Env.all_ok
          (imx678_s_stream Env.all_ok World.init (imx678_probe_state NO_SYNC_MODE) 1).1
          (imx678_s_stream Env.all_ok World.init (imx678_probe_state NO_SYNC_MODE) 1).2.1
          ctrl_id.V4L2_CID_VBLANK 100).1
        (imx678_set_ctrl Env.all_ok
          (imx678_s_stream Env.all_ok World.init (imx678_probe_state NO_SYNC_MODE) 1).1
          (imx678_s_stream Env.all_ok World.init (imx678_probe_state NO_SYNC_MODE) 1).2.1
          ctrl_id.V4L2_CID_VBLANK 100).2.1
    ∧ (imx678_set_ctrl Env.all_ok
          (imx678_s_stream Env.all_ok World.init (imx678_probe_state NO_SYNC_MODE) 1).1
          (imx678_s_stream Env.all_ok World.init (imx678_probe_state NO_SYNC_MODE) 1).2.1
          ctrl_id.V4L2_CID_VBLANK 100).1.pm_usage
        = if (imx678_set_ctrl Env.all_ok
          (imx678_s_stream Env.all_ok World.init (imx678_probe_state NO_SYNC_MODE) 1).1
          (imx678_s_stream Env.all_ok World.init (imx678_probe_state NO_SYNC_MODE) 1).2.1
          ctrl_id.V4L2_CID_VBLANK 100).2.1.streaming = true then 1 else 0 :=
  ⟨⟨by decide, by decide, by decide, by decide⟩,
   (s_stream_power_balance.1 Env.all_ok World.init (imx678_probe_state NO_SYNC_MODE) 1).1
      (by decide) (by decide) (by decide) (by decide),
   StreamReachable.set_ctrl _ _ _ _ _
      (StreamReachable.s_stream _ _ _ _ (StreamReachable.init _ _ (by decide) (by decide))),
   s_stream_power_balance.2 _ _
      (StreamReachable.set_ctrl _ _ _ _ _
        (StreamReachable.s_stream _ _ _ _
          (StreamReachable.init _ _ (by decide) (by decide))))⟩

/-! ## C4, over the whole history -/

/-- Device state after a vblank application on a device that is not powered: only the
maximum of the exposure control changes. -/
theorem set_ctrl_vblank_unpowered_state (env : Env) (w : World) (s : imx678) (v : Int)
    (hp : ¬ 0 < w.pm_usage) :
    imx678_set_ctrl env w s V4L2_CID_VBLANK v =
      (w,
       { s with
         exposure := { s.exposure with
                       maximum := ((u32_of ((s.cur_mode.height : Int) + v - 4) : Nat) : Int) } },
       0) := by
  unfold imx678_set_ctrl
  simp [pm_runtime_get_if_in_use, hp, __v4l2_ctrl_modify_range]

/-- `imx678_set_ctrl` for the vblank control leaves the vblank control and the mode. -/
theorem set_ctrl_vblank_keeps_range (env : Env) (w : World) (s : imx678) (v : Int) :
    (imx678_set_ctrl env w s V4L2_CID_VBLANK v).2.1.vblank = s.vblank
      ∧ (imx678_set_ctrl env w s V4L2_CID_VBLANK v).2.1.cur_mode = s.cur_mode := by
  unfold imx678_set_ctrl
  by_cases hp : 0 < w.pm_usage <;>
    simp [pm_runtime_get_if_in_use, hp, __v4l2_ctrl_modify_range]

/-- Device state after a committed negotiation: the catalog entry is selected, `cur_vts`
is its default vertical total, the vblank range is republished for it, and the exposure
control is left as it was. -/
theorem set_fmt_active_state (env : Env) (w : World) (s : imx678) (fmt : v4l2_subdev_format)
    (hact : fmt.which = V4L2_SUBDEV_FORMAT_ACTIVE) :
    (imx678_set_fmt env w s fmt).2.1.cur_mode = supported_modes_0
      ∧ (imx678_set_fmt env w s fmt).2.1.cur_vts = supported_modes_0.vts_def
      ∧ (imx678_set_fmt env w s fmt).2.1.exposure = s.exposure
      ∧ (imx678_set_fmt env w s fmt).2.1.vblank.minimum
          = ((u32_of ((supported_modes_0.vts_def : Int) - supported_modes_0.height) : Nat) : Int)
      ∧ (imx678_set_fmt env w s fmt).2.1.vblank.maximum
          = ((u32_of ((IMX678_VTS_MAX : Int) - supported_modes_0.height) : Nat) : Int) := by
  have htry : ¬ fmt.which = V4L2_SUBDEV_FORMAT_TRY := by rw [hact]; decide
  generalize hm : supported_modes_0 = m
  unfold imx678_set_fmt
  simp only [find_nearest_single, hm, htry, if_false, __v4l2_ctrl_modify_range]
  split_ifs <;> exact ⟨rfl, rfl, rfl, rfl, rfl⟩

/-- Every state of the history has a consistent mode and the vblank range of that mode. -/
theorem range_inv_reachable (s : imx678) (h : ReachableConsistent s) : range_inv s := by
  induction h with
  | init s0 hok =>
    have hi := vts_inv_init s0 hok
    exact ⟨hi.1, hi.2.1, hi.2.2.1⟩
  | vblank env w s v _ _ _ ih =>
    obtain ⟨hk1, hk2⟩ := set_ctrl_vblank_keeps_range env w s v
    unfold range_inv
    rw [hk1, hk2]
    exact ih
  | set_fmt env w s fmt _ hact _ =>
    obtain ⟨h1, _, _, h4, h5⟩ := set_fmt_active_state env w s fmt hact
    obtain ⟨k1, k2, k3, k4⟩ := supported_modes_0_ok
    have k4' : supported_modes_0.vts_def ≤ 1048575 := k4
    unfold range_inv
    rw [h1, h4, h5]
    refine ⟨⟨k1, k2, k3, k4⟩, ?_, ?_⟩
    · exact u32_of_cast _ (by omega) (by omega)
    · exact u32_of_cast _ (by simp only [IMX678_VTS_MAX]; omega)
        (by simp only [IMX678_VTS_MAX]; omega)

/-- C4, as the driver has it. Along every history that starts at control initialisation of
a consistent mode and consists of vblank control applications (values of the published
vblank range, device powered or not, any outcome of the register writes) and committed
mode negotiations, the maximum of the exposure control equals `cur_vts - 4` right after
control initialisation and right after every vblank application made while the device is
powered, where `cur_vts` is then `height + v`.  It does not hold in every state: a vblank
application made while the device is not powered publishes the exposure maximum
`height + v - 4` and leaves `cur_vts` as it was, so the equality holds afterwards only if
`cur_vts` already was `height + v`; a committed negotiation sets `cur_vts` to the default
vertical total of the catalog mode and leaves the exposure maximum as it was. -/
theorem exposure_max_eq_cur_vts_sub_4 :
    (∀ s0 : imx678, mode_ok s0.cur_mode →
        (imx678_initialize_controls s0).exposure.maximum
          = ((imx678_initialize_controls s0).cur_vts : Int) - 4)
    ∧ (∀ s : imx678, ReachableConsistent s → ∀ (env : Env) (w : World) (v : Int),
        s.vblank.minimum ≤ v → v ≤ s.vblank.maximum →
        (0 < w.pm_usage →
          (imx678_set_ctrl env w s V4L2_CID_VBLANK v).2.1.exposure.maximum
              = ((imx678_set_ctrl env w s V4L2_CID_VBLANK v).2.1.cur_vts : Int) - 4
          ∧ ((imx678_set_ctrl env w s V4L2_CID_VBLANK v).2.1.cur_vts : Int)
              = (s.cur_mode.height : Int) + v)
        ∧ (¬ 0 < w.pm_usage →
          (imx678_set_ctrl env w s V4L2_CID_VBLANK v).2.1.exposure.maximum
              = (s.cur_mode.height : Int) + v - 4
          ∧ (imx678_set_ctrl env w s V4L2_CID_VBLANK v).2.1.cur_vts = s.cur_vts
          ∧ ((imx678_set_ctrl env w s V4L2_CID_VBLANK v).2.1.exposure.maximum
                = ((imx678_set_ctrl env w s V4L2_CID_VBLANK v).2.1.cur_vts : Int) - 4
              ↔ (s.cur_vts : Int) = (s.cur_mode.height : Int) + v)))
    ∧ (∀ (env : Env) (w : World) (s : imx678) (fmt : v4l2_subdev_format),
        fmt.which = V4L2_SUBDEV_FORMAT_ACTIVE →
        (imx678_set_fmt env w s fmt).2.1.exposure.maximum = s.exposure.maximum
        ∧ (imx678_set_fmt env w s fmt).2.1.cur_vts = supported_modes_0.vts_def) := by
  refine ⟨fun s0 hok => (vts_inv_init s0 hok).2.2.2, ?_, ?_⟩
  · intro s hr env w v hlo hhi
    obtain ⟨⟨h1, h2, h3, h4⟩, hmin, hmax⟩ := range_inv_reachable s hr
    have h4' : s.cur_mode.vts_def ≤ 1048575 := h4
    rw [hmin] at hlo
    rw [hmax] at hhi
    simp only [IMX678_VTS_MAX] at hhi
    have e1 : ((u32_of ((s.cur_mode.height : Int) + v - 4) : Nat) : Int)
        = (s.cur_mode.height : Int) + v - 4 := u32_of_cast _ (by omega) (by omega)
    have e2 : ((u32_of (v + (s.cur_mode.height : Int)) : Nat) : Int)
        = v + (s.cur_mode.height : Int) := u32_of_cast _ (by omega) (by omega)
    refine ⟨?_, ?_⟩
    · intro hp
      rw [set_ctrl_vblank_powered_state env w s v hp h1]
      refine ⟨?_, ?_⟩
      · show ((u32_of ((s.cur_mode.height : Int) + v - 4) : Nat) : Int)
          = ((u32_of (v + (s.cur_mode.height : Int)) : Nat) : Int) - 4
        rw [e1, e2]
        ring
      · show ((u32_of (v + (s.cur_mode.height : Int)) : Nat) : Int)
          = (s.cur_mode.height : Int) + v
        rw [e2]
        ring
    · intro hp
      rw [set_ctrl_vblank_unpowered_state env w s v hp]
      refine ⟨e1, rfl, ?_⟩
      show ((u32_of ((s.cur_mode.height : Int) + v - 4) : Nat) : Int) = (s.cur_vts : Int) - 4
        ↔ (s.cur_vts : Int) = (s.cur_mode.height : Int) + v
      rw [e1]
      constructor <;> (intro h; omega)
  · intro env w s fmt hact
    obtain ⟨_, h2, h3, _, _⟩ := set_fmt_active_state env w s fmt hact
    exact ⟨by rw [h3], h2⟩

/-- Instance of C4 as the driver has it, with the catalog mode: after an unpowered vblank
application and a committed negotiation, a vblank application of 100 on the powered device
gives the exposure maximum 2256 with `cur_vts` 2260; a committed negotiation made in that
state leaves the maximum 2256 and sets `cur_vts` to 2250. -/
theorem exposure_max_eq_cur_vts_sub_4_witness :
    (ReachableConsistent
      (imx678_set_fmt Env.all_ok World.init
        (imx678_set_ctrl Env.all_ok World.init (imx678_probe_state NO_SYNC_MODE)
            V4L2_CID_VBLANK 100).2.1
        { which := V4L2_SUBDEV_FORMAT_ACTIVE, width := 640, height := 480, code := 0,
          field := 0 }).2.1
      ∧ (imx678_set_fmt Env.all_ok World.init
          (imx678_set_ctrl Env.all_ok World.init (imx678_probe_state NO_SYNC_MODE)
              V4L2_CID_VBLANK 100).2.1
          { which := V4L2_SUBDEV_FORMAT_ACTIVE, width := 640, height := 480, code := 0,
            field := 0 }).2.1.vblank.minimum ≤ 100
      ∧ (100 : Int) ≤ (imx678_set_fmt Env.all_ok World.init
                        (imx678_set_ctrl Env.all_ok World.init (imx678_probe_state NO_SYNC_MODE)
                            V4L2_CID_VBLANK 100).2.1
                        { which := V4L2_SUBDEV_FORMAT_ACTIVE, width := 640, height := 480, code := 0,
                          field := 0 }).2.1.vblank.maximum
      ∧ 0 < ({ World.init with pm_usage := 1 } : World).pm_usage
      ∧ ({ which := V4L2_SUBDEV_FORMAT_ACTIVE, width := 640, height := 480, code := 0,
           field := 0 } : v4l2_subdev_format).which = V4L2_SUBDEV_FORMAT_ACTIVE)
    ∧ ((imx678_set_ctrl Env.all_ok { World.init with pm_usage := 1 }
          (imx678_set_fmt Env.all_ok World.init
            (imx678_set_ctrl Env.all_ok World.init (imx678_probe_state NO_SYNC_MODE)
                V4L2_CID_VBLANK 100).2.1
            { which := V4L2_SUBDEV_FORMAT_ACTIVE, width := 640, height := 480, code := 0,
              field := 0 }).2.1
          V4L2_CID_VBLANK 100).2.1.exposure.maximum
        = ((imx678_set_ctrl Env.all_ok { World.init with pm_usage := 1 }
            (imx678_set_fmt Env.all_ok World.init
              (imx678_set_ctrl Env.all_ok World.init (imx678_probe_state NO_SYNC_MODE)
                  V4L2_CID_VBLANK 100).2.1
              { which := V4L2_SUBDEV_FORMAT_ACTIVE, width := 640, height := 480, code := 0,
                field := 0 }).2.1
            V4L2_CID_VBLANK 100).2.1.cur_vts : Int) - 4
      ∧ ((imx678_set_ctrl Env.all_ok { World.init with pm_usage := 1 }
            (imx678_set_fmt Env.all_ok World.init
              (imx678_set_ctrl Env.all_ok World.init (imx678_probe_state NO_SYNC_MODE)
                  V4L2_CID_VBLANK 100).2.1
              { which := V4L2_SUBDEV_FORMAT_ACTIVE, width := 640, height := 480, code := 0,
                field := 0 }).2.1
            V4L2_CID_VBLANK 100).2.1.cur_vts : Int)
          = ((imx678_set_fmt Env.all_ok World.init
               (imx678_set_ctrl Env.all_ok World.init (imx678_probe_state NO_SYNC_MODE)
                   V4L2_CID_VBLANK 100).2.1
               { which := V4L2_SUBDEV_FORMAT_ACTIVE, width := 640, height := 480, code := 0,
                 field := 0 }).2.1.cur_mode.height : Int) + 100)
    ∧ (imx678_set_ctrl Env.all_ok { World.init with pm_usage := 1 }
          (imx678_set_fmt Env.all_ok World.init
            (imx678_set_ctrl Env.all_ok World.init (imx678_probe_state NO_SYNC_MODE)
                V4L2_CID_VBLANK 100).2.1
            { which := V4L2_SUBDEV_FORMAT_ACTIVE, width := 640, height := 480, code := 0,
              field := 0 }).2.1
          V4L2_CID_VBLANK 100).2.1.exposure.maximum = 2256
    ∧ (imx678_set_ctrl Env.all_ok { World.init with pm_usage := 1 }
          (imx678_set_fmt Env.all_ok World.init
            (imx678_set_ctrl Env.all_ok World.init (imx678_probe_state NO_SYNC_MODE)
                V4L2_CID_VBLANK 100).2.1
            { which := V4L2_SUBDEV_FORMAT_ACTIVE, width := 640, height := 480, code := 0,
              field := 0 }).2.1
          V4L2_CID_VBLANK 100).2.1.cur_vts = 2260
    ∧ ((imx678_set_fmt Env.all_ok { World.init with pm_usage := 1 }
          (imx678_set_ctrl Env.all_ok { World.init with pm_usage := 1 }
            (imx678_set_fmt Env.all_ok World.init
              (imx678_set_ctrl Env.all_ok World.init (imx678_probe_state NO_SYNC_MODE)
                  V4L2_CID_VBLANK 100).2.1
              { which := V4L2_SUBDEV_FORMAT_ACTIVE, width := 640, height := 480, code := 0,
                field := 0 }).2.1
            V4L2_CID_VBLANK 100).2.1
          { which := V4L2_SUBDEV_FORMAT_ACTIVE, width := 640, height := 480, code := 0,
            field := 0 }).2.1.exposure.maximum
        = (imx678_set_ctrl Env.all_ok { World.init with pm_usage := 1 }
            (imx678_set_fmt Env.all_ok World.init
              (imx678_set_ctrl Env.all_ok World.init (imx678_probe_state NO_SYNC_MODE)
                  V4L2_CID_VBLANK 100).2.1
              { which := V4L2_SUBDEV_FORMAT_ACTIVE, width := 640, height := 480, code := 0,
                field := 0 }).2.1
            V4L2_CID_VBLANK 100).2.1.exposure.maximum
      ∧ (imx678_set_fmt Env.all_ok { World.init with pm_usage := 1 }
          (imx678_set_ctrl Env.all_ok { World.init with pm_usage := 1 }
            (imx678_set_fmt Env.all_ok World.init
              (imx678_set_ctrl Env.all_ok World.init (imx678_probe_state NO_SYNC_MODE)
                  V4L2_CID_VBLANK 100).2.1
              { which := V4L2_SUBDEV_FORMAT_ACTIVE, width := 640, height := 480, code := 0,
                field := 0 }).2.1
            V4L2_CID_VBLANK 100).2.1
          { which := V4L2_SUBDEV_FORMAT_ACTIVE, width := 640, height := 480, code := 0,
            field := 0 }).2.1.cur_vts = supported_modes_0.vts_def)
    ∧ supported_modes_0.vts_def = 2250 :=
  ⟨⟨ReachableConsistent.set_fmt _ _ _ _
      (ReachableConsistent.vblank _ _ _ _
        (ReachableConsistent.init (imx678_probe_alloc NO_SYNC_MODE) supported_modes_0_ok)
        (by decide) (by decide))
      rfl,
    by decide, by decide, by decide, rfl⟩,
   (exposure_max_eq_cur_vts_sub_4.2.1 _
      (ReachableConsistent.set_fmt _ _ _ _
        (ReachableConsistent.vblank _ _ _ _
          (ReachableConsistent.init (imx678_probe_alloc NO_SYNC_MODE) supported_modes_0_ok)
          (by decide) (by decide))
        rfl)
      Env.all_ok { World.init with pm_usage := 1 } 100 (by decide) (by decide)).1
      (by decide),
   by decide, by decide,
   exposure_max_eq_cur_vts_sub_4.2.2 _ _ _ _ rfl,
   by decide⟩

/-! ## C6, with the control commit -/

/-- `imx678_set_ctrl` only appends to the log, and neither a write of 0 to `0x3000` nor a
delay. -/
theorem set_ctrl_log_quiet (env : Env) (w : World) (s : imx678) (id : ctrl_id) (v : Int) :
    ∃ evs, (imx678_set_ctrl env w s id v).1.log = w.log ++ evs
      ∧ Event.i2c_master_send [0x30, 0x00, 0x00] ∉ evs
      ∧ ∀ lo hi, Event.usleep_range lo hi ∉ evs := by
  unfold imx678_set_ctrl
  by_cases hp : 0 < w.pm_usage <;> cases id <;>
    (try simp [pm_runtime_get_if_in_use, hp, pm_runtime_put, World.emit, write_reg_08_eq,
      imx678_enable_test_pattern, IMX678_SHR_EXPO_REG_H, IMX678_SHR_EXPO_REG_M,
      IMX678_SHR_EXPO_REG_L, IMX678_REG_GAIN, IMX678_REG_VTS_H, IMX678_REG_VTS_M,
      IMX678_REG_VTS_L, IMX678_REG_TEST_PATTERN]
     try (intro h; exact absurd h (by decide)))

theorem ctrl_replay_log_quiet (env : Env) (ids : List ctrl_id) :
    ∀ (w : World) (s : imx678),
      ∃ evs, (ctrl_replay env w s ids).1.log = w.log ++ evs
        ∧ Event.i2c_master_send [0x30, 0x00, 0x00] ∉ evs
        ∧ ∀ lo hi, Event.usleep_range lo hi ∉ evs := by
  induction ids with
  | nil => intro w s; exact ⟨[], by simp [ctrl_replay], by simp, by simp⟩
  | cons id ids ih =>
    intro w s
    unfold ctrl_replay
    obtain ⟨e1, h1, n1, d1⟩ := set_ctrl_log_quiet env w s id (ctrl_val s id)
    by_cases h : (imx678_set_ctrl env w s id (ctrl_val s id)).2.2 ≠ 0
    · rw [if_pos h]
      exact ⟨e1, h1, n1, d1⟩
    · rw [if_neg h]
      obtain ⟨e2, h2, n2, d2⟩ := ih (imx678_set_ctrl env w s id (ctrl_val s id)).1
        (imx678_set_ctrl env w s id (ctrl_val s id)).2.1
      refine ⟨e1 ++ e2, by rw [h2, h1, List.append_assoc], ?_, ?_⟩
      · simp only [List.mem_append, not_or]
        exact ⟨n1, n2⟩
      · intro lo hi
        simp only [List.mem_append, not_or]
        exact ⟨d1 lo hi, d2 lo hi⟩

/-- C6, as the driver has it. Starting streaming from Stopped with sync role
ExternalMaster, when power acquisition and every register write succeed, returns 0 and
marks the device Streaming, and the log gains, in this order: the power acquisition, the
base program, the operations of the control commit, the 24-30 ms settle delay, the
external-master start program (`0x3010 := 0x05`, `0x31a1 := 0x03`, `0x31d9 := 0x01`) and
the master-mode write `0x3002 := 0`.  The control commit holds no write of 0 to `0x3000`
and no delay, so after the base program the streaming-enable write `0x3000 := 0` of role
None is not issued and the settle delay is the only delay. -/
theorem s_stream_start_external_master (env : Env) (w : World) (s : imx678) (on_arg : Int)
    (hon : on_arg ≠ 0) (hs : s.streaming = false) (hr : s.sync_mode = EXTERNAL_MASTER_MODE)
    (hpm : 0 ≤ env.pm_get_sync_ret) (hall : ∀ k, env.i2c_send_ok k = true) :
    (imx678_s_stream env w s on_arg).2.2 = 0
      ∧ (imx678_s_stream env w s on_arg).2.1.streaming = true
      ∧ ∃ commit,
          (start_commit env (pm_runtime_get_sync env w).1 s).1.log
            = w.log ++ [Event.pm_runtime_get_sync]
                ++ program_events s.cur_mode.global_reg_list ++ commit
          ∧ Event.i2c_master_send [0x30, 0x00, 0x00] ∉ commit
          ∧ (∀ lo hi, Event.usleep_range lo hi ∉ commit)
          ∧ (imx678_s_stream env w s on_arg).1.log =
              w.log ++ [Event.pm_runtime_get_sync]
                ++ program_events s.cur_mode.global_reg_list ++ commit
                ++ [Event.usleep_range 24000 30000, Event.i2c_master_send [0x30, 0x10, 0x05],
                    Event.i2c_master_send [0x31, 0xa1, 0x03],
                    Event.i2c_master_send [0x31, 0xd9, 0x01],
                    Event.i2c_master_send [0x30, 0x02, 0x00]] := by
  obtain ⟨h1, h2, _, _⟩ := s_stream_start_all_ok env w s on_arg hon hs hpm hall
  have h0 := (start_stream_all_ok env hall (pm_runtime_get_sync env w).1 s).1
  have hb := write_array_ok env hall s.cur_mode.global_reg_list (pm_runtime_get_sync env w).1
  have hb2 : (imx678_write_array env (pm_runtime_get_sync env w).1
      s.cur_mode.global_reg_list).2 = 0 := by rw [hb]
  have hc : (start_commit env (pm_runtime_get_sync env w).1 s).2.2 = 0 :=
    ctrl_replay_ok env hall replayed_ctrls _ s
  obtain ⟨commit, hcl, hn, hd⟩ := ctrl_replay_log_quiet env replayed_ctrls
    (imx678_write_array env (pm_runtime_get_sync env w).1 s.cur_mode.global_reg_list).1 s
  have hcl2 : (start_commit env (pm_runtime_get_sync env w).1 s).1.log
      = w.log ++ [Event.pm_runtime_get_sync]
          ++ program_events s.cur_mode.global_reg_list ++ commit := by
    unfold start_commit v4l2_ctrl_handler_setup
    rw [hcl, hb]
    rfl
  have hrole : s.sync_mode ≠ NO_SYNC_MODE := by rw [hr]; decide
  have hpe : program_events imx678_external_sync_master_start_regs
      = [Event.i2c_master_send [0x30, 0x10, 0x05], Event.i2c_master_send [0x31, 0xa1, 0x03],
         Event.i2c_master_send [0x31, 0xd9, 0x01]] := by decide
  have hm : [(imx678_REG_MARSTER_MODE >>> 8) &&& 0xff, imx678_REG_MARSTER_MODE &&& 0xff,
      (0 % 4294967296) &&& 0xff] = [0x30, 0x02, 0x00] := by decide
  have hul : (usleep_range (start_commit env (pm_runtime_get_sync env w).1 s).1
      24000 30000).log
      = (start_commit env (pm_runtime_get_sync env w).1 s).1.log
          ++ [Event.usleep_range 24000 30000] := rfl
  refine ⟨h1, h2, commit, hcl2, hn, hd, ?_⟩
  rw [s_stream_start_eq env w s on_arg hon hs hpm, if_neg (not_not.mpr h0)]
  show (__imx678_start_stream env (pm_runtime_get_sync env w).1 s).1.log = _
  rw [start_stream_sync_eq env (pm_runtime_get_sync env w).1 s hrole hb2 hc]
  simp only [write_reg_08_fst, hr, sync_start_regs, write_array_ok env hall, hpe, hm, hul,
    hcl2]
  simp

/-- Instance of the ExternalMaster start: the device as attached with that role, every
collaborator succeeding; the log after the base program is the control commit, the settle
delay, the three writes of the start program and `0x3002 := 0`. -/
theorem s_stream_start_external_master_witness :
    ((1 : Int) ≠ 0 ∧ (imx678_probe_state EXTERNAL_MASTER_MODE).streaming = false
      ∧ (imx678_probe_state EXTERNAL_MASTER_MODE).sync_mode = EXTERNAL_MASTER_MODE
      ∧ 0 ≤ Env.all_ok.pm_get_sync_ret ∧ ∀ k, Env.all_ok.i2c_send_ok k = true)
    ∧ (imx678_s_stream Env.all_ok World.init (imx678_probe_state EXTERNAL_MASTER_MODE) 1).2.2
        = 0
    ∧ (imx678_s_stream Env.all_ok World.init
          (imx678_probe_state EXTERNAL_MASTER_MODE) 1).2.1.streaming = true
    ∧ ∃ commit,
        (start_commit Env.all_ok (pm_runtime_get_sync Env.all_ok World.init).1
            (imx678_probe_state EXTERNAL_MASTER_MODE)).1.log
          = World.init.log ++ [Event.pm_runtime_get_sync]
              ++ program_events
                  (imx678_probe_state EXTERNAL_MASTER_MODE).cur_mode.global_reg_list
              ++ commit
        ∧ Event.i2c_master_send [0x30, 0x00, 0x00] ∉ commit
        ∧ (∀ lo hi, Event.usleep_range lo hi ∉ commit)
        ∧ (imx678_s_stream Env.all_ok World.init
              (imx678_probe_state EXTERNAL_MASTER_MODE) 1).1.log =
            World.init.log ++ [Event.pm_runtime_get_sync]
              ++ program_events
                  (imx678_probe_state EXTERNAL_MASTER_MODE).cur_mode.global_reg_list
              ++ commit
              ++ [Event.usleep_range 24000 30000, Event.i2c_master_send [0x30, 0x10, 0x05],
                  Event.i2c_master_send [0x31, 0xa1, 0x03],
                  Event.i2c_master_send [0x31, 0xd9, 0x01],
                  Event.i2c_master_send [0x30, 0x02, 0x00]] :=
  ⟨⟨by decide, by decide, by decide, by decide, fun _ => rfl⟩,
   s_stream_start_external_master Env.all_ok World.init
      (imx678_probe_state EXTERNAL_MASTER_MODE) 1
      (by decide) (by decide) (by decide) (by decide) (fun _ => rfl)⟩

end Imx678
